import Mathlib

/-!
# Super Gato Jetpack: level simulation core

A shallow embedding of the gameplay logic of the repository
(`src/config/Config.js`, `src/controlDamage/HealthManager.js`,
`src/entities/*.js`, `src/scenes/GameScene.js`) together with theorems about it.

Conventions of the embedding

* The process-wide object `GAME_STATE` and the fields of the running
  `GameScene` are threaded explicitly through one record, `GameScene`.
* Calls into collaborators that the program only notifies
  (`scene.events.emit`, `scene.scene.start`, `scene.time.delayedCall`) are
  appended, in program order, to the `effects` log of the scene; the closure
  handed to `delayedCall` is run by an explicit step
  (`Player.invulnerabilityCallback`).
* World coordinates are integers: every position the generator of
  `GameScene.create` produces is one.
* `Math.random` and `Phaser.Math.Between` read an explicit stream of draws.
* Calls into the host engine (`enableBody`, `disableBody`, `group.get`,
  `Phaser.Math.*`) are modelled by what the engine documents for them; the
  definitions say so.
* Floating-point results of the engine (the bearing to the player, the
  velocity of a rotation, the sine wave of the bats) are parameters, gathered
  in `Engine`; what the physics step does between two `update` calls is given
  to each frame as data (`Tick`, `Sighting`, the positions of `Bullet.flight`).
-/

namespace SuperGato

/-! ## Config.js -/

/-- Keys of `DIFFICULTY_SETTINGS`. -/
inductive Difficulty where
  | EASY
  | NORMAL
  | HARD
  deriving DecidableEq, Repr

/-- Type of the global `GAME_STATE` object. -/
structure GameState where
  difficulty : Difficulty
  lives : Int
  level : Int
  maxLevels : Int
  score : Int
  deriving DecidableEq, Repr

/-- Initial value of the global `GAME_STATE` object (Config.js). -/
def GAME_STATE : GameState :=
  { difficulty := Difficulty.NORMAL, lives := 7, level := 1, maxLevels := 3, score := 0 }

/-- One entry of `DIFFICULTY_SETTINGS`. -/
structure DifficultySetting where
  enemySpeed : Int
  shootDelay : Nat
  bossHp : Int
  enemyDist : Int
  deriving DecidableEq, Repr

/-- The table `DIFFICULTY_SETTINGS` (Config.js). -/
def DIFFICULTY_SETTINGS : Difficulty → DifficultySetting
  | Difficulty.EASY => { enemySpeed := 50, shootDelay := 5000, bossHp := 5, enemyDist := 500 }
  | Difficulty.NORMAL => { enemySpeed := 100, shootDelay := 4000, bossHp := 10, enemyDist := 300 }
  | Difficulty.HARD => { enemySpeed := 180, shootDelay := 3000, bossHp := 20, enemyDist := 150 }

/-! ## Collaborator notifications and deferred callbacks -/

/-- Closures handed to `scene.time.delayedCall` and `scene.time.addEvent`. -/
inductive Callback where
  | clearInvulnerable
  | clearTint
  | respawnFade
  | winTransition
  | shoot
  | attack
  deriving DecidableEq, Repr

/-- Requests sent to collaborators.  `updateLives n` is
`scene.events.emit('updateLives')`, recorded with the value of
`GAME_STATE.lives` that the synchronous HUD listener of `createHUD` reads;
`startGameOver win` is `scene.scene.start('GameOverScene', { win })`;
`delayedCall ms cb` is `scene.time.delayedCall(ms, cb)`;
`addEvent ms cb` is `scene.time.addEvent({ delay: ms, callback: cb, loop: true })`;
`playExplosion` is `audioManager.playExplosion()`. -/
inductive Effect where
  | updateLives (shown : Int)
  | startGameOver (win : Bool)
  | delayedCall (delay : Nat) (callback : Callback)
  | addEvent (delay : Nat) (callback : Callback)
  | playExplosion
  deriving DecidableEq, Repr

/-! ## Bullet.js and the bullet pool -/

/-- A `Bullet` sprite: the fields the program reads or writes.  `width` and
`height` are the size of its texture, `bodyWidth` and `bodyHeight` the size of
its collision box.  Velocity and rotation are rational: `Boss.attack` sets
them from the engine's trigonometry. -/
structure Bullet where
  x : Int
  y : Int
  velocityX : ℚ
  velocityY : ℚ
  rotation : ℚ
  flipX : Bool
  active : Bool
  visible : Bool
  bodyEnabled : Bool
  allowGravity : Bool
  width : ℚ
  height : ℚ
  bodyWidth : ℚ
  bodyHeight : ℚ
  deriving DecidableEq, Repr

/-- Engine call `enableBody(reset, x, y, enableGameObject, showGameObject)` on a
bullet: with `reset` the body is placed at (x, y) with zero velocity; the body
is enabled; the sprite is activated and shown as the two flags say. -/
def Bullet.enableBody (reset : Bool) (x y : Int) (enableGameObject showGameObject : Bool)
    (b : Bullet) : Bullet :=
  let b1 := if reset then { b with x := x, y := y, velocityX := 0, velocityY := 0 } else b
  { b1 with
    bodyEnabled := true,
    active := if enableGameObject then true else b1.active,
    visible := if showGameObject then true else b1.visible }

/-- Engine call `disableBody(disableGameObject, hideGameObject)` on a bullet. -/
def Bullet.disableBody (disableGameObject hideGameObject : Bool) (b : Bullet) : Bullet :=
  { b with
    velocityX := 0, velocityY := 0, bodyEnabled := false,
    active := if disableGameObject then false else b.active,
    visible := if hideGameObject then false else b.visible }

/-- Method `Bullet.fire(x, y, direction)`. -/
def Bullet.fire (x y direction : Int) (b : Bullet) : Bullet :=
  let b1 := Bullet.enableBody true x y true true b
  let b2 := { b1 with allowGravity := false }
  let b3 := { b2 with velocityX := (direction : ℚ) }
  let b4 := { b3 with flipX := decide (direction < 0) }
  { b4 with bodyWidth := b4.width * (1 / 2), bodyHeight := b4.height * (1 / 2) }

/-- Method `Bullet.update()`, with the width of the physics world bounds. -/
def Bullet.update (worldWidth : Int) (b : Bullet) : Bullet :=
  if b.x < 0 ∨ b.x > worldWidth then Bullet.disableBody true true b else b

/-- A physics group created with `classType: Bullet` and a `maxSize`.
`frameWidth` and `frameHeight` are the size of the one texture its members are
requested with (`'shotHero'` for the player, `'shotEnemy'` for enemies). -/
structure Pool where
  maxSize : Nat
  children : List Bullet
  frameWidth : ℚ
  frameHeight : ℚ
  deriving DecidableEq, Repr

/-- A member freshly built by the group: `new Bullet(scene, x, y, texture)`,
added active and visible, with a body of the size of the texture. -/
def Bullet.new (x y : Int) (width height : ℚ) : Bullet :=
  { x := x, y := y, velocityX := 0, velocityY := 0, rotation := 0, flipX := false,
    active := true, visible := true, bodyEnabled := true, allowGravity := true,
    width := width, height := height, bodyWidth := width, bodyHeight := height }

/-- Modelled from the spec: the pool acquire `group.get(x, y, key)` of the host
engine, whose code is not part of the repository (spec 4.1: a free slot up to
the fixed capacity, or none when the capacity is exhausted).  The first
inactive member, moved to (x, y), is returned; when every member is active a
new one is created unless the group already holds `maxSize` members, in which
case the result is `none`.  The result is the index of the slot and the group
after the call. -/
def Pool.get (x y : Int) (pool : Pool) : Option (Nat × Pool) :=
  match pool.children.findIdx? (fun b => !b.active) with
  | some i =>
    some (i, { pool with children := pool.children.modify (fun b => { b with x := x, y := y }) i })
  | none =>
    if pool.children.length < pool.maxSize then
      some (pool.children.length,
        { pool with
          children := pool.children ++ [Bullet.new x y pool.frameWidth pool.frameHeight] })
    else none

/-- Number of active members of a group. -/
def Pool.activeCount (pool : Pool) : Nat :=
  pool.children.countP (fun b => b.active)

/-- A method call on the member in slot `i` of a group. -/
def Pool.modify (f : Bullet → Bullet) (i : Nat) (pool : Pool) : Pool :=
  { pool with children := pool.children.modify f i }

/-! ## Player.js -/

/-- The `Player` sprite: the fields the program reads or writes.  `alpha` is in
hundredths; `tint` is `none` after `clearTint`. -/
structure Player where
  x : Int
  y : Int
  velocityX : Int
  velocityY : Int
  flipX : Bool
  active : Bool
  hasBody : Bool
  bodyEnabled : Bool
  allowGravity : Bool
  flyingTexture : Bool
  alpha : Nat
  tint : Option Nat
  lives : Int
  isInvulnerable : Bool
  isFlying : Bool
  lastFired : Int
  jetpackTimer : Int
  bullets : Pool
  deriving DecidableEq, Repr

/-! ## Distances -/

/-- Engine function `Phaser.Math.Distance.Squared(x1, y1, x2, y2)`. -/
def Phaser.Math.Distance.Squared (x1 y1 x2 y2 : Int) : Int :=
  (x1 - x2) ^ 2 + (y1 - y2) ^ 2

/-- The test `Phaser.Math.Distance.Between(x1, y1, x2, y2) < d` for integer
coordinates and `d ≥ 0`: the square root of the squared distance is below `d`
exactly when the squared distance is below `d * d`. -/
def distanceBelow (x1 y1 x2 y2 d : Int) : Bool :=
  decide (Phaser.Math.Distance.Squared x1 y1 x2 y2 < d * d)

/-- The test `Phaser.Math.Distance.Between(x1, y1, x2, y2) > d` for integer
coordinates and `d ≥ 0`. -/
def distanceAbove (x1 y1 x2 y2 d : Int) : Bool :=
  decide (Phaser.Math.Distance.Squared x1 y1 x2 y2 > d * d)

/-- Floating-point functions of the host engine, taken as parameters:
`Phaser.Math.Angle.Between(x1, y1, x2, y2)`; the velocity vector that
`physics.velocityFromRotation(rotation, speed, vec)` stores; and the value of
`Math.sin(time / 300) * 40`, in whole units. -/
structure Engine where
  angleBetween : Int → Int → Int → Int → ℚ
  velocityFromRotation : ℚ → ℚ → ℚ × ℚ
  wave : Int → Int

/-! ## Enemy.js, Obstacles.js -/

/-- A static platform tile created by `this.platforms.create(x, y, key)`. -/
structure Tile where
  x : Int
  y : Int
  deriving DecidableEq, Repr

/-- Texture keys of crates. -/
inductive CrateType where
  | caja1
  | caja2
  | caja3
  deriving DecidableEq, Repr

/-- A `Crate` sprite. -/
structure Crate where
  x : Int
  y : Int
  type : CrateType
  active : Bool
  visible : Bool
  bodyEnabled : Bool
  deriving DecidableEq, Repr

/-- Constructor `new Crate(scene, x, y, type)`. -/
def Crate.new (x y : Int) (type : CrateType) : Crate :=
  { x := x, y := y, type := type, active := true, visible := true, bodyEnabled := true }

/-- Engine call `disableBody(disableGameObject, hideGameObject)` on a crate. -/
def Crate.disableBody (disableGameObject hideGameObject : Bool) (c : Crate) : Crate :=
  { c with
    bodyEnabled := false,
    active := if disableGameObject then false else c.active,
    visible := if hideGameObject then false else c.visible }

/-- Method `Crate.onDestroy()`. -/
def Crate.onDestroy (c : Crate) : Crate :=
  Crate.disableBody true true c

/-- The subclasses of `Enemy`. -/
inductive EnemyKind where
  | PatrolEnemy
  | ShooterEnemy
  | Boss
  | PerroEnemy
  | MurcielagoEnemy
  deriving DecidableEq, Repr

/-- An `Enemy` sprite: the fields of the base class and those its subclasses
add (`speed`, `detectionRange`, `hasDetected`, `startX`, `startY`,
`patrolRange`, `direction`); a field a subclass does not have is 0 or false. -/
structure Enemy where
  kind : EnemyKind
  x : Int
  y : Int
  velocityX : Int
  velocityY : Int
  flipX : Bool
  active : Bool
  visible : Bool
  hasBody : Bool
  bodyEnabled : Bool
  allowGravity : Bool
  immovable : Bool
  tint : Option Nat
  hp : Int
  speed : Int
  detectionRange : Int
  hasDetected : Bool
  startX : Int
  startY : Int
  patrolRange : Int
  direction : Int
  deriving DecidableEq, Repr

/-- Constructor `new Enemy(scene, x, y, texture)` of the base class. -/
def Enemy.new (kind : EnemyKind) (x y : Int) : Enemy :=
  { kind := kind, x := x, y := y, velocityX := 0, velocityY := 0, flipX := false,
    active := true, visible := true, hasBody := true, bodyEnabled := true,
    allowGravity := true, immovable := false, tint := none, hp := 1, speed := 0, detectionRange := 0, hasDetected := false,
    startX := 0, startY := 0, patrolRange := 0, direction := 0 }

/-- Constructor `new PerroEnemy(scene, x, y)`. -/
def PerroEnemy.new (x y : Int) : Enemy :=
  { Enemy.new EnemyKind.PerroEnemy x y with
    speed := 300, detectionRange := 400, hasDetected := false }

/-- Constructor `new MurcielagoEnemy(scene, x, y)`. -/
def MurcielagoEnemy.new (x y : Int) : Enemy :=
  { Enemy.new EnemyKind.MurcielagoEnemy x y with
    speed := 180, allowGravity := false, immovable := true, startX := x, startY := y,
    patrolRange := 300, direction := -1 }

/-- Engine call `disableBody(disableGameObject, hideGameObject)` on an enemy. -/
def Enemy.disableBody (disableGameObject hideGameObject : Bool) (e : Enemy) : Enemy :=
  { e with
    velocityX := 0, velocityY := 0, bodyEnabled := false,
    active := if disableGameObject then false else e.active,
    visible := if hideGameObject then false else e.visible }

/-- Method `Enemy.takeDamage()`: the enemy after the call and the requests it
sends to the scene. -/
def Enemy.takeDamage (e : Enemy) : Enemy × List Effect :=
  let e1 := { e with hp := e.hp - 1 }
  if e1.hp ≤ 0 then (Enemy.disableBody true true e1, [])
  else ({ e1 with tint := some 0xff0000 }, [Effect.delayedCall 100 Callback.clearTint])

/-- Body of the closure that `Enemy.takeDamage` hands to `delayedCall(100, ...)`. -/
def Enemy.clearTintCallback (e : Enemy) : Enemy :=
  if e.active then { e with tint := none } else e

/-- Constructor `new PatrolEnemy(scene, x, y)`. -/
def PatrolEnemy.new (gs : GameState) (x y : Int) : Enemy :=
  let e := { Enemy.new EnemyKind.PatrolEnemy x y with
    speed := (DIFFICULTY_SETTINGS gs.difficulty).enemySpeed }
  { e with velocityX := e.speed }

/-- Method `PatrolEnemy.update()`, with `body.blocked.right` and
`body.blocked.left`. -/
def PatrolEnemy.update (blockedRight blockedLeft : Bool) (e : Enemy) : Enemy :=
  if !e.hasBody then e
  else
    let e1 :=
      if blockedRight then { e with velocityX := -e.speed }
      else if blockedLeft then { e with velocityX := e.speed }
      else e
    { e1 with flipX := decide (e1.velocityX > 0) }

/-- Constructor `new ShooterEnemy(scene, x, y, bulletGroup)`: the sprite; the
repeating timer it registers is `ShooterEnemy.timer`. -/
def ShooterEnemy.new (x y : Int) : Enemy :=
  Enemy.new EnemyKind.ShooterEnemy x y

/-- The `addEvent` request of the `ShooterEnemy` constructor. -/
def ShooterEnemy.timer (gs : GameState) : Effect :=
  Effect.addEvent (DIFFICULTY_SETTINGS gs.difficulty).shootDelay Callback.shoot

/-- Method `ShooterEnemy.shoot()`, with the position of the player; the result
is the bullet group after the call. -/
def ShooterEnemy.shoot (e : Enemy) (playerX playerY : Int) (bulletGroup : Pool) : Pool :=
  if !e.active then bulletGroup
  else if distanceAbove e.x e.y playerX playerY 600 then bulletGroup
  else
    match Pool.get e.x e.y bulletGroup with
    | some (i, pool) =>
      let dir : Int := if playerX < e.x then -300 else 300
      Pool.modify (Bullet.fire e.x e.y dir) i pool
    | none => bulletGroup

/-- Constructor `new Boss(scene, x, y, bulletGroup)`: the sprite; the repeating
timer it registers is `Boss.timer`. -/
def Boss.new (gs : GameState) (x y : Int) : Enemy :=
  { Enemy.new EnemyKind.Boss x y with
    hp := (DIFFICULTY_SETTINGS gs.difficulty).bossHp, immovable := true, allowGravity := false }

/-- The `addEvent` request of the `Boss` constructor. -/
def Boss.timer : Effect :=
  Effect.addEvent 2500 Callback.attack

/-- What the body of the `forEach` in `Boss.attack` does to the bullet it
obtained: `enableBody(true, x, y, true, true)`, gravity off, velocity from the
rotation at speed 300, `setRotation`. -/
def Boss.launch (eng : Engine) (x y : Int) (rotation : ℚ) (b : Bullet) : Bullet :=
  let b1 := Bullet.enableBody true x y true true b
  let b2 := { b1 with allowGravity := false }
  let v := eng.velocityFromRotation rotation 300
  let b3 := { b2 with velocityX := v.1, velocityY := v.2 }
  { b3 with rotation := rotation }

/-- Method `Boss.attack()`, with the position of the player; the result is the
bullet group after the call. -/
def Boss.attack (eng : Engine) (e : Enemy) (playerX playerY : Int) (bulletGroup : Pool) : Pool :=
  if !e.active then bulletGroup
  else
    let angle := eng.angleBetween e.x e.y playerX playerY
    [(-3 / 10 : ℚ), 0, 3 / 10].foldl
      (fun group offset =>
        match Pool.get e.x e.y group with
        | some (i, pool) => Pool.modify (Boss.launch eng e.x e.y (angle + offset)) i pool
        | none => group)
      bulletGroup

/-- Method `PerroEnemy.update()`, with the position of the player. -/
def PerroEnemy.update (playerX playerY : Int) (e : Enemy) : Enemy :=
  if !e.hasBody || !e.active then e
  else if distanceBelow e.x e.y playerX playerY e.detectionRange || e.hasDetected then
    { e with hasDetected := true, velocityX := -e.speed, flipX := true }
  else e

/-- Method `MurcielagoEnemy.update(time)`; `if (time)` holds for a non-zero
time. -/
def MurcielagoEnemy.update (eng : Engine) (time : Int) (e : Enemy) : Enemy :=
  if !e.hasBody || !e.active then e
  else
    let e1 := { e with velocityX := e.speed * e.direction }
    let e2 := if time ≠ 0 then { e1 with y := e1.startY + eng.wave time } else e1
    let traveled := |e2.x - e2.startX|
    if traveled ≥ e2.patrolRange then
      let e3 := { e2 with direction := e2.direction * -1 }
      let e4 := { e3 with startX := e3.x }
      { e4 with flipX := decide (e4.direction > 0) }
    else e2

/-- Kinds of collectable items (`item.type`). -/
inductive ItemType where
  | vida
  | jetpack
  deriving DecidableEq, Repr

/-- A collectable item of the group `items`. -/
structure Item where
  x : Int
  y : Int
  type : ItemType
  active : Bool
  visible : Bool
  bodyEnabled : Bool
  deriving DecidableEq, Repr

/-- Engine call `disableBody(disableGameObject, hideGameObject)` on an item. -/
def Item.disableBody (disableGameObject hideGameObject : Bool) (item : Item) : Item :=
  { item with
    bodyEnabled := false,
    active := if disableGameObject then false else item.active,
    visible := if hideGameObject then false else item.visible }

/-! ## GameScene.js: scene state -/

/-- The running scene together with the global `GAME_STATE`.  The groups
`platforms`, `crates`, `enemies` and `items` list all their children, active or
not, in insertion order, as `getChildren()` returns them.  `boss` is the
position in `enemies` of the object `this.boss` refers to. -/
structure GameScene where
  GAME_STATE : GameState
  player : Player
  platforms : List Tile
  crates : List Crate
  enemies : List Enemy
  items : List Item
  enemyBullets : Pool
  bossSpawned : Bool
  boss : Option Nat
  effects : List Effect
  deriving DecidableEq, Repr

/-- Size of the `'shotHero'` and `'shotEnemy'` textures.  The image files are
not among the sources; this value stands for their size and no result below
depends on it. -/
def shotFrame : ℚ × ℚ := (32, 16)

/-- Constructor `new Player(scene, x, y)`: the sprite starts active with a
body, `lives` is copied from `GAME_STATE.lives`, and the bullet group is empty
with `maxSize: 10`. -/
def Player.new (gs : GameState) (x y : Int) : Player :=
  { x := x, y := y, velocityX := 0, velocityY := 0, flipX := false,
    active := true, hasBody := true, bodyEnabled := true, allowGravity := true,
    flyingTexture := false, alpha := 100, tint := none,
    lives := gs.lives, isInvulnerable := false, isFlying := false,
    lastFired := 0, jetpackTimer := 0,
    bullets := { maxSize := 10, children := [],
                 frameWidth := shotFrame.1, frameHeight := shotFrame.2 } }

/-- Method `GameScene.init(data)`: `data.difficulty || 'NORMAL'`, then level 1,
7 lives and score 0. -/
def GameScene.init (difficulty : Option Difficulty) (gs : GameState) : GameState :=
  { gs with
    difficulty := difficulty.getD Difficulty.NORMAL,
    level := 1,
    lives := 7,
    score := 0 }

/-- The scene after `init(data)` and the parts of `create()` that do not depend
on the random world generator: empty groups, the enemy bullet group with
`maxSize: 50`, and the player constructed at (100, 450). -/
def GameScene.start (difficulty : Option Difficulty) (gs : GameState) : GameScene :=
  let gs1 := GameScene.init difficulty gs
  { GAME_STATE := gs1, player := Player.new gs1 100 450,
    platforms := [], crates := [], enemies := [], items := [],
    bossSpawned := false, boss := none,
    enemyBullets := { maxSize := 50, children := [],
                      frameWidth := shotFrame.1, frameHeight := shotFrame.2 },
    effects := [] }

/-! ## HealthManager.js -/

/-- Method `HealthManager.updateLives(delta)`. -/
def HealthManager.updateLives (delta : Int) (s : GameScene) : GameScene :=
  let lives := max 0 (min (s.GAME_STATE.lives + delta) 7)
  { s with
    GAME_STATE := { s.GAME_STATE with lives := lives },
    effects := s.effects ++ [Effect.updateLives lives] }

/-- Method `HealthManager.heal()`. -/
def HealthManager.heal (s : GameScene) : GameScene :=
  HealthManager.updateLives 1 s

/-- Method `HealthManager.damage()`. -/
def HealthManager.damage (s : GameScene) : GameScene :=
  HealthManager.updateLives (-1) s

/-! ## Player.takeDamage -/

/-- Engine call `disableBody(disableGameObject, hideGameObject)` on the player:
the body is stopped and disabled, and the sprite is deactivated when
`disableGameObject` is set. -/
def Player.disableBody (disableGameObject : Bool) (p : Player) : Player :=
  { p with
    velocityX := 0, velocityY := 0, bodyEnabled := false,
    active := if disableGameObject then false else p.active }

/-- Method `Player.takeDamage()`. -/
def Player.takeDamage (s : GameScene) : GameScene :=
  if s.player.isInvulnerable || !s.player.active then s
  else
    let lives := s.player.lives - 1
    let p1 := { s.player with lives := lives }
    let s1 := { s with
      player := p1,
      GAME_STATE := { s.GAME_STATE with lives := lives },
      effects := s.effects ++ [Effect.updateLives lives] }
    if lives ≤ 0 then
      { s1 with
        player := Player.disableBody true p1,
        effects := s1.effects ++ [Effect.startGameOver false] }
    else
      { s1 with
        player := { p1 with isInvulnerable := true, alpha := 50, tint := some 0xff0000 },
        effects := s1.effects ++ [Effect.delayedCall 1500 Callback.clearInvulnerable] }

/-- Body of the closure that `Player.takeDamage` hands to
`delayedCall(1500, ...)`. -/
def Player.invulnerabilityCallback (s : GameScene) : GameScene :=
  if s.player.active then
    { s with player := { s.player with isInvulnerable := false, alpha := 100, tint := none } }
  else s

/-! ## Player.update -/

/-- What `Player.update` reads from the keyboard and the physics body in one
frame: `isDown` of the cursor keys and of SPACE, `JustDown` of UP, SPACE and X,
and `body.blocked.down || body.touching.down`. -/
structure Input where
  left : Bool
  right : Bool
  up : Bool
  space : Bool
  upJustDown : Bool
  spaceJustDown : Bool
  xJustDown : Bool
  onGround : Bool
  deriving DecidableEq, Repr

/-- Method `Player.activateJetpack()`. -/
def Player.activateJetpack (p : Player) : Player :=
  { p with flyingTexture := true, isFlying := true, jetpackTimer := 8000, allowGravity := false }

/-- Method `Player.deactivateJetpack()`. -/
def Player.deactivateJetpack (p : Player) : Player :=
  { p with isFlying := false, flyingTexture := false, allowGravity := true, velocityY := 100 }

/-- The fire branch of `Player.update(time)`: on `JustDown(keys.x)` with
`time > lastFired`, a bullet is requested from the pool at the player's
position; if one is returned it is fired at 700 in the facing direction and
`lastFired` becomes `time + 250`. -/
def Player.fireAction (time : Int) (inp : Input) (p : Player) : Player :=
  if inp.xJustDown && decide (time > p.lastFired) then
    match Pool.get p.x p.y p.bullets with
    | some (i, pool) =>
      { p with
        bullets := Pool.modify (Bullet.fire p.x p.y (if p.flipX then -700 else 700)) i pool,
        lastFired := time + 250 }
    | none => p
  else p

/-- Method `Player.update(time)`; times are in milliseconds. -/
def Player.update (time : Int) (inp : Input) (p : Player) : Player :=
  if !p.hasBody || !p.active then p
  else
    let speed : Int := if p.isFlying then 350 else 250
    let p1 :=
      if inp.left then { p with velocityX := -speed, flipX := true }
      else if inp.right then { p with velocityX := speed, flipX := false }
      else { p with velocityX := 0 }
    let isJumpPressed := inp.up || inp.space
    let p2 :=
      if p1.isFlying then
        let p3 := { p1 with velocityY := if isJumpPressed then -300 else 80 }
        let p4 := { p3 with jetpackTimer := p3.jetpackTimer - 16 }
        if p4.jetpackTimer ≤ 0 then Player.deactivateJetpack p4 else p4
      else if inp.upJustDown || inp.spaceJustDown then
        if inp.onGround then { p1 with velocityY := -950 } else p1
      else p1
    Player.fireAction time inp p2

/-! ## GameScene.getValidSpawnPosition and spawnSpecialEnemies -/

/-- The stream of random draws and the number of draws already consumed. -/
structure Rng where
  draws : Nat → Nat
  cursor : Nat

/-- Modelled from the spec: the engine function `Phaser.Math.Between(min, max)`,
whose code is not part of the repository (spec 4.4: a random x in
[1000, bossAreaStart - 500], a random height in [50, 350]).  It returns an
integer of [min, max], here the next draw reduced into that range. -/
def Phaser.Math.Between (min max : Int) (rng : Rng) : Int × Rng :=
  (min + (rng.draws rng.cursor : Int) % (max - min + 1), { rng with cursor := rng.cursor + 1 })

/-- A pair `{ x, y }`. -/
structure Pos where
  x : Int
  y : Int
  deriving DecidableEq, Repr

/-- The constant `bossAreaStart`. -/
def bossAreaStart : Int := 17500

/-- The `while (attempts < 30)` loop of `getValidSpawnPosition(grounded)`,
entered with `remaining = 30 - attempts` iterations still allowed.  The three
`continue` statements are the three recursive calls. -/
def GameScene.getValidSpawnPositionLoop (s : GameScene) (grounded : Bool) :
    Nat → Rng → Option Pos × Rng
  | 0, rng => (none, rng)
  | remaining + 1, rng =>
    let (rx, rng1) := Phaser.Math.Between 1000 (bossAreaStart - 500) rng
    let (ry, rng2) := if grounded then ((500 : Int), rng1) else Phaser.Math.Between 50 350 rng1
    let overlapPlat := s.platforms.any (fun p => distanceBelow rx ry p.x p.y 100)
    if overlapPlat then GameScene.getValidSpawnPositionLoop s grounded remaining rng2
    else
      let overlapCrate := s.crates.any (fun c => distanceBelow rx ry c.x c.y 100)
      if overlapCrate then GameScene.getValidSpawnPositionLoop s grounded remaining rng2
      else
        let overlapEnemy := s.enemies.any (fun e => distanceBelow rx ry e.x e.y 200)
        if overlapEnemy then GameScene.getValidSpawnPositionLoop s grounded remaining rng2
        else (some { x := rx, y := ry }, rng2)

/-- Method `GameScene.getValidSpawnPosition(grounded)`: `attempts` starts at 0. -/
def GameScene.getValidSpawnPosition (s : GameScene) (grounded : Bool) (rng : Rng) :
    Option Pos × Rng :=
  GameScene.getValidSpawnPositionLoop s grounded 30 rng

/-- One `for` loop of `spawnSpecialEnemies`: `count` iterations, each asking for
a position and adding an enemy built by `build` when one is returned. -/
def GameScene.spawnLoop (build : Int → Int → Enemy) (grounded : Bool) :
    Nat → GameScene → Rng → GameScene × Rng
  | 0, s, rng => (s, rng)
  | count + 1, s, rng =>
    match GameScene.getValidSpawnPosition s grounded rng with
    | (some pos, rng1) =>
      GameScene.spawnLoop build grounded count
        { s with enemies := s.enemies ++ [build pos.x pos.y] } rng1
    | (none, rng1) => GameScene.spawnLoop build grounded count s rng1

/-- Method `GameScene.spawnSpecialEnemies()`: 12 dogs on the ground, then 9 bats
in the air. -/
def GameScene.spawnSpecialEnemies (s : GameScene) (rng : Rng) : GameScene × Rng :=
  let (s1, rng1) := GameScene.spawnLoop PerroEnemy.new true 12 s rng
  GameScene.spawnLoop MurcielagoEnemy.new false 9 s1 rng1

/-! ### Reading of the validator as a search over the 30 candidate samples -/

/-- The stream after `k` further draws. -/
def Rng.skip (k : Nat) (rng : Rng) : Rng :=
  { rng with cursor := rng.cursor + k }

/-- Draws consumed by one sample: `rx` always, `ry` only when not grounded. -/
def drawsPerSample (grounded : Bool) : Nat :=
  if grounded then 1 else 2

/-- The sample drawn in iteration `i` (counted from 0) of a call started at
`rng`: a grounded call consumes one draw per sample, an airborne call two. -/
def spawnSample (grounded : Bool) (rng : Rng) (i : Nat) : Pos :=
  if grounded then
    { x := (Phaser.Math.Between 1000 (bossAreaStart - 500)
              { rng with cursor := rng.cursor + i }).1,
      y := 500 }
  else
    { x := (Phaser.Math.Between 1000 (bossAreaStart - 500)
              { rng with cursor := rng.cursor + 2 * i }).1,
      y := (Phaser.Math.Between 50 350 { rng with cursor := rng.cursor + 2 * i + 1 }).1 }

/-- A sample passes the three distance checks. -/
def spawnAccepts (s : GameScene) (pos : Pos) : Bool :=
  !(s.platforms.any (fun p => distanceBelow pos.x pos.y p.x p.y 100)) &&
  !(s.crates.any (fun c => distanceBelow pos.x pos.y c.x c.y 100)) &&
  !(s.enemies.any (fun e => distanceBelow pos.x pos.y e.x e.y 200))

/-! ## GameScene.js: overlap callbacks registered by `create()` -/

/-- Callback of `overlap(player, enemies)`: `p.takeDamage()`. -/
def GameScene.onPlayerEnemy (s : GameScene) : GameScene :=
  Player.takeDamage s

/-- The call `e.takeDamage()` on the enemy in position `ei` of the group. -/
def GameScene.enemyTakeDamage (ei : Nat) (s : GameScene) : GameScene :=
  match s.enemies[ei]? with
  | some e =>
    { s with
      enemies := s.enemies.set ei (Enemy.takeDamage e).1,
      effects := s.effects ++ (Enemy.takeDamage e).2 }
  | none => s

/-- Callback of `overlap(player.bullets, enemies)` for the bullet in slot `bi`
and the enemy in position `ei`: `b.disableBody(true, true); e.takeDamage()`. -/
def GameScene.onPlayerBulletEnemy (bi ei : Nat) (s : GameScene) : GameScene :=
  let s1 := { s with
    player := { s.player with
      bullets := Pool.modify (Bullet.disableBody true true) bi s.player.bullets } }
  GameScene.enemyTakeDamage ei s1

/-- Callback of `overlap(player, enemyBullets)` for the bullet in slot `bi`:
`eb.disableBody(true, true); p.takeDamage()`. -/
def GameScene.onPlayerEnemyBullet (bi : Nat) (s : GameScene) : GameScene :=
  Player.takeDamage
    { s with enemyBullets := Pool.modify (Bullet.disableBody true true) bi s.enemyBullets }

/-- Callback of `overlap(player, items)` for the item in position `ii`. -/
def GameScene.onPlayerItem (ii : Nat) (s : GameScene) : GameScene :=
  match s.items[ii]? with
  | some item =>
    let s1 :=
      match item.type with
      | ItemType.vida => HealthManager.heal s
      | ItemType.jetpack => { s with player := Player.activateJetpack s.player }
    { s1 with items := s1.items.modify (Item.disableBody true true) ii }
  | none => s

/-- An item as `this.items.create(x, y, key)` builds it, with its `type` set. -/
def Item.new (x y : Int) (type : ItemType) : Item :=
  { x := x, y := y, type := type, active := true, visible := true, bodyEnabled := true }

/-- Method `GameScene.handleCrateDestruction(crate)` for the crate in position
`ci` of the group: the explosion sound, a life item 20 above a `'caja2'` crate,
then `crate.onDestroy()`.  The flare sprite and its tween only paint. -/
def GameScene.handleCrateDestruction (ci : Nat) (s : GameScene) : GameScene :=
  match s.crates[ci]? with
  | some crate =>
    let s1 := { s with effects := s.effects ++ [Effect.playExplosion] }
    let s2 :=
      if crate.type = CrateType.caja2 then
        { s1 with items := s1.items ++ [Item.new crate.x (crate.y - 20) ItemType.vida] }
      else s1
    { s2 with crates := s2.crates.modify Crate.onDestroy ci }
  | none => s

/-- Callback of `overlap(player.bullets, crates)` for the bullet in slot `bi`
and the crate in position `ci`. -/
def GameScene.onPlayerBulletCrate (bi ci : Nat) (s : GameScene) : GameScene :=
  GameScene.handleCrateDestruction ci
    { s with
      player := { s.player with
        bullets := Pool.modify (Bullet.disableBody true true) bi s.player.bullets } }

/-! ## GameScene.update -/

/-- What one call of `GameScene.update(time)` reads from outside the scene
state: the time, the keyboard and ground contact of the player, and for the
enemy in each position its `body.blocked.right` and `body.blocked.left`. -/
structure Frame where
  time : Int
  input : Input
  blocked : Nat → Bool × Bool

/-- The method `update` that `e.update(time)` resolves to for an enemy in
position `i`; `ShooterEnemy` and `Boss` inherit the empty `update` of the
engine's sprite. -/
def Enemy.update (eng : Engine) (frame : Frame) (playerX playerY : Int) (i : Nat)
    (e : Enemy) : Enemy :=
  match e.kind with
  | EnemyKind.PatrolEnemy => PatrolEnemy.update (frame.blocked i).1 (frame.blocked i).2 e
  | EnemyKind.ShooterEnemy => e
  | EnemyKind.Boss => e
  | EnemyKind.PerroEnemy => PerroEnemy.update playerX playerY e
  | EnemyKind.MurcielagoEnemy => MurcielagoEnemy.update eng frame.time e

/-- The loop `this.enemies.children.iterate(e => e.update(time))` over the
enemies from position `i` on. -/
def GameScene.iterateEnemies (f : Nat → Enemy → Enemy) : Nat → List Enemy → List Enemy
  | _, [] => []
  | i, e :: rest => f i e :: GameScene.iterateEnemies f (i + 1) rest

/-- The abyss sensor of `GameScene.update`. -/
def GameScene.abyssSensor (s : GameScene) : GameScene :=
  if s.player.y > 600 then
    let s1 := { s with player := { s.player with velocityX := 0, velocityY := 0 } }
    let s2 := Player.takeDamage s1
    if s2.GAME_STATE.lives > 0 then
      let respawnX := max 100 (s2.player.x - 200)
      { s2 with
        player := { s2.player with x := respawnX, y := 100, alpha := 50 },
        effects := s2.effects ++ [Effect.delayedCall 1000 Callback.respawnFade] }
    else s2
  else s

/-- Body of the closure that the abyss sensor hands to `delayedCall(1000, ...)`. -/
def GameScene.respawnFadeCallback (s : GameScene) : GameScene :=
  if s.player.active then { s with player := { s.player with alpha := 100 } } else s

/-- The boss trigger of `GameScene.update`: the boss is built at (17850, 300)
and added to the enemies. -/
def GameScene.bossTrigger (s : GameScene) : GameScene :=
  if decide (s.player.x ≥ 17500) && !s.bossSpawned then
    { s with
      bossSpawned := true,
      boss := some s.enemies.length,
      enemies := s.enemies ++ [Boss.new s.GAME_STATE 17850 300],
      effects := s.effects ++ [Boss.timer] }
  else s

/-- The test `this.boss && !this.boss.active`. -/
def GameScene.bossInactive (s : GameScene) : Bool :=
  match s.boss with
  | some i =>
    match s.enemies[i]? with
    | some b => !b.active
    | none => false
  | none => false

/-- The win check of `GameScene.update`. -/
def GameScene.winCheck (s : GameScene) : GameScene :=
  if s.bossSpawned && GameScene.bossInactive s then
    { s with effects := s.effects ++ [Effect.delayedCall 1500 Callback.winTransition] }
  else s

/-- Body of the closure that the win check hands to `delayedCall(1500, ...)`. -/
def GameScene.winCallback (s : GameScene) : GameScene :=
  { s with effects := s.effects ++ [Effect.startGameOver true] }

/-- Method `GameScene.update(time)`: the player, every enemy, then the abyss
sensor, the boss trigger and the win check.  The redraw of the fuel bar
between the enemies and the abyss sensor only paints. -/
def GameScene.update (eng : Engine) (frame : Frame) (s : GameScene) : GameScene :=
  let s1 := { s with player := Player.update frame.time frame.input s.player }
  let s2 := { s1 with
    enemies := GameScene.iterateEnemies
      (Enemy.update eng frame s1.player.x s1.player.y) 0 s1.enemies }
  GameScene.winCheck (GameScene.bossTrigger (GameScene.abyssSensor s2))

/-- One step of the game loop: the physics step leaves the player at
(`playerX`, `playerY`), then `update` runs. -/
structure Tick where
  playerX : Int
  playerY : Int
  frame : Frame

/-- Perform one step of the game loop. -/
def GameScene.tick (eng : Engine) (t : Tick) (s : GameScene) : GameScene :=
  GameScene.update eng t.frame
    { s with player := { s.player with x := t.playerX, y := t.playerY } }

/-- Perform a sequence of steps of the game loop, first step first. -/
def GameScene.run (eng : Engine) (ticks : List Tick) (s : GameScene) : GameScene :=
  ticks.foldl (fun acc t => GameScene.tick eng t acc) s

/-! ## Call sequences on the life counters -/

/-- The calls that touch the life counters: the three `HealthManager` methods,
`Player.takeDamage`, and the run of the deferred invulnerability callback. -/
inductive LifeOp where
  | updateLives (delta : Int)
  | heal
  | damage
  | takeDamage
  | invulnerabilityCallback
  deriving DecidableEq, Repr

/-- Perform one call. -/
def LifeOp.run : LifeOp → GameScene → GameScene
  | LifeOp.updateLives delta, s => HealthManager.updateLives delta s
  | LifeOp.heal, s => HealthManager.heal s
  | LifeOp.damage, s => HealthManager.damage s
  | LifeOp.takeDamage, s => Player.takeDamage s
  | LifeOp.invulnerabilityCallback, s => Player.invulnerabilityCallback s

/-- Perform a sequence of calls, first call first. -/
def runLifeOps (ops : List LifeOp) (s : GameScene) : GameScene :=
  ops.foldl (fun acc op => op.run acc) s

/-- Number of `scene.start('GameOverScene', ...)` requests made so far. -/
def gameOverCount (s : GameScene) : Nat :=
  s.effects.countP (fun e => match e with
    | Effect.startGameOver _ => true
    | _ => false)

/-- Number of `'updateLives'` notifications emitted so far. -/
def updateLivesCount (s : GameScene) : Nat :=
  s.effects.countP (fun e => match e with
    | Effect.updateLives _ => true
    | _ => false)

/-- Invariant of the life counters: both lie in [0,7] and an active player has
at least one life. -/
def LivesInv (s : GameScene) : Prop :=
  0 ≤ s.GAME_STATE.lives ∧ s.GAME_STATE.lives ≤ 7 ∧
  0 ≤ s.player.lives ∧ s.player.lives ≤ 7 ∧
  (s.player.active = true → 1 ≤ s.player.lives)

/-- A reachable scene whose player is active, vulnerable and down to its last
life: six hits from the start, the invulnerability callback running after each. -/
def lastLifeScene : GameScene :=
  runLifeOps
    (List.flatten (List.replicate 6 [LifeOp.takeDamage, LifeOp.invulnerabilityCallback]))
    (GameScene.start none GAME_STATE)

/-! ## Frames of the running scene that touch the bullet groups -/

/-- The calls that can change a bullet group or its owner while the scene
runs: the life-counter calls, `Player.update`, a jetpack pickup, a method call
on one member of either group (`Bullet.update`, `disableBody` from an overlap
callback, `fire`, `enableBody`), and `bulletGroup.get` on the enemy group
(`ShooterEnemy.shoot`, `Boss.attack`). -/
inductive SceneStep where
  | life (op : LifeOp)
  | playerUpdate (time : Int) (inp : Input)
  | activateJetpack
  | playerBullet (i : Nat) (f : Bullet → Bullet)
  | enemyBulletGet (x y : Int)
  | enemyBullet (i : Nat) (f : Bullet → Bullet)

/-- Perform one step. -/
def SceneStep.run : SceneStep → GameScene → GameScene
  | SceneStep.life op, s => op.run s
  | SceneStep.playerUpdate time inp, s => { s with player := Player.update time inp s.player }
  | SceneStep.activateJetpack, s => { s with player := Player.activateJetpack s.player }
  | SceneStep.playerBullet i f, s =>
    { s with player := { s.player with bullets := Pool.modify f i s.player.bullets } }
  | SceneStep.enemyBulletGet x y, s =>
    match Pool.get x y s.enemyBullets with
    | some (_, pool) => { s with enemyBullets := pool }
    | none => s
  | SceneStep.enemyBullet i f, s => { s with enemyBullets := Pool.modify f i s.enemyBullets }

/-- Perform a sequence of steps, first step first. -/
def runSceneSteps (steps : List SceneStep) (s : GameScene) : GameScene :=
  steps.foldl (fun acc step => step.run acc) s

/-- An input frame in which only the fire key X has just been pressed. -/
def fireOnly : Input :=
  { left := false, right := false, up := false, space := false,
    upJustDown := false, spaceJustDown := false, xJustDown := true, onGround := true }

/-- A player whose ten bullets are all in flight: ten shots, 300 ms apart,
from a freshly constructed player. -/
def exhaustedPlayer : Player :=
  (List.range 10).foldl (fun p k => Player.update (300 * ((k : Int) + 1)) fireOnly p)
    (Player.new GAME_STATE 100 450)

/-- Capacity invariant of a bullet group: it was created with `maxSize = cap`
and holds at most `cap` members. -/
def PoolInv (cap : Nat) (pool : Pool) : Prop :=
  pool.maxSize = cap ∧ pool.children.length ≤ cap

/-- A small scene for concrete evaluation: three ground tiles, one crate and
one dog. -/
def demoScene : GameScene :=
  { GameScene.start none GAME_STATE with
    platforms := [{ x := 1000, y := 568 }, { x := 1070, y := 568 }, { x := 1140, y := 568 }],
    crates := [{ x := 1300, y := 500, type := CrateType.caja1, active := true,
                 visible := true, bodyEnabled := true }],
    enemies := [PerroEnemy.new 1350 500] }

/-- A stream of draws for concrete evaluation: 0, 40, 80, ... -/
def demoRng : Rng :=
  { draws := fun n => 40 * n, cursor := 0 }

/-! ## Bullets in flight and reused slots -/

/-- One step of the game loop for a bullet of a group with `runChildUpdate`:
the physics step leaves an active bullet at `newX`, then `update` runs on it;
an inactive bullet is neither moved nor updated. -/
def Bullet.frame (worldWidth newX : Int) (b : Bullet) : Bullet :=
  if b.active then Bullet.update worldWidth { b with x := newX } else b

/-- A sequence of steps of the game loop for one bullet, first step first. -/
def Bullet.flight (worldWidth : Int) (xs : List Int) (b : Bullet) : Bullet :=
  xs.foldl (fun acc newX => Bullet.frame worldWidth newX acc) b

/-- The enemy bullet group as `create()` builds it: empty, `maxSize: 50`. -/
def freshEnemyBullets : Pool :=
  (GameScene.start none GAME_STATE).enemyBullets

/-- The enemy bullet group after a `ShooterEnemy` at (1000, 400) has shot at a
player at (900, 400) and that bullet has been disabled again (it hit the
player or left the world): slot 0 is free and has been fired before. -/
def usedEnemyBullets : Pool :=
  Pool.modify (Bullet.disableBody true true) 0
    (ShooterEnemy.shoot (ShooterEnemy.new 1000 400) 900 400 freshEnemyBullets)

/-! ## Shots of the player over a sequence of updates -/

/-- The part of `Player.update(time)` between the guard and the fire branch:
horizontal movement, then flight or jump. -/
def Player.steer (inp : Input) (p : Player) : Player :=
  let speed : Int := if p.isFlying then 350 else 250
  let p1 :=
    if inp.left then { p with velocityX := -speed, flipX := true }
    else if inp.right then { p with velocityX := speed, flipX := false }
    else { p with velocityX := 0 }
  let isJumpPressed := inp.up || inp.space
  if p1.isFlying then
    let p3 := { p1 with velocityY := if isJumpPressed then -300 else 80 }
    let p4 := { p3 with jetpackTimer := p3.jetpackTimer - 16 }
    if p4.jetpackTimer ≤ 0 then Player.deactivateJetpack p4 else p4
  else if inp.upJustDown || inp.spaceJustDown then
    if inp.onGround then { p1 with velocityY := -950 } else p1
  else p1

/-- A call `Player.update(time)` fires a bullet: the player is updated at all,
X has just been pressed, the cooldown has passed and the pool returns a
bullet. -/
def Player.fires (time : Int) (inp : Input) (p : Player) : Bool :=
  p.hasBody && p.active && inp.xJustDown && decide (time > p.lastFired) &&
    (Pool.get p.x p.y p.bullets).isSome

/-- A sequence of `Player.update` calls, first call first. -/
def Player.runUpdates (frames : List (Int × Input)) (p : Player) : Player :=
  frames.foldl (fun acc f => Player.update f.1 f.2 acc) p

/-- The times of the calls of a sequence of `Player.update` calls that fire a
bullet, in order. -/
def Player.shotTimes : List (Int × Input) → Player → List Int
  | [], _ => []
  | f :: rest, p =>
    if Player.fires f.1 f.2 p then f.1 :: Player.shotTimes rest (Player.update f.1 f.2 p)
    else Player.shotTimes rest (Player.update f.1 f.2 p)

/-! ## A dog over a sequence of frames -/

/-- Where one frame finds a dog and the player when `PerroEnemy.update` runs. -/
structure Sighting where
  enemyX : Int
  enemyY : Int
  playerX : Int
  playerY : Int
  deriving DecidableEq, Repr

/-- The player is less than 400 away from the dog. -/
def Sighting.near (f : Sighting) : Bool :=
  distanceBelow f.enemyX f.enemyY f.playerX f.playerY 400

/-- One frame of a dog: the physics step leaves it at the sighted position,
then `update` runs. -/
def PerroEnemy.frame (f : Sighting) (e : Enemy) : Enemy :=
  PerroEnemy.update f.playerX f.playerY { e with x := f.enemyX, y := f.enemyY }

/-- A sequence of frames of a dog, first frame first. -/
def PerroEnemy.chase (fs : List Sighting) (e : Enemy) : Enemy :=
  fs.foldl (fun acc f => PerroEnemy.frame f acc) e

/-- State of a dog built by `new PerroEnemy` that has not been hit: active,
with a body, speed 300 and range 400. -/
def PerroReady (e : Enemy) : Prop :=
  e.hasBody = true ∧ e.active = true ∧ e.speed = 300 ∧ e.detectionRange = 400

/-- The enemy after one `takeDamage()` call. -/
def Enemy.hit (e : Enemy) : Enemy :=
  (Enemy.takeDamage e).1

/-! ## Readings of the scene for the frame theorems -/

/-- The guard of `Player.takeDamage` rejects the call. -/
def Player.shielded (p : Player) : Bool :=
  p.isInvulnerable || !p.active

/-- Number of `Boss` objects among the enemies. -/
def bossCount (s : GameScene) : Nat :=
  s.enemies.countP (fun e => decide (e.kind = EnemyKind.Boss))

/-- Number of pending or past `delayedCall(1500, ...)` requests for the win
transition. -/
def winTimerCount (s : GameScene) : Nat :=
  s.effects.countP (fun e => decide (e = Effect.delayedCall 1500 Callback.winTransition))

/-- The scene when the physics step of a tick has placed the player. -/
def GameScene.place (t : Tick) (s : GameScene) : GameScene :=
  { s with player := { s.player with x := t.playerX, y := t.playerY } }

/-- The x of the player that the boss trigger of a tick reads: the one the
abyss sensor of the same `update` call leaves. -/
def GameScene.triggerX (t : Tick) (s : GameScene) : Int :=
  (GameScene.abyssSensor (GameScene.place t s)).player.x

/-! ## Concrete frames and scenes -/

/-- An engine for concrete evaluation: bearing 0, velocity along the x axis,
no vertical wave. -/
def demoEngine : Engine :=
  { angleBetween := fun _ _ _ _ => 0,
    velocityFromRotation := fun _ speed => (speed, 0),
    wave := fun _ => 0 }

/-- An input frame with no key pressed, the player standing on the ground. -/
def idle : Input :=
  { left := false, right := false, up := false, space := false,
    upJustDown := false, spaceJustDown := false, xJustDown := false, onGround := true }

/-- A frame at `time` with no key pressed and no enemy blocked. -/
def idleFrame (time : Int) : Frame :=
  { time := time, input := idle, blocked := fun _ => (false, false) }

/-- The start scene with the player fallen into the pit at x = 1300. -/
def fallenScene : GameScene :=
  GameScene.place { playerX := 1300, playerY := 650, frame := idleFrame 16 }
    (GameScene.start none GAME_STATE)

/-- A frame at `time` in which only the fire key X has just been pressed. -/
def fireFrame (time : Int) : Frame :=
  { time := time, input := fireOnly, blocked := fun _ => (false, false) }

/-- One round of the boss fight: a step with the player at (17600, 450)
pressing X, 300 ms after the previous round, then the overlap callback for the
bullet in slot 0 and the enemy in position 0. -/
def bossRound (s : GameScene) (k : Nat) : GameScene :=
  GameScene.onPlayerBulletEnemy 0 0
    (GameScene.tick demoEngine
      { playerX := 17600, playerY := 450, frame := fireFrame (300 * ((k : Int) + 1)) } s)

/-- The scene after four rounds on EASY (boss hp 5): the boss, enemy 0, is down
to its last hit point. -/
def bossAtOneHp : GameScene :=
  (List.range 4).foldl bossRound (GameScene.start (some Difficulty.EASY) GAME_STATE)

/-- The scene right after the fifth hit. -/
def bossDefeated : GameScene :=
  bossRound bossAtOneHp 4

/-- A step with the player standing at (17600, 450) and no key pressed. -/
def idleTick (time : Int) : Tick :=
  { playerX := 17600, playerY := 450, frame := idleFrame time }

/-- A scene with a life item and a jetpack item, the player having lost one
life. -/
def itemScene : GameScene :=
  { Player.takeDamage (GameScene.start none GAME_STATE) with
    items := [{ x := 800, y := 390, type := ItemType.vida, active := true, visible := true,
                bodyEnabled := true },
              { x := 1500, y := 250, type := ItemType.jetpack, active := true, visible := true,
                bodyEnabled := true }] }

/-- The life item of `itemScene`. -/
def vidaItem : Item :=
  { x := 800, y := 390, type := ItemType.vida, active := true, visible := true,
    bodyEnabled := true }

/-- A scene with one `'caja2'` crate and one `'caja3'` crate. -/
def crateScene : GameScene :=
  { GameScene.start none GAME_STATE with
    crates := [Crate.new 670 400 CrateType.caja2, Crate.new 740 400 CrateType.caja3] }

/-! ## Call sequences on the jetpack -/

/-- The calls that touch the jetpack fuel timer. -/
inductive JetOp where
  | activateJetpack
  | deactivateJetpack
  | update (time : Int) (inp : Input)
  deriving DecidableEq, Repr

/-- Perform one call. -/
def JetOp.run : JetOp → Player → Player
  | JetOp.activateJetpack, p => Player.activateJetpack p
  | JetOp.deactivateJetpack, p => Player.deactivateJetpack p
  | JetOp.update time inp, p => Player.update time inp p

/-- Perform a sequence of calls, first call first. -/
def runJetOps (ops : List JetOp) (p : Player) : Player :=
  ops.foldl (fun acc op => op.run acc) p

/-- The argument that `GameScene.update` passes to `drawFuelBar`:
`jetpackTimer / 8000` while the player is flying, 0 otherwise. -/
def GameScene.fuelFraction (p : Player) : ℚ :=
  if p.isFlying then (p.jetpackTimer : ℚ) / 8000 else 0

/-- Invariant of the fuel timer: a multiple of 16 in [0, 8000], and at least
16 while flying. -/
def FuelInv (p : Player) : Prop :=
  p.jetpackTimer % 16 = 0 ∧ 0 ≤ p.jetpackTimer ∧ p.jetpackTimer ≤ 8000 ∧
  (p.isFlying = true → 16 ≤ p.jetpackTimer)

/-! ## A bat over a sequence of frames -/

/-- One frame of a bat: the physics step leaves it at x = `f.2`, then
`update(f.1)` runs. -/
def MurcielagoEnemy.frame (eng : Engine) (f : Int × Int) (e : Enemy) : Enemy :=
  MurcielagoEnemy.update eng f.1 { e with x := f.2 }

/-- A sequence of frames of a bat, first frame first. -/
def MurcielagoEnemy.patrol (eng : Engine) (fs : List (Int × Int)) (e : Enemy) : Enemy :=
  fs.foldl (fun acc f => MurcielagoEnemy.frame eng f acc) e

/-- Number of `takeDamage()` calls of a sequence that the guard does not reject
(successful hits). -/
def successfulHits : List LifeOp → GameScene → Nat
  | [], _ => 0
  | op :: rest, s =>
    (if op = LifeOp.takeDamage ∧ s.player.shielded = false then 1 else 0)
      + successfulHits rest (op.run s)

/-- Invariant tying the player's activity to its life count: lives are in
[0, 7] and the player is active exactly while it has a life left. -/
def AliveInv (s : GameScene) : Prop :=
  0 ≤ s.player.lives ∧ s.player.lives ≤ 7 ∧ (s.player.active = true ↔ 1 ≤ s.player.lives)

/-! ## GameScene.create: world generation -/

/-- The constant `worldWidth`. -/
def worldWidth : Int := 18000

/-- The builtin `Math.random()`, a number of [0, 1): here the next draw reduced
to a whole number of hundredths, 0 to 99.  Every threshold that `create()`
compares it with is a whole number of hundredths, so `Math.random() < 0.3`
reads `r < 30` and `Math.random() > 0.3` reads `r > 30`. -/
def Math.random (rng : Rng) : Nat × Rng :=
  (rng.draws rng.cursor % 100, { rng with cursor := rng.cursor + 1 })

/-- A loop `for (let x = start; x < limit; x += step) body`, entered at `x` and
run for at most `fuel` iterations: `none` when the fuel runs out before the
loop condition fails. -/
def forLoop {σ : Type} (limit step : Int) (body : Int → σ → σ) : Nat → Int → σ → Option σ
  | 0, x, st => if x < limit then none else some st
  | fuel + 1, x, st =>
    if x < limit then forLoop limit step body fuel (x + step) (body x st) else some st

/-- The condition under which the ground loop of `create()` executes
`continue`. -/
def inPit (x : Int) : Bool :=
  (decide (x > 1200) && decide (x < 1400)) || (decide (x > 3000) && decide (x < 3230)) ||
  (decide (x > 5500) && decide (x < 5730)) || (decide (x > 6200) && decide (x < 6430)) ||
  (decide (x > 9000) && decide (x < 9230)) || (decide (x > 12000) && decide (x < 12400)) ||
  (decide (x > 15000) && decide (x < 15230))

/-- Body of the loop `for (let x = 0; x < bossAreaStart; x += 70)` of
`create()`, on the children of `this.platforms`. -/
def groundTile (x : Int) (platforms : List Tile) : List Tile :=
  if inPit x then platforms else platforms ++ [{ x := x, y := 568 }]

/-- Body of the loop `for (let x = bossAreaStart; x < worldWidth; x += 70)` of
`create()`. -/
def bossGroundTile (x : Int) (platforms : List Tile) : List Tile :=
  platforms ++ [{ x := x, y := 568 }]

/-- The constant `platformHeights`. -/
def platformHeights : List Int := [450, 310, 170]

/-- The loop `for (let i = 0; i < islandLength; i++)` of the island generator,
entered at `i` with `remaining = islandLength - i` iterations to go: a tile
at `blockX`, and with `Math.random() < 0.3` a crate 50 above it whose type
is chosen by a second `Math.random()`. -/
def GameScene.islandBlocks (nextStructureX y : Int) :
    Nat → Int → GameScene → Rng → GameScene × Rng
  | 0, _, s, rng => (s, rng)
  | remaining + 1, i, s, rng =>
    let blockX := nextStructureX + i * 70
    let s1 := { s with platforms := s.platforms ++ [{ x := blockX, y := y }] }
    let (chance, rng1) := Math.random rng
    if chance < 30 then
      let (r, rng2) := Math.random rng1
      let crateType :=
        if r < 20 then CrateType.caja2
        else if r < 50 then CrateType.caja3
        else CrateType.caja1
      GameScene.islandBlocks nextStructureX y remaining (i + 1)
        { s1 with crates := s1.crates ++ [Crate.new blockX (y - 50) crateType] } rng2
    else GameScene.islandBlocks nextStructureX y remaining (i + 1) s1 rng1

/-- Body of the loop `while (nextStructureX < bossAreaStart - 500)` of
`create()`: one island.  The third component is the new value of
`nextStructureX`.  The tweens on the items only animate them. -/
def GameScene.island (nextStructureX : Int) (s : GameScene) (rng : Rng) :
    GameScene × Rng × Int :=
  let (islandLength, rng1) := Phaser.Math.Between 3 8 rng
  let (heightIndex, rng2) := Phaser.Math.Between 0 2 rng1
  let y := platformHeights.getD heightIndex.toNat 0
  let s1 :=
    if heightIndex = 2 then
      { s with platforms :=
          s.platforms ++ [{ x := nextStructureX - 80, y := platformHeights.getD 1 0 }] }
    else s
  let (s2, rng3) := GameScene.islandBlocks nextStructureX y islandLength.toNat 0 s1 rng2
  let centerX := nextStructureX + islandLength * 35
  let topY := y - 60
  let (roll, rng4) := Math.random rng3
  let s3 :=
    if roll < 30 then
      { s2 with
        enemies := s2.enemies ++ [ShooterEnemy.new centerX topY],
        effects := s2.effects ++ [ShooterEnemy.timer s2.GAME_STATE] }
    else if roll < 45 then
      { s2 with items := s2.items ++ [Item.new centerX topY ItemType.jetpack] }
    else if roll < 55 then
      { s2 with items := s2.items ++ [Item.new centerX topY ItemType.vida] }
    else if roll < 85 then
      { s2 with enemies := s2.enemies ++ [PatrolEnemy.new s2.GAME_STATE centerX topY] }
    else s2
  let (gap, rng5) := Phaser.Math.Between 250 450 rng4
  (s3, rng5, nextStructureX + islandLength * 70 + gap)

/-- The loop `while (nextStructureX < bossAreaStart - 500)` of `create()`,
entered with the given value of `nextStructureX` and run for at most `fuel`
iterations.  The third component of the result counts the iterations
performed, that is the islands generated. -/
def GameScene.islandLoop : Nat → Int → GameScene → Rng → Option (GameScene × Rng × Nat)
  | 0, nextStructureX, s, rng =>
    if nextStructureX < bossAreaStart - 500 then none else some (s, rng, 0)
  | fuel + 1, nextStructureX, s, rng =>
    if nextStructureX < bossAreaStart - 500 then
      let (s1, rng1, next) := GameScene.island nextStructureX s rng
      (GameScene.islandLoop fuel next s1 rng1).map (fun r => (r.1, r.2.1, r.2.2 + 1))
    else some (s, rng, 0)

/-- Body of the loop `for (let x = 1000; x < bossAreaStart; x += 1200)` of
`create()`: with `Math.random() > 0.3` a `'caja1'` crate at (x, 500). -/
def GameScene.groundCrate (x : Int) (st : GameScene × Rng) : GameScene × Rng :=
  let (r, rng1) := Math.random st.2
  if r > 30 then
    ({ st.1 with crates := st.1.crates ++ [Crate.new x 500 CrateType.caja1] }, rng1)
  else (st.1, rng1)

/-- Method `GameScene.create()` after `init(data)`: the two ground loops, the
island generator, the ground crates, and `spawnSpecialEnemies()`; the player,
the empty groups and `bossSpawned = false` are those of `GameScene.start`.
Each loop may run for at most `fuel` iterations.  The third component of the
result is the number of islands generated.  Camera, colliders and HUD hold no
state of the model. -/
def GameScene.create (fuel : Nat) (difficulty : Option Difficulty) (gs : GameState)
    (rng : Rng) : Option (GameScene × Rng × Nat) :=
  let s0 := GameScene.start difficulty gs
  (forLoop bossAreaStart 70 groundTile fuel 0 s0.platforms).bind fun p1 =>
  (forLoop worldWidth 70 bossGroundTile fuel bossAreaStart p1).bind fun p2 =>
  (GameScene.islandLoop fuel 600 { s0 with platforms := p2 } rng).bind fun r =>
  (forLoop bossAreaStart 1200 GameScene.groundCrate fuel 1000 (r.1, r.2.1)).map fun st =>
  let (s5, rng5) := GameScene.spawnSpecialEnemies st.1 st.2
  (s5, rng5, r.2.2)

/-! ### The world in the words of the specification -/

/-- The seven pit intervals, each as (left end, right end). -/
def pits : List (Int × Int) :=
  [(1200, 1400), (3000, 3230), (5500, 5730), (6200, 6430), (9000, 9230), (12000, 12400),
   (15000, 15230)]

/-- A coordinate lies strictly inside one of the pit intervals. -/
def overPit (x : Int) : Prop :=
  ∃ p ∈ pits, p.1 < x ∧ x < p.2

/-- The ground strip as the specification describes it: a tile at y = 568 at
every x of 0, 70, ..., 17990 that is not strictly inside a pit. -/
def groundStrip : List Tile :=
  (List.range 258).filterMap
    (fun (k : Nat) =>
      if inPit (70 * (k : Int)) then none else some { x := 70 * (k : Int), y := 568 })

/-- A tile of an island or a helper step: 520 ≤ x ≤ 17489 at one of the three
platform heights. -/
def islandTile (t : Tile) : Prop :=
  520 ≤ t.x ∧ t.x ≤ 17489 ∧ (t.y = 450 ∨ t.y = 310 ∨ t.y = 170)

/-- An enemy where `create()` may put it: an island occupant (shooter or
patrol) at x ≤ 17279, a dog at 1000 ≤ x ≤ 17000 over a pit, or a bat at
1000 ≤ x ≤ 17000. -/
def placedEnemy (e : Enemy) : Prop :=
  ((e.kind = EnemyKind.ShooterEnemy ∨ e.kind = EnemyKind.PatrolEnemy) ∧ e.x ≤ 17279) ∨
  (e.kind = EnemyKind.PerroEnemy ∧ 1000 ≤ e.x ∧ e.x ≤ 17000 ∧ overPit e.x) ∨
  (e.kind = EnemyKind.MurcielagoEnemy ∧ 1000 ≤ e.x ∧ e.x ≤ 17000)

/-- What holds of the world while `create()` fills it: the platforms are the
ground strip and island tiles, crates, island occupants and special enemies
keep to their ranges, every dog stands over a pit, and the player is at
x = 100. -/
def WorldInv (s : GameScene) : Prop :=
  (∀ t ∈ s.platforms, t ∈ groundStrip ∨ islandTile t) ∧
  (∀ t ∈ groundStrip, t ∈ s.platforms) ∧
  (∀ c ∈ s.crates, 600 ≤ c.x ∧ c.x ≤ 17489) ∧
  (∀ e ∈ s.enemies, placedEnemy e) ∧
  (∀ i ∈ s.items, i.x ≤ 17279) ∧
  s.player.x = 100

/-! # Theorems -/

/-! ## Life counters -/

theorem livesInv_start (difficulty : Option Difficulty) (gs : GameState) :
    LivesInv (GameScene.start difficulty gs) := by
  simp [LivesInv, GameScene.start, GameScene.init, Player.new]

theorem livesInv_updateLives (delta : Int) (s : GameScene) (h : LivesInv s) :
    LivesInv (HealthManager.updateLives delta s) := by
  obtain ⟨_, _, h3, h4, h5⟩ := h
  refine ⟨?_, ?_, h3, h4, h5⟩
  · simp [HealthManager.updateLives]
  · simp only [HealthManager.updateLives]
    omega

theorem takeDamage_rejected (s : GameScene)
    (h : s.player.isInvulnerable = true ∨ s.player.active = false) :
    Player.takeDamage s = s := by
  unfold Player.takeDamage
  rcases h with h | h <;> simp [h]

theorem takeDamage_fatal (s : GameScene) (ha : s.player.active = true)
    (hi : s.player.isInvulnerable = false) (hl : s.player.lives ≤ 1) :
    Player.takeDamage s =
      { s with
        GAME_STATE := { s.GAME_STATE with lives := s.player.lives - 1 },
        player := Player.disableBody true { s.player with lives := s.player.lives - 1 },
        effects := s.effects ++
          [Effect.updateLives (s.player.lives - 1), Effect.startGameOver false] } := by
  have hl2 : s.player.lives - 1 ≤ 0 := by omega
  unfold Player.takeDamage
  simp [ha, hi, hl2]

theorem takeDamage_survive (s : GameScene) (ha : s.player.active = true)
    (hi : s.player.isInvulnerable = false) (hl : 2 ≤ s.player.lives) :
    Player.takeDamage s =
      { s with
        GAME_STATE := { s.GAME_STATE with lives := s.player.lives - 1 },
        player := { s.player with
          lives := s.player.lives - 1, isInvulnerable := true, alpha := 50,
          tint := some 0xff0000 },
        effects := s.effects ++
          [Effect.updateLives (s.player.lives - 1),
           Effect.delayedCall 1500 Callback.clearInvulnerable] } := by
  have hl2 : ¬ (s.player.lives - 1 ≤ 0) := by omega
  unfold Player.takeDamage
  simp [ha, hi, hl2]

theorem livesInv_takeDamage (s : GameScene) (h : LivesInv s) :
    LivesInv (Player.takeDamage s) := by
  obtain ⟨h1, h2, h3, h4, h5⟩ := h
  by_cases hr : s.player.isInvulnerable = true ∨ s.player.active = false
  · rw [takeDamage_rejected s hr]
    exact ⟨h1, h2, h3, h4, h5⟩
  · have ha : s.player.active = true := by
      cases hact : s.player.active <;> simp_all
    have hi : s.player.isInvulnerable = false := by
      cases hinv : s.player.isInvulnerable <;> simp_all
    have h6 := h5 ha
    by_cases hl : s.player.lives ≤ 1
    · rw [takeDamage_fatal s ha hi hl]
      simp only [LivesInv, Player.disableBody]
      refine ⟨by omega, by omega, by omega, by omega, ?_⟩
      simp
    · rw [takeDamage_survive s ha hi (by omega)]
      simp only [LivesInv]
      refine ⟨by omega, by omega, by omega, by omega, ?_⟩
      intro _
      omega

theorem livesInv_callback (s : GameScene) (h : LivesInv s) :
    LivesInv (Player.invulnerabilityCallback s) := by
  unfold Player.invulnerabilityCallback
  split
  · exact h
  · exact h

theorem livesInv_run (op : LifeOp) (s : GameScene) (h : LivesInv s) :
    LivesInv (op.run s) := by
  cases op with
  | updateLives delta => exact livesInv_updateLives delta s h
  | heal => exact livesInv_updateLives 1 s h
  | damage => exact livesInv_updateLives (-1) s h
  | takeDamage => exact livesInv_takeDamage s h
  | invulnerabilityCallback => exact livesInv_callback s h

theorem livesInv_runLifeOps (ops : List LifeOp) (s : GameScene) (h : LivesInv s) :
    LivesInv (runLifeOps ops s) := by
  induction ops generalizing s with
  | nil => exact h
  | cons op rest ih => exact ih (op.run s) (livesInv_run op s h)

/-- C1: on every state reached from `GameScene.init` and the construction of
the player by any sequence of `updateLives(delta)`, `heal()`, `damage()`,
`takeDamage()` calls (and runs of the invulnerability callback), both
`GAME_STATE.lives` and `Player.lives` lie in [0,7]. -/
theorem lives_stay_within_bounds (difficulty : Option Difficulty) (gs : GameState)
    (ops : List LifeOp) :
    0 ≤ (runLifeOps ops (GameScene.start difficulty gs)).GAME_STATE.lives ∧
    (runLifeOps ops (GameScene.start difficulty gs)).GAME_STATE.lives ≤ 7 ∧
    0 ≤ (runLifeOps ops (GameScene.start difficulty gs)).player.lives ∧
    (runLifeOps ops (GameScene.start difficulty gs)).player.lives ≤ 7 := by
  obtain ⟨h1, h2, h3, h4, _⟩ :=
    livesInv_runLifeOps ops (GameScene.start difficulty gs) (livesInv_start difficulty gs)
  exact ⟨h1, h2, h3, h4⟩

/-- C2: `updateLives(delta)` writes `max(0, min(L + delta, 7))` into
`GAME_STATE.lives` and then emits `'updateLives'` exactly once, the listener
seeing the value just written; `heal()` is `updateLives(1)` and `damage()` is
`updateLives(-1)`. -/
theorem updateLives_clamps_then_notifies (delta : Int) (s : GameScene) :
    (HealthManager.updateLives delta s).GAME_STATE.lives
      = max 0 (min (s.GAME_STATE.lives + delta) 7) ∧
    (HealthManager.updateLives delta s).effects
      = s.effects ++ [Effect.updateLives (HealthManager.updateLives delta s).GAME_STATE.lives] ∧
    updateLivesCount (HealthManager.updateLives delta s) = updateLivesCount s + 1 ∧
    (HealthManager.updateLives delta s).player = s.player ∧
    HealthManager.heal s = HealthManager.updateLives 1 s ∧
    HealthManager.damage s = HealthManager.updateLives (-1) s := by
  refine ⟨rfl, rfl, ?_, rfl, rfl, rfl⟩
  simp [updateLivesCount, HealthManager.updateLives, List.countP_append]

/-- C3 (failing input): after `init`, construction of the player, one
`takeDamage()` and one `heal()` (a life pickup), `GAME_STATE.lives` is 7 while
`Player.lives` is 6: the local copy no longer mirrors the global count. -/
theorem heal_leaves_player_copy_behind :
    (HealthManager.heal (Player.takeDamage (GameScene.start none GAME_STATE))).GAME_STATE.lives = 7 ∧
    (HealthManager.heal (Player.takeDamage (GameScene.start none GAME_STATE))).player.lives = 6 := by
  decide

/-! ## Invulnerability window -/

theorem run_player_of_invulnerable (op : LifeOp) (s : GameScene)
    (hi : s.player.isInvulnerable = true) (hop : op ≠ LifeOp.invulnerabilityCallback) :
    (op.run s).player = s.player := by
  cases op with
  | updateLives delta => rfl
  | heal => rfl
  | damage => rfl
  | takeDamage =>
    show (Player.takeDamage s).player = s.player
    rw [takeDamage_rejected s (Or.inl hi)]
  | invulnerabilityCallback => exact absurd rfl hop

theorem runLifeOps_player_of_invulnerable (ops : List LifeOp) (s : GameScene)
    (hi : s.player.isInvulnerable = true) (hw : LifeOp.invulnerabilityCallback ∉ ops) :
    (runLifeOps ops s).player = s.player := by
  induction ops generalizing s with
  | nil => rfl
  | cons op rest ih =>
    have hop : op ≠ LifeOp.invulnerabilityCallback := by
      intro h
      exact hw (by simp [h])
    have hrest : LifeOp.invulnerabilityCallback ∉ rest := by
      intro h
      exact hw (List.mem_cons_of_mem _ h)
    have hp := run_player_of_invulnerable op s hi hop
    show (runLifeOps rest (op.run s)).player = s.player
    rw [ih (op.run s) (by rw [hp]; exact hi) hrest, hp]

theorem iterate_takeDamage_of_invulnerable (n : Nat) (s : GameScene)
    (hi : s.player.isInvulnerable = true) :
    Player.takeDamage^[n] s = s := by
  induction n with
  | zero => rfl
  | succ k ih =>
    rw [Function.iterate_succ_apply, takeDamage_rejected s (Or.inl hi), ih]

/-- C4: for an active, non-invulnerable player with at least 2 lives,
`takeDamage()` lowers `lives` by exactly 1 and sets `isInvulnerable`; any
number of further `takeDamage()` calls made before the delayed callback runs
change nothing at all, and `lives` stays at the decremented value also when
health-bus calls are interleaved with them. -/
theorem invulnerability_window_single_decrement (s : GameScene)
    (ha : s.player.active = true) (hi : s.player.isInvulnerable = false)
    (hl : 2 ≤ s.player.lives) (n : Nat) (ops : List LifeOp)
    (hw : LifeOp.invulnerabilityCallback ∉ ops) :
    (Player.takeDamage s).player.lives = s.player.lives - 1 ∧
    (Player.takeDamage s).player.isInvulnerable = true ∧
    Player.takeDamage^[n] (Player.takeDamage s) = Player.takeDamage s ∧
    (Player.takeDamage^[n + 1] s).player.lives = s.player.lives - 1 ∧
    (runLifeOps ops (Player.takeDamage s)).player.lives = s.player.lives - 1 := by
  have h1 : (Player.takeDamage s).player.lives = s.player.lives - 1 := by
    rw [takeDamage_survive s ha hi hl]
  have h2 : (Player.takeDamage s).player.isInvulnerable = true := by
    rw [takeDamage_survive s ha hi hl]
  have h3 := iterate_takeDamage_of_invulnerable n (Player.takeDamage s) h2
  refine ⟨h1, h2, h3, ?_, ?_⟩
  · rw [Function.iterate_succ_apply, h3, h1]
  · rw [runLifeOps_player_of_invulnerable ops (Player.takeDamage s) h2 hw, h1]

theorem invulnerability_window_single_decrement_witness :
    (Player.takeDamage (GameScene.start none GAME_STATE)).player.lives = 7 - 1 ∧
    (Player.takeDamage (GameScene.start none GAME_STATE)).player.isInvulnerable = true ∧
    Player.takeDamage^[3] (Player.takeDamage (GameScene.start none GAME_STATE))
      = Player.takeDamage (GameScene.start none GAME_STATE) ∧
    (Player.takeDamage^[3 + 1] (GameScene.start none GAME_STATE)).player.lives = 7 - 1 ∧
    (runLifeOps [LifeOp.takeDamage, LifeOp.heal, LifeOp.takeDamage]
      (Player.takeDamage (GameScene.start none GAME_STATE))).player.lives = 7 - 1 :=
  invulnerability_window_single_decrement (GameScene.start none GAME_STATE) rfl rfl
    (by decide) 3 [LifeOp.takeDamage, LifeOp.heal, LifeOp.takeDamage] (by decide)

/-- C5: `takeDamage()` on an invulnerable or inactive player returns the scene
unchanged: both life counters, `isInvulnerable`, and the log of notifications,
scene transitions and scheduled timers are all as before. -/
theorem takeDamage_noop_when_invulnerable_or_inactive (s : GameScene)
    (h : s.player.isInvulnerable = true ∨ s.player.active = false) :
    Player.takeDamage s = s :=
  takeDamage_rejected s h

theorem takeDamage_noop_when_invulnerable_or_inactive_witness :
    ((Player.takeDamage (GameScene.start none GAME_STATE)).player.isInvulnerable = true ∨
      (Player.takeDamage (GameScene.start none GAME_STATE)).player.active = false) ∧
    Player.takeDamage (Player.takeDamage (GameScene.start none GAME_STATE))
      = Player.takeDamage (GameScene.start none GAME_STATE) :=
  ⟨Or.inl rfl,
    takeDamage_noop_when_invulnerable_or_inactive
      (Player.takeDamage (GameScene.start none GAME_STATE)) (Or.inl rfl)⟩

/-! ## Game over -/

theorem gameOverCount_updateLives (delta : Int) (s : GameScene) :
    gameOverCount (HealthManager.updateLives delta s) = gameOverCount s := by
  simp [gameOverCount, HealthManager.updateLives, List.countP_append]

theorem run_of_inactive (op : LifeOp) (s : GameScene) (ha : s.player.active = false) :
    (op.run s).player.active = false ∧ gameOverCount (op.run s) = gameOverCount s := by
  cases op with
  | updateLives delta => exact ⟨ha, gameOverCount_updateLives delta s⟩
  | heal => exact ⟨ha, gameOverCount_updateLives 1 s⟩
  | damage => exact ⟨ha, gameOverCount_updateLives (-1) s⟩
  | takeDamage =>
    show (Player.takeDamage s).player.active = false ∧
      gameOverCount (Player.takeDamage s) = gameOverCount s
    rw [takeDamage_rejected s (Or.inr ha)]
    exact ⟨ha, rfl⟩
  | invulnerabilityCallback =>
    show (Player.invulnerabilityCallback s).player.active = false ∧
      gameOverCount (Player.invulnerabilityCallback s) = gameOverCount s
    unfold Player.invulnerabilityCallback
    simp [ha]

theorem runLifeOps_of_inactive (ops : List LifeOp) (s : GameScene)
    (ha : s.player.active = false) :
    gameOverCount (runLifeOps ops s) = gameOverCount s := by
  induction ops generalizing s with
  | nil => rfl
  | cons op rest ih =>
    obtain ⟨h1, h2⟩ := run_of_inactive op s ha
    show gameOverCount (runLifeOps rest (op.run s)) = gameOverCount s
    rw [ih (op.run s) h1, h2]

/-- C6: for an active, non-invulnerable player with exactly 1 life,
`takeDamage()` sets `Player.lives` and `GAME_STATE.lives` to 0, deactivates the
player, leaves `isInvulnerable` unset, and appends to the log exactly the
lives notification followed by one `GameOverScene` request with `win = false`
(no timer is scheduled); whatever calls follow, no further game-over request
is made. -/
theorem last_life_single_game_over (s : GameScene)
    (ha : s.player.active = true) (hi : s.player.isInvulnerable = false)
    (hl : s.player.lives = 1) (ops : List LifeOp) :
    (Player.takeDamage s).player.lives = 0 ∧
    (Player.takeDamage s).GAME_STATE.lives = 0 ∧
    (Player.takeDamage s).player.active = false ∧
    (Player.takeDamage s).player.isInvulnerable = false ∧
    (Player.takeDamage s).effects
      = s.effects ++ [Effect.updateLives 0, Effect.startGameOver false] ∧
    gameOverCount (Player.takeDamage s) = gameOverCount s + 1 ∧
    gameOverCount (runLifeOps ops (Player.takeDamage s)) = gameOverCount s + 1 := by
  have hd := takeDamage_fatal s ha hi (by omega)
  have hact : (Player.takeDamage s).player.active = false := by
    rw [hd]
    simp [Player.disableBody]
  have hcount : gameOverCount (Player.takeDamage s) = gameOverCount s + 1 := by
    rw [hd]
    simp [gameOverCount, List.countP_append, List.countP_cons]
  refine ⟨?_, ?_, hact, ?_, ?_, hcount, ?_⟩
  · rw [hd]
    simp [Player.disableBody, hl]
  · rw [hd]
    simp [hl]
  · rw [hd]
    simp [Player.disableBody, hi]
  · rw [hd]
    simp [hl]
  · rw [runLifeOps_of_inactive ops (Player.takeDamage s) hact, hcount]

theorem last_life_single_game_over_witness :
    (lastLifeScene.player.active = true ∧ lastLifeScene.player.isInvulnerable = false ∧
      lastLifeScene.player.lives = 1) ∧
    ((Player.takeDamage lastLifeScene).player.lives = 0 ∧
    (Player.takeDamage lastLifeScene).GAME_STATE.lives = 0 ∧
    (Player.takeDamage lastLifeScene).player.active = false ∧
    (Player.takeDamage lastLifeScene).player.isInvulnerable = false ∧
    (Player.takeDamage lastLifeScene).effects
      = lastLifeScene.effects ++ [Effect.updateLives 0, Effect.startGameOver false] ∧
    gameOverCount (Player.takeDamage lastLifeScene) = gameOverCount lastLifeScene + 1 ∧
    gameOverCount (runLifeOps [LifeOp.takeDamage, LifeOp.heal, LifeOp.takeDamage]
      (Player.takeDamage lastLifeScene)) = gameOverCount lastLifeScene + 1) :=
  ⟨⟨by decide, by decide, by decide⟩,
    last_life_single_game_over lastLifeScene (by decide) (by decide) (by decide)
      [LifeOp.takeDamage, LifeOp.heal, LifeOp.takeDamage]⟩

/-- C7 (counterexample): from the start, `updateLives(-7)` brings
`GAME_STATE.lives` to 0 and requests no game-over transition, so the number of
transitions it triggered is not one. -/
theorem updateLives_to_zero_triggers_no_game_over :
    (HealthManager.updateLives (-7) (GameScene.start none GAME_STATE)).GAME_STATE.lives = 0 ∧
    ¬ (gameOverCount (HealthManager.updateLives (-7) (GameScene.start none GAME_STATE))
        = gameOverCount (GameScene.start none GAME_STATE) + 1) := by
  decide

/-- C7 (amended): no sequence of `updateLives(delta)` calls on the health bus
requests a game-over transition, whether or not a call brings
`GAME_STATE.lives` to 0. -/
theorem updateLives_never_requests_game_over (deltas : List Int) (s : GameScene) :
    gameOverCount (deltas.foldl (fun acc delta => HealthManager.updateLives delta acc) s)
      = gameOverCount s := by
  induction deltas generalizing s with
  | nil => rfl
  | cons delta rest ih =>
    show gameOverCount (rest.foldl (fun acc delta => HealthManager.updateLives delta acc)
      (HealthManager.updateLives delta s)) = gameOverCount s
    rw [ih (HealthManager.updateLives delta s), gameOverCount_updateLives]

/-! ## Spawn validator -/

theorem between_range (min max : Int) (rng : Rng) (h : min ≤ max) :
    min ≤ (Phaser.Math.Between min max rng).1 ∧ (Phaser.Math.Between min max rng).1 ≤ max := by
  have hpos : (0 : Int) < max - min + 1 := by omega
  have h1 := Int.emod_nonneg (rng.draws rng.cursor : Int) (ne_of_gt hpos)
  have h2 := Int.emod_lt_of_pos (rng.draws rng.cursor : Int) hpos
  simp only [Phaser.Math.Between]
  omega

theorem spawnSample_range (grounded : Bool) (rng : Rng) (i : Nat) :
    1000 ≤ (spawnSample grounded rng i).x ∧ (spawnSample grounded rng i).x ≤ 17000 ∧
    (grounded = true → (spawnSample grounded rng i).y = 500) ∧
    (grounded = false →
      50 ≤ (spawnSample grounded rng i).y ∧ (spawnSample grounded rng i).y ≤ 350) := by
  cases grounded with
  | true =>
    have hx := between_range 1000 (bossAreaStart - 500) { rng with cursor := rng.cursor + i }
      (by decide)
    have e : bossAreaStart - 500 = 17000 := by decide
    rw [e] at hx
    refine ⟨hx.1, hx.2, fun _ => rfl, fun h => Bool.noConfusion h⟩
  | false =>
    have hx := between_range 1000 (bossAreaStart - 500)
      { rng with cursor := rng.cursor + 2 * i } (by decide)
    have hy := between_range 50 350 { rng with cursor := rng.cursor + 2 * i + 1 } (by decide)
    have e : bossAreaStart - 500 = 17000 := by decide
    rw [e] at hx
    exact ⟨hx.1, hx.2, fun h => Bool.noConfusion h, fun _ => hy⟩

theorem spawnSample_skip (grounded : Bool) (rng : Rng) (i : Nat) :
    spawnSample grounded (rng.skip (drawsPerSample grounded)) i
      = spawnSample grounded rng (i + 1) := by
  cases grounded with
  | true =>
    show ({ x := (Phaser.Math.Between 1000 (bossAreaStart - 500)
              { rng with cursor := rng.cursor + 1 + i }).1, y := 500 } : Pos) =
      { x := (Phaser.Math.Between 1000 (bossAreaStart - 500)
              { rng with cursor := rng.cursor + (i + 1) }).1, y := 500 }
    rw [show rng.cursor + 1 + i = rng.cursor + (i + 1) by omega]
  | false =>
    show ({ x := (Phaser.Math.Between 1000 (bossAreaStart - 500)
              { rng with cursor := rng.cursor + 2 + 2 * i }).1,
            y := (Phaser.Math.Between 50 350
              { rng with cursor := rng.cursor + 2 + 2 * i + 1 }).1 } : Pos) =
      { x := (Phaser.Math.Between 1000 (bossAreaStart - 500)
              { rng with cursor := rng.cursor + 2 * (i + 1) }).1,
        y := (Phaser.Math.Between 50 350
              { rng with cursor := rng.cursor + 2 * (i + 1) + 1 }).1 }
    rw [show rng.cursor + 2 + 2 * i = rng.cursor + 2 * (i + 1) by omega]

theorem getValidSpawnPositionLoop_succ (s : GameScene) (grounded : Bool)
    (remaining : Nat) (rng : Rng) :
    GameScene.getValidSpawnPositionLoop s grounded (remaining + 1) rng =
      if spawnAccepts s (spawnSample grounded rng 0) = true then
        (some (spawnSample grounded rng 0), rng.skip (drawsPerSample grounded))
      else
        GameScene.getValidSpawnPositionLoop s grounded remaining
          (rng.skip (drawsPerSample grounded)) := by
  cases grounded with
  | true =>
    simp only [GameScene.getValidSpawnPositionLoop, spawnAccepts, spawnSample, Rng.skip,
      drawsPerSample, Phaser.Math.Between, if_true, Nat.add_zero]
    generalize (1000 + (rng.draws rng.cursor : Int) % (bossAreaStart - 500 - 1000 + 1)) = rx
    cases h1 : s.platforms.any (fun p => distanceBelow rx 500 p.x p.y 100) <;>
    cases h2 : s.crates.any (fun c => distanceBelow rx 500 c.x c.y 100) <;>
    cases h3 : s.enemies.any (fun e => distanceBelow rx 500 e.x e.y 200) <;>
    simp
  | false =>
    simp only [GameScene.getValidSpawnPositionLoop, spawnAccepts, spawnSample, Rng.skip,
      drawsPerSample, Phaser.Math.Between, Nat.add_zero, Nat.mul_zero, Bool.false_eq_true,
      if_false]
    generalize (1000 + (rng.draws rng.cursor : Int) % (bossAreaStart - 500 - 1000 + 1)) = rx
    generalize (50 + (rng.draws (rng.cursor + 1) : Int) % (350 - 50 + 1)) = ry
    cases h1 : s.platforms.any (fun p => distanceBelow rx ry p.x p.y 100) <;>
    cases h2 : s.crates.any (fun c => distanceBelow rx ry c.x c.y 100) <;>
    cases h3 : s.enemies.any (fun e => distanceBelow rx ry e.x e.y 200) <;>
    simp

theorem getValidSpawnPositionLoop_eq_find (s : GameScene) (grounded : Bool)
    (remaining : Nat) (rng : Rng) :
    (GameScene.getValidSpawnPositionLoop s grounded remaining rng).1
      = ((List.range remaining).map (spawnSample grounded rng)).find? (spawnAccepts s) := by
  induction remaining generalizing rng with
  | zero => rfl
  | succ n ih =>
    rw [getValidSpawnPositionLoop_succ, List.range_succ_eq_map, List.map_cons, List.map_map,
      List.find?_cons]
    by_cases h : spawnAccepts s (spawnSample grounded rng 0) = true
    · rw [if_pos h, h]
    · have hf : spawnAccepts s (spawnSample grounded rng 0) = false := by
        simpa using h
      rw [if_neg h, hf, ih]
      have hfun : spawnSample grounded (rng.skip (drawsPerSample grounded))
          = spawnSample grounded rng ∘ Nat.succ := by
        funext i
        exact spawnSample_skip grounded rng i
      rw [hfun]

theorem getValidSpawnPositionLoop_cursor (s : GameScene) (grounded : Bool)
    (remaining : Nat) (rng : Rng) :
    rng.cursor ≤ (GameScene.getValidSpawnPositionLoop s grounded remaining rng).2.cursor ∧
    (GameScene.getValidSpawnPositionLoop s grounded remaining rng).2.cursor
      ≤ rng.cursor + remaining * drawsPerSample grounded := by
  induction remaining generalizing rng with
  | zero =>
    simp [GameScene.getValidSpawnPositionLoop]
  | succ n ih =>
    rw [getValidSpawnPositionLoop_succ]
    by_cases h : spawnAccepts s (spawnSample grounded rng 0) = true
    · rw [if_pos h]
      simp only [Rng.skip, Nat.succ_mul]
      omega
    · rw [if_neg h]
      have h2 := ih (rng.skip (drawsPerSample grounded))
      simp only [Rng.skip] at h2
      simp only [Rng.skip, Nat.succ_mul]
      omega

theorem spawnAccepts_distances (s : GameScene) (pos : Pos) (h : spawnAccepts s pos = true) :
    (∀ p ∈ s.platforms, 100 * 100 ≤ Phaser.Math.Distance.Squared pos.x pos.y p.x p.y) ∧
    (∀ c ∈ s.crates, 100 * 100 ≤ Phaser.Math.Distance.Squared pos.x pos.y c.x c.y) ∧
    (∀ e ∈ s.enemies, 200 * 200 ≤ Phaser.Math.Distance.Squared pos.x pos.y e.x e.y) := by
  simp only [spawnAccepts, Bool.and_eq_true, Bool.not_eq_true', List.any_eq_false,
    distanceBelow, decide_eq_true_eq, not_lt] at h
  exact ⟨h.1.1, h.1.2, h.2⟩

theorem sqrt_bound_of_squared (d q : Int) (h : d * d ≤ q) :
    (d : ℝ) ≤ Real.sqrt (q : ℝ) := by
  apply Real.le_sqrt_of_sq_le
  rw [pow_two]
  exact_mod_cast h

/-- C8: every position returned by `getValidSpawnPosition(grounded)`, whatever
the platforms, crates, enemies and random draws, has 1000 ≤ x ≤ 17000, has
y = 500 when grounded and 50 ≤ y ≤ 350 otherwise, and lies at Euclidean
distance at least 100 from every platform tile and every crate and at least
200 from every enemy (stated on the squared distance and on its square root). -/
theorem spawn_position_respects_separation (s : GameScene) (grounded : Bool) (rng : Rng)
    (pos : Pos) (h : (GameScene.getValidSpawnPosition s grounded rng).1 = some pos) :
    1000 ≤ pos.x ∧ pos.x ≤ 17000 ∧
    (grounded = true → pos.y = 500) ∧
    (grounded = false → 50 ≤ pos.y ∧ pos.y ≤ 350) ∧
    (∀ p ∈ s.platforms,
      100 * 100 ≤ Phaser.Math.Distance.Squared pos.x pos.y p.x p.y ∧
      (100 : ℝ) ≤ Real.sqrt ((Phaser.Math.Distance.Squared pos.x pos.y p.x p.y : Int) : ℝ)) ∧
    (∀ c ∈ s.crates,
      100 * 100 ≤ Phaser.Math.Distance.Squared pos.x pos.y c.x c.y ∧
      (100 : ℝ) ≤ Real.sqrt ((Phaser.Math.Distance.Squared pos.x pos.y c.x c.y : Int) : ℝ)) ∧
    (∀ e ∈ s.enemies,
      200 * 200 ≤ Phaser.Math.Distance.Squared pos.x pos.y e.x e.y ∧
      (200 : ℝ) ≤ Real.sqrt ((Phaser.Math.Distance.Squared pos.x pos.y e.x e.y : Int) : ℝ)) := by
  unfold GameScene.getValidSpawnPosition at h
  rw [getValidSpawnPositionLoop_eq_find] at h
  have hacc : spawnAccepts s pos = true := List.find?_some h
  have hmem := List.mem_of_find?_eq_some h
  obtain ⟨i, _, hi⟩ := List.mem_map.mp hmem
  have hr := spawnSample_range grounded rng i
  rw [hi] at hr
  obtain ⟨hp, hc, he⟩ := spawnAccepts_distances s pos hacc
  refine ⟨hr.1, hr.2.1, hr.2.2.1, hr.2.2.2, ?_, ?_, ?_⟩
  · intro p hp2
    exact ⟨hp p hp2, by exact_mod_cast sqrt_bound_of_squared 100 _ (hp p hp2)⟩
  · intro c hc2
    exact ⟨hc c hc2, by exact_mod_cast sqrt_bound_of_squared 100 _ (hc c hc2)⟩
  · intro e he2
    exact ⟨he e he2, by exact_mod_cast sqrt_bound_of_squared 200 _ (he e he2)⟩

theorem spawn_position_respects_separation_witness :
    (GameScene.getValidSpawnPosition demoScene true demoRng).1
      = some { x := 1560, y := 500 } ∧
    (1000 ≤ (1560 : Int) ∧ (1560 : Int) ≤ 17000 ∧
    (true = true → (500 : Int) = 500) ∧
    (true = false → 50 ≤ (500 : Int) ∧ (500 : Int) ≤ 350) ∧
    (∀ p ∈ demoScene.platforms,
      100 * 100 ≤ Phaser.Math.Distance.Squared 1560 500 p.x p.y ∧
      (100 : ℝ) ≤ Real.sqrt ((Phaser.Math.Distance.Squared 1560 500 p.x p.y : Int) : ℝ)) ∧
    (∀ c ∈ demoScene.crates,
      100 * 100 ≤ Phaser.Math.Distance.Squared 1560 500 c.x c.y ∧
      (100 : ℝ) ≤ Real.sqrt ((Phaser.Math.Distance.Squared 1560 500 c.x c.y : Int) : ℝ)) ∧
    (∀ e ∈ demoScene.enemies,
      200 * 200 ≤ Phaser.Math.Distance.Squared 1560 500 e.x e.y ∧
      (200 : ℝ) ≤ Real.sqrt ((Phaser.Math.Distance.Squared 1560 500 e.x e.y : Int) : ℝ))) :=
  ⟨by decide,
    spawn_position_respects_separation demoScene true demoRng { x := 1560, y := 500 }
      (by decide)⟩

theorem spawnLoop_enemies (build : Int → Int → Enemy) (grounded : Bool) (count : Nat)
    (s : GameScene) (rng : Rng) :
    ∃ added : List Enemy,
      (GameScene.spawnLoop build grounded count s rng).1
        = { s with enemies := s.enemies ++ added } ∧
      added.length ≤ count ∧ ∀ e ∈ added, ∃ x y, e = build x y := by
  induction count generalizing s rng with
  | zero => exact ⟨[], by simp [GameScene.spawnLoop], by simp, by simp⟩
  | succ n ih =>
    rcases hget : GameScene.getValidSpawnPosition s grounded rng with ⟨_ | pos, rng1⟩
    · obtain ⟨added, h1, h2, h3⟩ := ih s rng1
      refine ⟨added, ?_, by omega, h3⟩
      simp only [GameScene.spawnLoop, hget]
      exact h1
    · obtain ⟨added, h1, h2, h3⟩ :=
        ih { s with enemies := s.enemies ++ [build pos.x pos.y] } rng1
      refine ⟨build pos.x pos.y :: added, ?_, by simp; omega, ?_⟩
      · simp only [GameScene.spawnLoop, hget]
        rw [h1]
        simp
      · intro e he
        rcases List.mem_cons.mp he with rfl | he
        · exact ⟨pos.x, pos.y, rfl⟩
        · exact h3 e he

/-- C9: `getValidSpawnPosition` is a total function that returns the first of
the 30 candidate samples passing the three distance checks, consumes the draws
of at most 30 samples, and returns null exactly when all 30 are rejected;
`spawnSpecialEnemies` is total as well and only appends to the enemies at most
12 dogs followed by at most 9 bats, leaving everything else as it was. -/
theorem spawn_search_bounded (s : GameScene) (grounded : Bool) (rng : Rng) :
    (GameScene.getValidSpawnPosition s grounded rng).1
      = ((List.range 30).map (spawnSample grounded rng)).find? (spawnAccepts s) ∧
    (GameScene.getValidSpawnPosition s grounded rng).2.cursor
      ≤ rng.cursor + 30 * drawsPerSample grounded ∧
    ((GameScene.getValidSpawnPosition s grounded rng).1 = none ↔
      ∀ i, i < 30 → spawnAccepts s (spawnSample grounded rng i) = false) ∧
    ∃ dogs bats : List Enemy,
      (GameScene.spawnSpecialEnemies s rng).1 = { s with enemies := s.enemies ++ dogs ++ bats } ∧
      dogs.length ≤ 12 ∧ bats.length ≤ 9 ∧
      (∀ e ∈ dogs, e.kind = EnemyKind.PerroEnemy) ∧
      (∀ e ∈ bats, e.kind = EnemyKind.MurcielagoEnemy) := by
  have hfind := getValidSpawnPositionLoop_eq_find s grounded 30 rng
  refine ⟨hfind, (getValidSpawnPositionLoop_cursor s grounded 30 rng).2, ?_, ?_⟩
  · unfold GameScene.getValidSpawnPosition
    rw [hfind, List.find?_eq_none]
    constructor
    · intro h i hi
      have := h (spawnSample grounded rng i)
        (List.mem_map.mpr ⟨i, List.mem_range.mpr hi, rfl⟩)
      simpa using this
    · intro h x hx
      obtain ⟨i, hi, rfl⟩ := List.mem_map.mp hx
      simp [h i (List.mem_range.mp hi)]
  · obtain ⟨dogs, hd1, hd2, hd3⟩ := spawnLoop_enemies PerroEnemy.new true 12 s rng
    obtain ⟨bats, hb1, hb2, hb3⟩ := spawnLoop_enemies MurcielagoEnemy.new false 9
      (GameScene.spawnLoop PerroEnemy.new true 12 s rng).1
      (GameScene.spawnLoop PerroEnemy.new true 12 s rng).2
    refine ⟨dogs, bats, ?_, hd2, hb2, ?_, ?_⟩
    · show (GameScene.spawnLoop MurcielagoEnemy.new false 9
        (GameScene.spawnLoop PerroEnemy.new true 12 s rng).1
        (GameScene.spawnLoop PerroEnemy.new true 12 s rng).2).1 = _
      rw [hb1, hd1]
    · intro e he
      obtain ⟨x, y, rfl⟩ := hd3 e he
      rfl
    · intro e he
      obtain ⟨x, y, rfl⟩ := hb3 e he
      rfl

/-! ## Bullet pool -/

theorem get_none_of_exhausted (x y : Int) (pool : Pool)
    (hfull : pool.maxSize ≤ pool.children.length)
    (hact : ∀ b ∈ pool.children, b.active = true) :
    Pool.get x y pool = none := by
  have hnone : pool.children.findIdx? (fun b => !b.active) = none := by
    rw [List.findIdx?_eq_none_iff]
    intro b hb
    simp [hact b hb]
  have hlen : ¬ pool.children.length < pool.maxSize := by omega
  simp [Pool.get, hnone, hlen]

theorem fireAction_of_exhausted (time : Int) (inp : Input) (p : Player)
    (hfull : p.bullets.maxSize ≤ p.bullets.children.length)
    (hact : ∀ b ∈ p.bullets.children, b.active = true) :
    Player.fireAction time inp p = p := by
  unfold Player.fireAction
  rw [get_none_of_exhausted p.x p.y p.bullets hfull hact]
  simp

theorem update_before_fire (time : Int) (inp : Input) (p : Player) :
    Player.update time inp p = p ∨
    ∃ p2, Player.update time inp p = Player.fireAction time inp p2 ∧
      p2.bullets = p.bullets ∧ p2.lastFired = p.lastFired := by
  unfold Player.update
  by_cases hg : (!p.hasBody || !p.active) = true
  · left
    simp [hg]
  · right
    simp only [hg]
    refine ⟨_, rfl, ?_, ?_⟩
    · simp only [Player.deactivateJetpack]
      repeat' split
      all_goals rfl
    · simp only [Player.deactivateJetpack]
      repeat' split
      all_goals rfl

theorem activeCount_le_of_poolInv (cap : Nat) (pool : Pool) (h : PoolInv cap pool) :
    pool.activeCount ≤ cap :=
  Nat.le_trans (List.countP_le_length _) h.2

theorem poolInv_modify (cap : Nat) (f : Bullet → Bullet) (i : Nat) (pool : Pool)
    (h : PoolInv cap pool) : PoolInv cap (Pool.modify f i pool) := by
  obtain ⟨h1, h2⟩ := h
  refine ⟨h1, ?_⟩
  simp only [Pool.modify, List.length_modify]
  exact h2

theorem poolInv_get (cap : Nat) (x y : Int) (pool pool2 : Pool) (i : Nat)
    (h : PoolInv cap pool) (hget : Pool.get x y pool = some (i, pool2)) :
    PoolInv cap pool2 := by
  obtain ⟨h1, h2⟩ := h
  unfold Pool.get at hget
  split at hget
  · simp only [Option.some.injEq, Prod.mk.injEq] at hget
    rw [← hget.2]
    exact ⟨h1, by simp only [List.length_modify]; exact h2⟩
  · split at hget
    · rename_i hlt
      simp only [Option.some.injEq, Prod.mk.injEq] at hget
      rw [← hget.2]
      refine ⟨h1, ?_⟩
      simp only [List.length_append, List.length_singleton]
      omega
    · exact absurd hget (by simp)

theorem poolInv_fireAction (cap : Nat) (time : Int) (inp : Input) (p : Player)
    (h : PoolInv cap p.bullets) : PoolInv cap (Player.fireAction time inp p).bullets := by
  unfold Player.fireAction
  split
  · split
    · rename_i i pool hget
      exact poolInv_modify cap _ i pool (poolInv_get cap p.x p.y p.bullets pool i h hget)
    · exact h
  · exact h

theorem poolInv_update (cap : Nat) (time : Int) (inp : Input) (p : Player)
    (h : PoolInv cap p.bullets) : PoolInv cap (Player.update time inp p).bullets := by
  rcases update_before_fire time inp p with h1 | ⟨p2, h1, h2, _⟩
  · rw [h1]
    exact h
  · rw [h1]
    exact poolInv_fireAction cap time inp p2 (by rw [h2]; exact h)

theorem lifeOp_keeps_pools (op : LifeOp) (s : GameScene) :
    (op.run s).player.bullets = s.player.bullets ∧ (op.run s).enemyBullets = s.enemyBullets := by
  cases op with
  | updateLives delta => exact ⟨rfl, rfl⟩
  | heal => exact ⟨rfl, rfl⟩
  | damage => exact ⟨rfl, rfl⟩
  | takeDamage =>
    show (Player.takeDamage s).player.bullets = s.player.bullets ∧
      (Player.takeDamage s).enemyBullets = s.enemyBullets
    unfold Player.takeDamage
    simp only [Player.disableBody]
    repeat' split
    all_goals exact ⟨rfl, rfl⟩
  | invulnerabilityCallback =>
    show (Player.invulnerabilityCallback s).player.bullets = s.player.bullets ∧
      (Player.invulnerabilityCallback s).enemyBullets = s.enemyBullets
    unfold Player.invulnerabilityCallback
    split
    all_goals exact ⟨rfl, rfl⟩

theorem sceneStep_keeps_capacity (step : SceneStep) (s : GameScene)
    (h : PoolInv 10 s.player.bullets ∧ PoolInv 50 s.enemyBullets) :
    PoolInv 10 (step.run s).player.bullets ∧ PoolInv 50 (step.run s).enemyBullets := by
  obtain ⟨hp, he⟩ := h
  cases step with
  | life op =>
    obtain ⟨h1, h2⟩ := lifeOp_keeps_pools op s
    show PoolInv 10 (op.run s).player.bullets ∧ PoolInv 50 (op.run s).enemyBullets
    rw [h1, h2]
    exact ⟨hp, he⟩
  | playerUpdate time inp => exact ⟨poolInv_update 10 time inp s.player hp, he⟩
  | activateJetpack => exact ⟨hp, he⟩
  | playerBullet i f => exact ⟨poolInv_modify 10 f i s.player.bullets hp, he⟩
  | enemyBulletGet x y =>
    rcases hget : Pool.get x y s.enemyBullets with _ | ⟨i, pool⟩
    · simp only [SceneStep.run, hget]
      exact ⟨hp, he⟩
    · simp only [SceneStep.run, hget]
      exact ⟨hp, poolInv_get 50 x y s.enemyBullets pool i he hget⟩
  | enemyBullet i f => exact ⟨hp, poolInv_modify 50 f i s.enemyBullets he⟩

theorem runSceneSteps_keeps_capacity (steps : List SceneStep) (s : GameScene)
    (h : PoolInv 10 s.player.bullets ∧ PoolInv 50 s.enemyBullets) :
    PoolInv 10 (runSceneSteps steps s).player.bullets ∧
    PoolInv 50 (runSceneSteps steps s).enemyBullets := by
  induction steps generalizing s with
  | nil => exact h
  | cons step rest ih => exact ih (step.run s) (sceneStep_keeps_capacity step s h)

/-- C10: when every slot of the player's bullet pool is taken (the group holds
`maxSize` members, all active), the pool returns no bullet and `Player.update`,
whatever the frame time and input, leaves the whole pool and `lastFired` as
they were; and on every scene reached from the start by frames, life-counter
calls, method calls on bullets and enemy `get` requests, at most 10 player
bullets and at most 50 enemy bullets are active. -/
theorem fire_dropped_when_pool_exhausted (p : Player) (time : Int) (inp : Input)
    (hfull : p.bullets.maxSize ≤ p.bullets.children.length)
    (hact : ∀ b ∈ p.bullets.children, b.active = true)
    (difficulty : Option Difficulty) (gs : GameState) (steps : List SceneStep) :
    Pool.get p.x p.y p.bullets = none ∧
    (Player.update time inp p).bullets = p.bullets ∧
    (Player.update time inp p).lastFired = p.lastFired ∧
    (runSceneSteps steps (GameScene.start difficulty gs)).player.bullets.activeCount ≤ 10 ∧
    (runSceneSteps steps (GameScene.start difficulty gs)).enemyBullets.activeCount ≤ 50 := by
  have hinv := runSceneSteps_keeps_capacity steps (GameScene.start difficulty gs)
    ⟨⟨rfl, by simp [GameScene.start, Player.new]⟩, ⟨rfl, by simp [GameScene.start]⟩⟩
  refine ⟨get_none_of_exhausted p.x p.y p.bullets hfull hact, ?_, ?_,
    activeCount_le_of_poolInv 10 _ hinv.1, activeCount_le_of_poolInv 50 _ hinv.2⟩
  · rcases update_before_fire time inp p with h1 | ⟨p2, h1, h2, _⟩
    · rw [h1]
    · rw [h1, fireAction_of_exhausted time inp p2 (by rw [h2]; exact hfull)
        (by rw [h2]; exact hact), h2]
  · rcases update_before_fire time inp p with h1 | ⟨p2, h1, h2, h3⟩
    · rw [h1]
    · rw [h1, fireAction_of_exhausted time inp p2 (by rw [h2]; exact hfull)
        (by rw [h2]; exact hact), h3]

theorem fire_dropped_when_pool_exhausted_witness :
    (exhaustedPlayer.bullets.maxSize ≤ exhaustedPlayer.bullets.children.length ∧
      ∀ b ∈ exhaustedPlayer.bullets.children, b.active = true) ∧
    (Pool.get exhaustedPlayer.x exhaustedPlayer.y exhaustedPlayer.bullets = none ∧
    (Player.update 5000 fireOnly exhaustedPlayer).bullets = exhaustedPlayer.bullets ∧
    (Player.update 5000 fireOnly exhaustedPlayer).lastFired = exhaustedPlayer.lastFired ∧
    (runSceneSteps [SceneStep.playerUpdate 10 fireOnly, SceneStep.enemyBulletGet 5 5]
      (GameScene.start none GAME_STATE)).player.bullets.activeCount ≤ 10 ∧
    (runSceneSteps [SceneStep.playerUpdate 10 fireOnly, SceneStep.enemyBulletGet 5 5]
      (GameScene.start none GAME_STATE)).enemyBullets.activeCount ≤ 50) :=
  ⟨⟨by decide, by decide⟩,
    fire_dropped_when_pool_exhausted exhaustedPlayer 5000 fireOnly (by decide) (by decide)
      none GAME_STATE [SceneStep.playerUpdate 10 fireOnly, SceneStep.enemyBulletGet 5 5]⟩

/-! ## Reused bullet slots -/

theorem fire_resets_slot (x y direction : Int) (b1 b2 : Bullet)
    (hw : b1.width = b2.width) (hh : b1.height = b2.height) :
    (Bullet.fire x y direction b1).x = (Bullet.fire x y direction b2).x ∧
    (Bullet.fire x y direction b1).y = (Bullet.fire x y direction b2).y ∧
    (Bullet.fire x y direction b1).velocityX = (Bullet.fire x y direction b2).velocityX ∧
    (Bullet.fire x y direction b1).velocityY = (Bullet.fire x y direction b2).velocityY ∧
    (Bullet.fire x y direction b1).bodyWidth = (Bullet.fire x y direction b2).bodyWidth ∧
    (Bullet.fire x y direction b1).bodyHeight = (Bullet.fire x y direction b2).bodyHeight ∧
    (Bullet.fire x y direction b1).active = (Bullet.fire x y direction b2).active := by
  simp [Bullet.fire, Bullet.enableBody, hw, hh]

/-- C11 (failing input): `Boss.attack` at the same boss and player positions
reactivates slot 0 of the enemy bullet group once in the group as `create()`
builds it and once after a `ShooterEnemy` shot has used and released that
slot.  Position, velocity and active flag agree, but the collision box is the
full texture (32 x 16) in the first case and the halved one (16 x 8) left by
the earlier `Bullet.fire` in the second. -/
theorem boss_attack_keeps_stale_body_size (eng : Engine) :
    ((Boss.attack eng (Boss.new GAME_STATE 17850 300) 17600 500 freshEnemyBullets).children[0]?).map
        (fun b => (b.x, b.y, b.velocityX, b.velocityY, b.active))
      = ((Boss.attack eng (Boss.new GAME_STATE 17850 300) 17600 500 usedEnemyBullets).children[0]?).map
        (fun b => (b.x, b.y, b.velocityX, b.velocityY, b.active)) ∧
    ((Boss.attack eng (Boss.new GAME_STATE 17850 300) 17600 500 freshEnemyBullets).children[0]?).map
        (fun b => (b.bodyWidth, b.bodyHeight)) = some (32, 16) ∧
    ((Boss.attack eng (Boss.new GAME_STATE 17850 300) 17600 500 usedEnemyBullets).children[0]?).map
        (fun b => (b.bodyWidth, b.bodyHeight)) = some (16, 8) := by
  refine ⟨?_, ?_, ?_⟩
  · simp [Boss.attack, Boss.new, Enemy.new, usedEnemyBullets, freshEnemyBullets,
      GameScene.start, ShooterEnemy.shoot, ShooterEnemy.new, distanceAbove,
      Phaser.Math.Distance.Squared, Pool.get, Pool.modify, Bullet.fire, Bullet.enableBody,
      Bullet.disableBody, Bullet.new, Boss.launch, shotFrame, List.modify, List.findIdx?]
  · simp [Boss.attack, Boss.new, Enemy.new, freshEnemyBullets,
      GameScene.start, Pool.get, Pool.modify, Bullet.enableBody,
      Bullet.new, Boss.launch, shotFrame, List.modify, List.findIdx?]
  · simp [Boss.attack, Boss.new, Enemy.new, usedEnemyBullets, freshEnemyBullets,
      GameScene.start, ShooterEnemy.shoot, ShooterEnemy.new, distanceAbove,
      Phaser.Math.Distance.Squared, Pool.get, Pool.modify, Bullet.fire, Bullet.enableBody,
      Bullet.disableBody, Bullet.new, Boss.launch, shotFrame, List.modify, List.findIdx?]
    norm_num

/-! ## Bullets leaving the world -/

theorem bullet_update_inside (worldWidth : Int) (b : Bullet) (h0 : 0 ≤ b.x)
    (h1 : b.x ≤ worldWidth) : Bullet.update worldWidth b = b := by
  unfold Bullet.update
  rw [if_neg]
  omega

theorem bullet_update_outside (worldWidth : Int) (b : Bullet)
    (h : b.x < 0 ∨ b.x > worldWidth) :
    Bullet.update worldWidth b = Bullet.disableBody true true b := by
  unfold Bullet.update
  rw [if_pos h]

theorem bullet_flight_inside (worldWidth : Int) (xs : List Int) (b : Bullet)
    (hb : b.active = true) (hxs : ∀ x ∈ xs, 0 ≤ x ∧ x ≤ worldWidth) :
    Bullet.flight worldWidth xs b = { b with x := xs.getLastD b.x } := by
  induction xs generalizing b with
  | nil => rfl
  | cons x rest ih =>
    have hx := hxs x (List.mem_cons_self x rest)
    have hstep : Bullet.frame worldWidth x b = { b with x := x } := by
      unfold Bullet.frame
      rw [if_pos hb]
      exact bullet_update_inside worldWidth { b with x := x } hx.1 hx.2
    show Bullet.flight worldWidth rest (Bullet.frame worldWidth x b) = _
    rw [hstep, ih { b with x := x } hb (fun z hz => hxs z (List.mem_cons_of_mem x hz))]
    cases rest with
    | nil => rfl
    | cons z zs => rfl

/-- C12: `Bullet.update` deactivates an active bullet exactly when its x is
below 0 or above the world width, and leaves a bullet with 0 ≤ x ≤ W
unchanged.  A bullet fired at x = 10 with direction -700 stays active through
the update of every step that leaves it inside the world and is deactivated by
the update of the first step that leaves it at x < 0; an active bullet at
x = 900 in a world of width 800 is deactivated by one update. -/
theorem bullet_update_world_bounds (b : Bullet) (worldWidth : Int) (hb : b.active = true)
    (slot : Bullet) (y : Int) (xs : List Int) (xOut : Int)
    (hW : 10 ≤ worldWidth) (hxs : ∀ x ∈ xs, 0 ≤ x ∧ x ≤ worldWidth) (hOut : xOut < 0) :
    ((Bullet.update worldWidth b).active = false ↔ (b.x < 0 ∨ b.x > worldWidth)) ∧
    (0 ≤ b.x ∧ b.x ≤ worldWidth → Bullet.update worldWidth b = b) ∧
    (Bullet.flight worldWidth xs
      (Bullet.update worldWidth (Bullet.fire 10 y (-700) slot))).active = true ∧
    (Bullet.frame worldWidth xOut (Bullet.flight worldWidth xs
      (Bullet.update worldWidth (Bullet.fire 10 y (-700) slot)))).active = false ∧
    (b.x = 900 → (Bullet.update 800 b).active = false) := by
  have hfired : Bullet.update worldWidth (Bullet.fire 10 y (-700) slot)
      = Bullet.fire 10 y (-700) slot :=
    bullet_update_inside worldWidth _ (by simp [Bullet.fire, Bullet.enableBody])
      (by simpa [Bullet.fire, Bullet.enableBody] using hW)
  have hact : (Bullet.fire 10 y (-700) slot).active = true := by
    simp [Bullet.fire, Bullet.enableBody]
  have hflight := bullet_flight_inside worldWidth xs (Bullet.fire 10 y (-700) slot) hact hxs
  refine ⟨?_, ?_, ?_, ?_, ?_⟩
  · constructor
    · intro h
      by_contra hin
      rw [bullet_update_inside worldWidth b (by omega) (by omega), hb] at h
      exact Bool.noConfusion h
    · intro h
      rw [bullet_update_outside worldWidth b h]
      simp [Bullet.disableBody]
  · intro h
    exact bullet_update_inside worldWidth b h.1 h.2
  · rw [hfired, hflight]
    exact hact
  · rw [hfired, hflight]
    unfold Bullet.frame
    rw [if_pos hact, bullet_update_outside worldWidth _ (Or.inl hOut)]
    simp [Bullet.disableBody]
  · intro h
    rw [bullet_update_outside 800 b (Or.inr (by omega))]
    simp [Bullet.disableBody]

theorem bullet_update_world_bounds_witness :
    ((Bullet.new 900 100 32 16).active = true ∧ (10 : Int) ≤ 18000 ∧
      (∀ x ∈ [(5 : Int), 0], 0 ≤ x ∧ x ≤ 18000) ∧ (-6 : Int) < 0) ∧
    (((Bullet.update 18000 (Bullet.new 900 100 32 16)).active = false ↔
      ((Bullet.new 900 100 32 16).x < 0 ∨ (Bullet.new 900 100 32 16).x > 18000)) ∧
    (0 ≤ (Bullet.new 900 100 32 16).x ∧ (Bullet.new 900 100 32 16).x ≤ 18000 →
      Bullet.update 18000 (Bullet.new 900 100 32 16) = Bullet.new 900 100 32 16) ∧
    (Bullet.flight 18000 [5, 0]
      (Bullet.update 18000 (Bullet.fire 10 450 (-700) (Bullet.new 0 0 32 16)))).active = true ∧
    (Bullet.frame 18000 (-6) (Bullet.flight 18000 [5, 0]
      (Bullet.update 18000 (Bullet.fire 10 450 (-700) (Bullet.new 0 0 32 16))))).active = false ∧
    ((Bullet.new 900 100 32 16).x = 900 →
      (Bullet.update 800 (Bullet.new 900 100 32 16)).active = false)) :=
  ⟨⟨rfl, by decide, by decide, by decide⟩,
    bullet_update_world_bounds (Bullet.new 900 100 32 16) 18000 rfl (Bullet.new 0 0 32 16) 450
      [5, 0] (-6) (by decide) (by decide) (by decide)⟩

/-! ## Player.update: what each part leaves alone -/

theorem update_eq_steer_fire (time : Int) (inp : Input) (p : Player) :
    Player.update time inp p =
      if (!p.hasBody || !p.active) = true then p
      else Player.fireAction time inp (Player.steer inp p) := by
  rfl

theorem steer_keeps (inp : Input) (p : Player) :
    (Player.steer inp p).x = p.x ∧ (Player.steer inp p).y = p.y ∧
    (Player.steer inp p).lives = p.lives ∧
    (Player.steer inp p).isInvulnerable = p.isInvulnerable ∧
    (Player.steer inp p).active = p.active ∧ (Player.steer inp p).hasBody = p.hasBody ∧
    (Player.steer inp p).bullets = p.bullets ∧ (Player.steer inp p).lastFired = p.lastFired := by
  simp only [Player.steer, Player.deactivateJetpack]
  repeat' split
  all_goals exact ⟨rfl, rfl, rfl, rfl, rfl, rfl, rfl, rfl⟩

theorem fireAction_keeps (time : Int) (inp : Input) (p : Player) :
    (Player.fireAction time inp p).x = p.x ∧ (Player.fireAction time inp p).y = p.y ∧
    (Player.fireAction time inp p).lives = p.lives ∧
    (Player.fireAction time inp p).isInvulnerable = p.isInvulnerable ∧
    (Player.fireAction time inp p).active = p.active ∧
    (Player.fireAction time inp p).hasBody = p.hasBody ∧
    (Player.fireAction time inp p).flipX = p.flipX ∧
    (Player.fireAction time inp p).isFlying = p.isFlying ∧
    (Player.fireAction time inp p).jetpackTimer = p.jetpackTimer ∧
    (Player.fireAction time inp p).allowGravity = p.allowGravity ∧
    (Player.fireAction time inp p).velocityX = p.velocityX ∧
    (Player.fireAction time inp p).velocityY = p.velocityY := by
  unfold Player.fireAction
  repeat' split
  all_goals exact ⟨rfl, rfl, rfl, rfl, rfl, rfl, rfl, rfl, rfl, rfl, rfl, rfl⟩

theorem update_keeps (time : Int) (inp : Input) (p : Player) :
    (Player.update time inp p).x = p.x ∧ (Player.update time inp p).y = p.y ∧
    (Player.update time inp p).lives = p.lives ∧
    (Player.update time inp p).isInvulnerable = p.isInvulnerable ∧
    (Player.update time inp p).active = p.active ∧
    (Player.update time inp p).hasBody = p.hasBody := by
  rw [update_eq_steer_fire]
  split
  · exact ⟨rfl, rfl, rfl, rfl, rfl, rfl⟩
  · obtain ⟨f1, f2, f3, f4, f5, f6, _⟩ := fireAction_keeps time inp (Player.steer inp p)
    obtain ⟨s1, s2, s3, s4, s5, s6, _⟩ := steer_keeps inp p
    exact ⟨f1.trans s1, f2.trans s2, f3.trans s3, f4.trans s4, f5.trans s5, f6.trans s6⟩

/-! ## Fire rate -/

theorem get_some_spec (x y : Int) (pool pool2 : Pool) (i : Nat)
    (hget : Pool.get x y pool = some (i, pool2)) :
    (∃ b, pool2.children[i]? = some b ∧ b.x = x ∧ b.y = y) ∧
    (∀ j, j ≠ i → pool2.children[j]? = pool.children[j]?) := by
  unfold Pool.get at hget
  split at hget
  · rename_i k hk
    simp only [Option.some.injEq, Prod.mk.injEq] at hget
    obtain ⟨rfl, rfl⟩ := hget
    have hlt : k < pool.children.length := by
      rw [List.findIdx?_eq_some_iff_getElem] at hk
      exact hk.1
    refine ⟨⟨{ pool.children[k] with x := x, y := y }, ?_, rfl, rfl⟩, ?_⟩
    · simp [List.getElem?_modify_eq, List.getElem?_eq_getElem hlt]
    · intro j hj
      simp [List.getElem?_modify_ne _ _ (Ne.symm hj)]
  · split at hget
    · simp only [Option.some.injEq, Prod.mk.injEq] at hget
      obtain ⟨rfl, rfl⟩ := hget
      refine ⟨⟨Bullet.new x y pool.frameWidth pool.frameHeight, ?_, rfl, rfl⟩, ?_⟩
      · simp
      · intro j hj
        by_cases hlt : j < pool.children.length
        · simp [List.getElem?_append_left hlt]
        · have hgt : pool.children.length < j := by omega
          have h1 : pool.children[j]? = none := by
            simp [List.getElem?_eq_none_iff]
            omega
          rw [h1, List.getElem?_eq_none_iff]
          simp
          omega
    · exact absurd hget (by simp)

theorem fireAction_of_fires (time : Int) (inp : Input) (p : Player) (i : Nat) (pool : Pool)
    (hx : inp.xJustDown = true) (ht : time > p.lastFired)
    (hget : Pool.get p.x p.y p.bullets = some (i, pool)) :
    Player.fireAction time inp p =
      { p with
        bullets := Pool.modify (Bullet.fire p.x p.y (if p.flipX then -700 else 700)) i pool,
        lastFired := time + 250 } := by
  unfold Player.fireAction
  simp [hx, ht, hget]

theorem fireAction_of_not_fires (time : Int) (inp : Input) (p : Player)
    (h : (inp.xJustDown && decide (time > p.lastFired) &&
      (Pool.get p.x p.y p.bullets).isSome) = false) :
    Player.fireAction time inp p = p := by
  unfold Player.fireAction
  by_cases hc : (inp.xJustDown && decide (time > p.lastFired)) = true
  · rw [if_pos hc]
    rw [hc] at h
    cases hget : Pool.get p.x p.y p.bullets with
    | none => rfl
    | some r => simp [hget] at h
  · rw [if_neg hc]

theorem update_of_not_fires (time : Int) (inp : Input) (p : Player)
    (h : Player.fires time inp p = false) :
    (Player.update time inp p).bullets = p.bullets ∧
    (Player.update time inp p).lastFired = p.lastFired := by
  obtain ⟨s1, s2, _, _, _, _, s7, s8⟩ := steer_keeps inp p
  rw [update_eq_steer_fire]
  split
  · exact ⟨rfl, rfl⟩
  · rename_i hg
    have hb : p.hasBody = true := by
      cases hh : p.hasBody <;> simp_all
    have ha : p.active = true := by
      cases hh : p.active <;> simp_all
    have h2 : (inp.xJustDown && decide (time > (Player.steer inp p).lastFired) &&
        (Pool.get (Player.steer inp p).x (Player.steer inp p).y
          (Player.steer inp p).bullets).isSome) = false := by
      rw [s1, s2, s7, s8]
      simpa [Player.fires, hb, ha] using h
    rw [fireAction_of_not_fires time inp (Player.steer inp p) h2]
    exact ⟨s7, s8⟩

theorem update_of_fires (time : Int) (inp : Input) (p : Player)
    (h : Player.fires time inp p = true) :
    p.lastFired < time ∧
    (Player.update time inp p).lastFired = time + 250 ∧
    ∃ (i : Nat) (b : Bullet), (Player.update time inp p).bullets.children[i]? = some b ∧
      b.active = true ∧ b.x = p.x ∧ b.y = p.y ∧ b.velocityY = 0 ∧
      b.velocityX = (((if (Player.update time inp p).flipX then -700 else 700 : Int)) : ℚ) ∧
      ∀ j, j ≠ i → (Player.update time inp p).bullets.children[j]? = p.bullets.children[j]? := by
  obtain ⟨s1, s2, _, _, _, _, s7, s8⟩ := steer_keeps inp p
  simp only [Player.fires, Bool.and_eq_true, decide_eq_true_eq] at h
  obtain ⟨⟨⟨⟨hb, ha⟩, hx⟩, ht⟩, hsome⟩ := h
  obtain ⟨⟨i, pool⟩, hget⟩ := Option.isSome_iff_exists.mp hsome
  have hg : ¬ ((!p.hasBody || !p.active) = true) := by simp [hb, ha]
  have hget2 : Pool.get (Player.steer inp p).x (Player.steer inp p).y
      (Player.steer inp p).bullets = some (i, pool) := by
    rw [s1, s2, s7]
    exact hget
  have hupd := fireAction_of_fires time inp (Player.steer inp p) i pool hx
    (by rw [s8]; exact ht) hget2
  obtain ⟨⟨b0, hb0, _, _⟩, hothers⟩ := get_some_spec p.x p.y p.bullets pool i hget
  rw [update_eq_steer_fire, if_neg hg, hupd]
  refine ⟨ht, rfl, i,
    Bullet.fire p.x p.y (if (Player.steer inp p).flipX then -700 else 700) b0, ?_, ?_, ?_, ?_,
    ?_, ?_, ?_⟩
  · simp only [Pool.modify, List.getElem?_modify_eq, hb0, s1, s2]
    rfl
  · simp [Bullet.fire, Bullet.enableBody]
  · simp [Bullet.fire, Bullet.enableBody]
  · simp [Bullet.fire, Bullet.enableBody]
  · simp [Bullet.fire, Bullet.enableBody]
  · simp [Bullet.fire, Bullet.enableBody]
  · intro j hj
    simp only [Pool.modify]
    rw [List.getElem?_modify_ne _ _ (Ne.symm hj)]
    exact hothers j hj

theorem shotTimes_after_cooldown (frames : List (Int × Input)) (p : Player) :
    (∀ t ∈ Player.shotTimes frames p, p.lastFired < t) ∧
    List.Pairwise (fun t1 t2 => t1 + 250 < t2) (Player.shotTimes frames p) := by
  induction frames generalizing p with
  | nil => exact ⟨by simp [Player.shotTimes], by simp [Player.shotTimes]⟩
  | cons f rest ih =>
    obtain ⟨ih1, ih2⟩ := ih (Player.update f.1 f.2 p)
    by_cases hf : Player.fires f.1 f.2 p = true
    · obtain ⟨hlt, hlast, _⟩ := update_of_fires f.1 f.2 p hf
      rw [hlast] at ih1
      simp only [Player.shotTimes, hf, if_true]
      refine ⟨?_, ?_⟩
      · intro t ht
        rcases List.mem_cons.mp ht with rfl | ht
        · exact hlt
        · have := ih1 t ht
          omega
      · exact List.Pairwise.cons (fun t ht => ih1 t ht) ih2
    · have hf2 : Player.fires f.1 f.2 p = false := by simpa using hf
      obtain ⟨_, hlast⟩ := update_of_not_fires f.1 f.2 p hf2
      rw [hlast] at ih1
      simp only [Player.shotTimes, hf2]
      exact ⟨ih1, ih2⟩

/-- C13: for every call `Player.update(time)` and every sequence of such calls,
whatever the times and inputs: a call that does not fire leaves the pool and
`lastFired` as they were; a call that fires changes exactly one slot of the
pool, whose bullet is active at the player's position with horizontal velocity
-700 if the player faces left and +700 otherwise, and sets `lastFired` to
`time + 250`; a fire press for which the pool returns no bullet leaves
`lastFired` unchanged; and any two shots of a sequence are more than 250 ms
apart. -/
theorem fire_rate_limited (frames : List (Int × Input)) (p : Player) (time : Int)
    (inp : Input) :
    (Player.fires time inp p = false →
      (Player.update time inp p).bullets = p.bullets ∧
      (Player.update time inp p).lastFired = p.lastFired) ∧
    (Player.fires time inp p = true →
      p.lastFired < time ∧
      (Player.update time inp p).lastFired = time + 250 ∧
      ∃ (i : Nat) (b : Bullet), (Player.update time inp p).bullets.children[i]? = some b ∧
        b.active = true ∧ b.x = p.x ∧ b.y = p.y ∧ b.velocityY = 0 ∧
        b.velocityX = (((if (Player.update time inp p).flipX then -700 else 700 : Int)) : ℚ) ∧
        ∀ j, j ≠ i →
          (Player.update time inp p).bullets.children[j]? = p.bullets.children[j]?) ∧
    (Pool.get p.x p.y p.bullets = none →
      (Player.update time inp p).lastFired = p.lastFired) ∧
    List.Pairwise (fun t1 t2 => t1 + 250 < t2) (Player.shotTimes frames p) := by
  refine ⟨update_of_not_fires time inp p, update_of_fires time inp p, ?_,
    (shotTimes_after_cooldown frames p).2⟩
  intro hnone
  exact (update_of_not_fires time inp p (by simp [Player.fires, hnone])).2

/-! ## Dog detection latch -/

theorem perroFrame_idle (f : Sighting) (e : Enemy) (hr : PerroReady e)
    (hd : e.hasDetected = false) (hn : f.near = false) :
    PerroEnemy.frame f e = { e with x := f.enemyX, y := f.enemyY } := by
  obtain ⟨hb, ha, _, hrange⟩ := hr
  simp only [Sighting.near] at hn
  simp [PerroEnemy.frame, PerroEnemy.update, hb, ha, hd, hrange, hn]

theorem perroFrame_charge (f : Sighting) (e : Enemy) (hr : PerroReady e)
    (h : f.near = true ∨ e.hasDetected = true) :
    PerroReady (PerroEnemy.frame f e) ∧ (PerroEnemy.frame f e).hasDetected = true ∧
    (PerroEnemy.frame f e).velocityX = -300 := by
  obtain ⟨hb, ha, hs, hrange⟩ := hr
  simp only [Sighting.near] at h
  have hc : (distanceBelow f.enemyX f.enemyY f.playerX f.playerY 400 || e.hasDetected) = true := by
    rcases h with h | h <;> simp [h]
  simp [PerroEnemy.frame, PerroEnemy.update, PerroReady, hb, ha, hs, hrange, hc]

theorem perroChase_idle (fs : List Sighting) (e : Enemy) (hr : PerroReady e)
    (hd : e.hasDetected = false) (hn : ∀ f ∈ fs, f.near = false) :
    PerroReady (PerroEnemy.chase fs e) ∧ (PerroEnemy.chase fs e).hasDetected = false ∧
    (PerroEnemy.chase fs e).velocityX = e.velocityX := by
  induction fs generalizing e with
  | nil => exact ⟨hr, hd, rfl⟩
  | cons f rest ih =>
    have hstep := perroFrame_idle f e hr hd (hn f (List.mem_cons_self f rest))
    show PerroReady (PerroEnemy.chase rest (PerroEnemy.frame f e)) ∧
      (PerroEnemy.chase rest (PerroEnemy.frame f e)).hasDetected = false ∧
      (PerroEnemy.chase rest (PerroEnemy.frame f e)).velocityX = e.velocityX
    rw [hstep]
    exact ih { e with x := f.enemyX, y := f.enemyY } hr hd
      (fun g hg => hn g (List.mem_cons_of_mem f hg))

theorem perroChase_charge (fs : List Sighting) (e : Enemy) (hr : PerroReady e)
    (hd : e.hasDetected = true) (hv : e.velocityX = -300) :
    PerroReady (PerroEnemy.chase fs e) ∧ (PerroEnemy.chase fs e).hasDetected = true ∧
    (PerroEnemy.chase fs e).velocityX = -300 := by
  induction fs generalizing e with
  | nil => exact ⟨hr, hd, hv⟩
  | cons f rest ih =>
    obtain ⟨h1, h2, h3⟩ := perroFrame_charge f e hr (Or.inr hd)
    exact ih (PerroEnemy.frame f e) h1 h2 h3

/-- C14: `hasDetected` is a one-way latch.  An update never turns it from true
to false; an update of a dog that has not detected, with the player at
distance 400 or more, changes nothing; an update of an active dog that has
detected sets its horizontal velocity to minus its speed wherever the player
is.  From construction, through any frames that all find the player at
distance 400 or more the dog stays undetected with velocity 0, and once one
frame finds the player nearer the dog has detected and moves at -300 after
that frame and after every later frame, whatever the later positions. -/
theorem perro_detection_latch (e : Enemy) (playerX playerY x y : Int)
    (pre post : List Sighting) (hit : Sighting)
    (hpre : ∀ f ∈ pre, f.near = false) (hhit : hit.near = true) :
    (e.hasDetected = true → (PerroEnemy.update playerX playerY e).hasDetected = true) ∧
    (e.hasBody = true → e.active = true → e.hasDetected = true →
      (PerroEnemy.update playerX playerY e).velocityX = -e.speed) ∧
    (e.hasDetected = false →
      distanceBelow e.x e.y playerX playerY e.detectionRange = false →
      PerroEnemy.update playerX playerY e = e) ∧
    (PerroEnemy.chase pre (PerroEnemy.new x y)).hasDetected = false ∧
    (PerroEnemy.chase pre (PerroEnemy.new x y)).velocityX = 0 ∧
    (PerroEnemy.chase (pre ++ hit :: post) (PerroEnemy.new x y)).hasDetected = true ∧
    (PerroEnemy.chase (pre ++ hit :: post) (PerroEnemy.new x y)).velocityX = -300 := by
  have hready : PerroReady (PerroEnemy.new x y) := ⟨rfl, rfl, rfl, rfl⟩
  obtain ⟨i1, i2, i3⟩ := perroChase_idle pre (PerroEnemy.new x y) hready rfl hpre
  obtain ⟨c1, c2, c3⟩ := perroFrame_charge hit (PerroEnemy.chase pre (PerroEnemy.new x y)) i1
    (Or.inl hhit)
  obtain ⟨d1, d2, d3⟩ := perroChase_charge post _ c1 c2 c3
  have happ : PerroEnemy.chase (pre ++ hit :: post) (PerroEnemy.new x y)
      = PerroEnemy.chase post
          (PerroEnemy.frame hit (PerroEnemy.chase pre (PerroEnemy.new x y))) := by
    simp [PerroEnemy.chase, List.foldl_append]
  refine ⟨?_, ?_, ?_, i2, i3, ?_, ?_⟩
  · intro hd
    unfold PerroEnemy.update
    split
    · exact hd
    · simp [hd]
  · intro hb ha hd
    simp [PerroEnemy.update, hb, ha, hd]
  · intro hd hfar
    simp [PerroEnemy.update, hd, hfar]
  · rw [happ]
    exact d2
  · rw [happ]
    exact d3

theorem perro_detection_latch_witness :
    ((∀ f ∈ [({ enemyX := 1000, enemyY := 500, playerX := 500, playerY := 500 } : Sighting)],
        f.near = false) ∧
      ({ enemyX := 1000, enemyY := 500, playerX := 650, playerY := 500 } : Sighting).near
        = true) ∧
    (((PerroEnemy.new 1000 500).hasDetected = true →
      (PerroEnemy.update 0 500 (PerroEnemy.new 1000 500)).hasDetected = true) ∧
    ((PerroEnemy.new 1000 500).hasBody = true → (PerroEnemy.new 1000 500).active = true →
      (PerroEnemy.new 1000 500).hasDetected = true →
      (PerroEnemy.update 0 500 (PerroEnemy.new 1000 500)).velocityX
        = -(PerroEnemy.new 1000 500).speed) ∧
    ((PerroEnemy.new 1000 500).hasDetected = false →
      distanceBelow (PerroEnemy.new 1000 500).x (PerroEnemy.new 1000 500).y 0 500
        (PerroEnemy.new 1000 500).detectionRange = false →
      PerroEnemy.update 0 500 (PerroEnemy.new 1000 500) = PerroEnemy.new 1000 500) ∧
    (PerroEnemy.chase [{ enemyX := 1000, enemyY := 500, playerX := 500, playerY := 500 }]
      (PerroEnemy.new 1000 500)).hasDetected = false ∧
    (PerroEnemy.chase [{ enemyX := 1000, enemyY := 500, playerX := 500, playerY := 500 }]
      (PerroEnemy.new 1000 500)).velocityX = 0 ∧
    (PerroEnemy.chase
      ([{ enemyX := 1000, enemyY := 500, playerX := 500, playerY := 500 }] ++
        { enemyX := 1000, enemyY := 500, playerX := 650, playerY := 500 } ::
        [{ enemyX := 995, enemyY := 500, playerX := 1995, playerY := 500 }])
      (PerroEnemy.new 1000 500)).hasDetected = true ∧
    (PerroEnemy.chase
      ([{ enemyX := 1000, enemyY := 500, playerX := 500, playerY := 500 }] ++
        { enemyX := 1000, enemyY := 500, playerX := 650, playerY := 500 } ::
        [{ enemyX := 995, enemyY := 500, playerX := 1995, playerY := 500 }])
      (PerroEnemy.new 1000 500)).velocityX = -300) :=
  ⟨⟨by decide, by decide⟩,
    perro_detection_latch (PerroEnemy.new 1000 500) 0 500 1000 500
      [{ enemyX := 1000, enemyY := 500, playerX := 500, playerY := 500 }]
      [{ enemyX := 995, enemyY := 500, playerX := 1995, playerY := 500 }]
      { enemyX := 1000, enemyY := 500, playerX := 650, playerY := 500 }
      (by decide) (by decide)⟩

/-! ## Enemy hit points -/

theorem hit_hp (e : Enemy) : (Enemy.hit e).hp = e.hp - 1 := by
  unfold Enemy.hit Enemy.takeDamage
  simp only [Enemy.disableBody]
  split <;> rfl

theorem hit_active (e : Enemy) :
    (Enemy.hit e).active = (e.active && decide (2 ≤ e.hp)) := by
  unfold Enemy.hit Enemy.takeDamage
  simp only [Enemy.disableBody]
  split
  · rename_i h
    have h2 : ¬ (2 ≤ e.hp) := by
      omega
    simp [h2]
  · rename_i h
    have h2 : 2 ≤ e.hp := by
      omega
    simp [h2]

theorem iterate_hit (k : Nat) (e : Enemy) (ha : e.active = true) :
    (Enemy.hit^[k] e).hp = e.hp - k ∧
    ((k : Int) < e.hp → (Enemy.hit^[k] e).active = true) ∧
    (e.hp ≤ (k : Int) → 1 ≤ k → (Enemy.hit^[k] e).active = false) := by
  induction k with
  | zero =>
    refine ⟨by simp, fun _ => ha, fun _ h => absurd h (by decide)⟩
  | succ n ih =>
    obtain ⟨h1, h2, h3⟩ := ih
    rw [Function.iterate_succ_apply']
    refine ⟨?_, ?_, ?_⟩
    · rw [hit_hp, h1]
      push_cast
      omega
    · intro hlt
      rw [hit_active, h1, h2 (by push_cast at hlt; omega)]
      simp
      push_cast at hlt
      omega
    · intro hle _
      rw [hit_active, h1]
      have : ¬ (2 ≤ e.hp - (n : Int)) := by
        push_cast at hle
        omega
      simp [this]

theorem hit_active_hp (e : Enemy) (h : (Enemy.hit e).active = true) : 1 ≤ (Enemy.hit e).hp := by
  rw [hit_active] at h
  rw [hit_hp]
  simp only [Bool.and_eq_true, decide_eq_true_eq] at h
  omega

/-- C16: for an active enemy with hp = h ≥ 1, every `takeDamage()` lowers hp by
exactly 1, after k ≤ h calls hp is h - k, the enemy is still active after each
of the first h - 1 calls and inactive after the h-th, and after any number of
calls an enemy that is still active has hp ≥ 1. -/
theorem enemy_hp_countdown (e : Enemy) (h k n : Nat) (ha : e.active = true) (hh : 1 ≤ h)
    (hp : e.hp = h) :
    (Enemy.takeDamage e).1.hp = e.hp - 1 ∧
    (Enemy.hit (Enemy.hit^[n] e)).hp = (Enemy.hit^[n] e).hp - 1 ∧
    (k ≤ h → (Enemy.hit^[k] e).hp = (h : Int) - k) ∧
    (k < h → (Enemy.hit^[k] e).active = true) ∧
    (Enemy.hit^[h] e).active = false ∧
    ((Enemy.hit^[n] e).active = true → 1 ≤ (Enemy.hit^[n] e).hp) := by
  obtain ⟨k1, k2, _⟩ := iterate_hit k e ha
  obtain ⟨_, _, h3⟩ := iterate_hit h e ha
  refine ⟨hit_hp e, hit_hp _, ?_, ?_, ?_, ?_⟩
  · intro _
    rw [k1, hp]
  · intro hlt
    exact k2 (by rw [hp]; exact_mod_cast hlt)
  · exact h3 (by rw [hp]) hh
  · intro hact
    cases n with
    | zero =>
      simp only [Function.iterate_zero, id] at *
      rw [hp]
      exact_mod_cast hh
    | succ m =>
      rw [Function.iterate_succ_apply'] at hact ⊢
      exact hit_active_hp _ hact

theorem enemy_hp_countdown_witness :
    ((Boss.new GAME_STATE 17850 300).active = true ∧ 1 ≤ 10 ∧
      (Boss.new GAME_STATE 17850 300).hp = (10 : Nat)) ∧
    ((Enemy.takeDamage (Boss.new GAME_STATE 17850 300)).1.hp
        = (Boss.new GAME_STATE 17850 300).hp - 1 ∧
    (Enemy.hit (Enemy.hit^[12] (Boss.new GAME_STATE 17850 300))).hp
        = (Enemy.hit^[12] (Boss.new GAME_STATE 17850 300)).hp - 1 ∧
    (9 ≤ 10 → (Enemy.hit^[9] (Boss.new GAME_STATE 17850 300)).hp = ((10 : Nat) : Int) - (9 : Nat)) ∧
    (9 < 10 → (Enemy.hit^[9] (Boss.new GAME_STATE 17850 300)).active = true) ∧
    (Enemy.hit^[10] (Boss.new GAME_STATE 17850 300)).active = false ∧
    ((Enemy.hit^[12] (Boss.new GAME_STATE 17850 300)).active = true →
      1 ≤ (Enemy.hit^[12] (Boss.new GAME_STATE 17850 300)).hp)) :=
  ⟨⟨rfl, by decide, rfl⟩,
    enemy_hp_countdown (Boss.new GAME_STATE 17850 300) 10 9 12 rfl (by decide) rfl⟩

/-! ## Jetpack fuel -/

theorem steer_flying (inp : Input) (p : Player) (hf : p.isFlying = true) :
    (16 < p.jetpackTimer →
      (Player.steer inp p).isFlying = true ∧
      (Player.steer inp p).jetpackTimer = p.jetpackTimer - 16 ∧
      (Player.steer inp p).allowGravity = p.allowGravity ∧
      (Player.steer inp p).velocityY = if (inp.up || inp.space) = true then -300 else 80) ∧
    (p.jetpackTimer ≤ 16 →
      (Player.steer inp p).isFlying = false ∧
      (Player.steer inp p).allowGravity = true ∧
      (Player.steer inp p).velocityY = 100) := by
  constructor
  · intro ht
    have hn : ¬ (p.jetpackTimer - 16 ≤ 0) := by omega
    cases hl : inp.left <;> cases hr : inp.right <;>
      simp [Player.steer, hf, hl, hr, hn]
  · intro ht
    have hn : p.jetpackTimer - 16 ≤ 0 := by omega
    cases hl : inp.left <;> cases hr : inp.right <;>
      simp [Player.steer, Player.deactivateJetpack, hf, hl, hr, hn]

theorem update_flying (time : Int) (inp : Input) (p : Player) (ha : p.active = true)
    (hb : p.hasBody = true) (hf : p.isFlying = true) :
    (16 < p.jetpackTimer →
      (Player.update time inp p).isFlying = true ∧
      (Player.update time inp p).jetpackTimer = p.jetpackTimer - 16 ∧
      (Player.update time inp p).allowGravity = p.allowGravity ∧
      (Player.update time inp p).velocityY = if (inp.up || inp.space) = true then -300 else 80) ∧
    (p.jetpackTimer ≤ 16 →
      (Player.update time inp p).isFlying = false ∧
      (Player.update time inp p).allowGravity = true ∧
      (Player.update time inp p).velocityY = 100) := by
  have hg : ¬ ((!p.hasBody || !p.active) = true) := by simp [hb, ha]
  obtain ⟨_, _, _, _, _, _, _, f8, f9, f10, _, f12⟩ :=
    fireAction_keeps time inp (Player.steer inp p)
  obtain ⟨s1, s2⟩ := steer_flying inp p hf
  rw [update_eq_steer_fire, if_neg hg, f8, f9, f10, f12]
  exact ⟨s1, s2⟩

theorem runUpdates_flying (frames : List (Int × Input)) (p : Player) (ha : p.active = true)
    (hb : p.hasBody = true) (hf : p.isFlying = true)
    (ht : 16 * (frames.length : Int) < p.jetpackTimer) :
    (Player.runUpdates frames p).active = true ∧
    (Player.runUpdates frames p).hasBody = true ∧
    (Player.runUpdates frames p).isFlying = true ∧
    (Player.runUpdates frames p).jetpackTimer = p.jetpackTimer - 16 * frames.length ∧
    (Player.runUpdates frames p).allowGravity = p.allowGravity := by
  induction frames generalizing p with
  | nil => exact ⟨ha, hb, hf, by simp [Player.runUpdates], rfl⟩
  | cons f rest ih =>
    simp only [List.length_cons, Nat.cast_add, Nat.cast_one] at ht
    obtain ⟨_, _, _, _, k5, k6⟩ := update_keeps f.1 f.2 p
    obtain ⟨u1, u2, u3, _⟩ := (update_flying f.1 f.2 p ha hb hf).1 (by omega)
    obtain ⟨r1, r2, r3, r4, r5⟩ := ih (Player.update f.1 f.2 p) (by rw [k5]; exact ha)
      (by rw [k6]; exact hb) u1 (by rw [u2]; omega)
    show (Player.runUpdates rest (Player.update f.1 f.2 p)).active = true ∧ _
    refine ⟨r1, r2, r3, ?_, ?_⟩
    · show (Player.runUpdates rest (Player.update f.1 f.2 p)).jetpackTimer = _
      rw [r4, u2]
      simp only [List.length_cons, Nat.cast_add, Nat.cast_one]
      omega
    · show (Player.runUpdates rest (Player.update f.1 f.2 p)).allowGravity = _
      rw [r5, u3]

/-- C17: after `activateJetpack()` on an active player, whatever the times and
inputs of the following `Player.update` calls: after each of the first 499
calls the player is still flying, gravity is still off and the timer is 8000
minus 16 per call; during each of them the vertical velocity is -300 when jump
is held and 80 otherwise; the 500th call ends the flight, re-enables gravity
and sets the vertical velocity to 100. -/
theorem jetpack_lasts_500_updates (p : Player) (frames : List (Int × Input))
    (next : Int × Input) (ha : p.active = true) (hb : p.hasBody = true) :
    (Player.activateJetpack p).jetpackTimer = 8000 ∧
    (frames.length ≤ 499 →
      (Player.runUpdates frames (Player.activateJetpack p)).isFlying = true ∧
      (Player.runUpdates frames (Player.activateJetpack p)).allowGravity = false ∧
      (Player.runUpdates frames (Player.activateJetpack p)).jetpackTimer
        = 8000 - 16 * frames.length) ∧
    (frames.length < 499 →
      (Player.update next.1 next.2
        (Player.runUpdates frames (Player.activateJetpack p))).velocityY
        = if (next.2.up || next.2.space) = true then -300 else 80) ∧
    (frames.length = 499 →
      (Player.update next.1 next.2
        (Player.runUpdates frames (Player.activateJetpack p))).isFlying = false ∧
      (Player.update next.1 next.2
        (Player.runUpdates frames (Player.activateJetpack p))).allowGravity = true ∧
      (Player.update next.1 next.2
        (Player.runUpdates frames (Player.activateJetpack p))).velocityY = 100) := by
  have hrun : frames.length ≤ 499 →
      (Player.runUpdates frames (Player.activateJetpack p)).active = true ∧
      (Player.runUpdates frames (Player.activateJetpack p)).hasBody = true ∧
      (Player.runUpdates frames (Player.activateJetpack p)).isFlying = true ∧
      (Player.runUpdates frames (Player.activateJetpack p)).jetpackTimer
        = 8000 - 16 * frames.length ∧
      (Player.runUpdates frames (Player.activateJetpack p)).allowGravity = false := by
    intro hlen
    exact runUpdates_flying frames (Player.activateJetpack p) ha hb rfl
      (by
        show 16 * (frames.length : Int) < 8000
        omega)
  refine ⟨rfl, ?_, ?_, ?_⟩
  · intro hlen
    obtain ⟨_, _, r3, r4, r5⟩ := hrun hlen
    exact ⟨r3, r5, r4⟩
  · intro hlen
    obtain ⟨r1, r2, r3, r4, _⟩ := hrun (by omega)
    exact ((update_flying next.1 next.2 _ r1 r2 r3).1 (by rw [r4]; omega)).2.2.2
  · intro hlen
    obtain ⟨r1, r2, r3, r4, _⟩ := hrun (by omega)
    exact (update_flying next.1 next.2 _ r1 r2 r3).2 (by rw [r4]; omega)

theorem jetpack_lasts_500_updates_witness :
    ((Player.new GAME_STATE 100 450).active = true ∧
      (Player.new GAME_STATE 100 450).hasBody = true) ∧
    ((Player.activateJetpack (Player.new GAME_STATE 100 450)).jetpackTimer = 8000 ∧
    ((List.replicate 499 ((0 : Int), fireOnly)).length ≤ 499 →
      (Player.runUpdates (List.replicate 499 ((0 : Int), fireOnly))
        (Player.activateJetpack (Player.new GAME_STATE 100 450))).isFlying = true ∧
      (Player.runUpdates (List.replicate 499 ((0 : Int), fireOnly))
        (Player.activateJetpack (Player.new GAME_STATE 100 450))).allowGravity = false ∧
      (Player.runUpdates (List.replicate 499 ((0 : Int), fireOnly))
        (Player.activateJetpack (Player.new GAME_STATE 100 450))).jetpackTimer
        = 8000 - 16 * (List.replicate 499 ((0 : Int), fireOnly)).length) ∧
    ((List.replicate 499 ((0 : Int), fireOnly)).length < 499 →
      (Player.update ((0 : Int), fireOnly).1 ((0 : Int), fireOnly).2
        (Player.runUpdates (List.replicate 499 ((0 : Int), fireOnly))
          (Player.activateJetpack (Player.new GAME_STATE 100 450)))).velocityY
        = if (((0 : Int), fireOnly).2.up || ((0 : Int), fireOnly).2.space) = true
          then -300 else 80) ∧
    ((List.replicate 499 ((0 : Int), fireOnly)).length = 499 →
      (Player.update ((0 : Int), fireOnly).1 ((0 : Int), fireOnly).2
        (Player.runUpdates (List.replicate 499 ((0 : Int), fireOnly))
          (Player.activateJetpack (Player.new GAME_STATE 100 450)))).isFlying = false ∧
      (Player.update ((0 : Int), fireOnly).1 ((0 : Int), fireOnly).2
        (Player.runUpdates (List.replicate 499 ((0 : Int), fireOnly))
          (Player.activateJetpack (Player.new GAME_STATE 100 450)))).allowGravity = true ∧
      (Player.update ((0 : Int), fireOnly).1 ((0 : Int), fireOnly).2
        (Player.runUpdates (List.replicate 499 ((0 : Int), fireOnly))
          (Player.activateJetpack (Player.new GAME_STATE 100 450)))).velocityY = 100)) :=
  ⟨⟨rfl, rfl⟩,
    jetpack_lasts_500_updates (Player.new GAME_STATE 100 450)
      (List.replicate 499 ((0 : Int), fireOnly)) ((0 : Int), fireOnly) rfl rfl⟩

/-! ## GameScene.update: frame lemmas -/

theorem takeDamage_fields (s : GameScene) :
    (Player.takeDamage s).player.x = s.player.x ∧
    (Player.takeDamage s).player.y = s.player.y ∧
    (s.player.velocityX = 0 → (Player.takeDamage s).player.velocityX = 0) ∧
    (s.player.velocityY = 0 → (Player.takeDamage s).player.velocityY = 0) ∧
    (Player.takeDamage s).player.lives
      = (if s.player.shielded = true then s.player.lives else s.player.lives - 1) ∧
    (Player.takeDamage s).GAME_STATE.lives
      = (if s.player.shielded = true then s.GAME_STATE.lives else s.player.lives - 1) ∧
    updateLivesCount (Player.takeDamage s)
      = updateLivesCount s + (if s.player.shielded = true then 0 else 1) ∧
    gameOverCount (Player.takeDamage s)
      = gameOverCount s +
        (if s.player.shielded = true then 0 else if s.player.lives ≤ 1 then 1 else 0) ∧
    (Player.takeDamage s).enemies = s.enemies ∧
    (Player.takeDamage s).bossSpawned = s.bossSpawned ∧
    (Player.takeDamage s).boss = s.boss := by
  by_cases hr : s.player.isInvulnerable = true ∨ s.player.active = false
  · have hs : s.player.shielded = true := by
      rcases hr with h | h <;> simp [Player.shielded, h]
    rw [takeDamage_rejected s hr]
    simp [hs]
  · have ha : s.player.active = true := by
      cases hact : s.player.active <;> simp_all
    have hi : s.player.isInvulnerable = false := by
      cases hinv : s.player.isInvulnerable <;> simp_all
    have hs : ¬ (s.player.shielded = true) := by simp [Player.shielded, ha, hi]
    by_cases hl : s.player.lives ≤ 1
    · rw [takeDamage_fatal s ha hi hl]
      simp [hs, hl, Player.disableBody, updateLivesCount, gameOverCount, List.countP_append,
        List.countP_cons]
    · rw [takeDamage_survive s ha hi (by omega)]
      simp [hs, hl, updateLivesCount, gameOverCount, List.countP_append, List.countP_cons]

theorem abyssSensor_of_fall (s : GameScene) (hy : s.player.y > 600) :
    (GameScene.abyssSensor s).player.velocityX = 0 ∧
    (GameScene.abyssSensor s).player.velocityY = 0 ∧
    (GameScene.abyssSensor s).player.lives
      = (if s.player.shielded = true then s.player.lives else s.player.lives - 1) ∧
    (GameScene.abyssSensor s).GAME_STATE.lives
      = (if s.player.shielded = true then s.GAME_STATE.lives else s.player.lives - 1) ∧
    updateLivesCount (GameScene.abyssSensor s)
      = updateLivesCount s + (if s.player.shielded = true then 0 else 1) ∧
    gameOverCount (GameScene.abyssSensor s)
      = gameOverCount s +
        (if s.player.shielded = true then 0 else if s.player.lives ≤ 1 then 1 else 0) ∧
    ((GameScene.abyssSensor s).GAME_STATE.lives > 0 →
      (GameScene.abyssSensor s).player.x = max 100 (s.player.x - 200) ∧
      (GameScene.abyssSensor s).player.y = 100) ∧
    ((GameScene.abyssSensor s).GAME_STATE.lives ≤ 0 →
      (GameScene.abyssSensor s).player.x = s.player.x ∧
      (GameScene.abyssSensor s).player.y = s.player.y) := by
  obtain ⟨t1, t2, t3, t4, t5, t6, t7, t8, _⟩ := takeDamage_fields
    { s with player := { s.player with velocityX := 0, velocityY := 0 } }
  have t3 := t3 rfl
  have t4 := t4 rfl
  simp only [Player.shielded] at t5 t6 t7 t8
  simp only [updateLivesCount, gameOverCount] at t7 t8
  simp only [Player.shielded]
  by_cases hpos : (Player.takeDamage
      { s with player := { s.player with velocityX := 0, velocityY := 0 } }).GAME_STATE.lives > 0
  · have hA : GameScene.abyssSensor s =
        { Player.takeDamage
            { s with player := { s.player with velocityX := 0, velocityY := 0 } } with
          player := { (Player.takeDamage
            { s with player := { s.player with velocityX := 0, velocityY := 0 } }).player with
            x := max 100 ((Player.takeDamage
              { s with player := { s.player with velocityX := 0, velocityY := 0 } }).player.x
                - 200),
            y := 100, alpha := 50 },
          effects := (Player.takeDamage
            { s with player := { s.player with velocityX := 0, velocityY := 0 } }).effects ++
              [Effect.delayedCall 1000 Callback.respawnFade] } := by
      unfold GameScene.abyssSensor
      simp only [hy, hpos, if_true]
    rw [hA]
    refine ⟨t3, t4, t5, t6, ?_, ?_, ?_, ?_⟩
    · simp only [updateLivesCount, List.countP_append, t7]
      simp [List.countP_cons]
    · simp only [gameOverCount, List.countP_append, t8]
      simp [List.countP_cons]
    · intro _
      rw [t1]
      exact ⟨rfl, rfl⟩
    · intro h
      exact absurd h (not_le.mpr hpos)
  · have hA : GameScene.abyssSensor s = Player.takeDamage
        { s with player := { s.player with velocityX := 0, velocityY := 0 } } := by
      unfold GameScene.abyssSensor
      simp only [hy, hpos, if_true, if_false]
    rw [hA]
    refine ⟨t3, t4, t5, t6, t7, t8, ?_, ?_⟩
    · intro h
      exact absurd h hpos
    · intro _
      exact ⟨t1, t2⟩

theorem abyssSensor_keeps (s : GameScene) :
    (GameScene.abyssSensor s).enemies = s.enemies ∧
    (GameScene.abyssSensor s).bossSpawned = s.bossSpawned ∧
    (GameScene.abyssSensor s).boss = s.boss := by
  obtain ⟨_, _, _, _, _, _, _, _, t9, t10, t11⟩ := takeDamage_fields
    { s with player := { s.player with velocityX := 0, velocityY := 0 } }
  by_cases hy : s.player.y > 600
  · by_cases hpos : (Player.takeDamage
        { s with player := { s.player with velocityX := 0, velocityY := 0 } }).GAME_STATE.lives
          > 0
    · simp only [GameScene.abyssSensor, hy, hpos, if_true]
      exact ⟨t9, t10, t11⟩
    · simp only [GameScene.abyssSensor, hy, hpos, if_true, if_false]
      exact ⟨t9, t10, t11⟩
  · simp only [GameScene.abyssSensor, hy, if_false]
    exact ⟨trivial, trivial, trivial⟩

theorem bossTrigger_keeps (s : GameScene) :
    (GameScene.bossTrigger s).player = s.player ∧
    (GameScene.bossTrigger s).GAME_STATE = s.GAME_STATE ∧
    updateLivesCount (GameScene.bossTrigger s) = updateLivesCount s ∧
    gameOverCount (GameScene.bossTrigger s) = gameOverCount s := by
  unfold GameScene.bossTrigger
  split
  · simp [updateLivesCount, gameOverCount, List.countP_append, Boss.timer]
  · exact ⟨rfl, rfl, rfl, rfl⟩

theorem winCheck_keeps (s : GameScene) :
    (GameScene.winCheck s).player = s.player ∧
    (GameScene.winCheck s).GAME_STATE = s.GAME_STATE ∧
    (GameScene.winCheck s).enemies = s.enemies ∧
    (GameScene.winCheck s).bossSpawned = s.bossSpawned ∧
    (GameScene.winCheck s).boss = s.boss ∧
    updateLivesCount (GameScene.winCheck s) = updateLivesCount s ∧
    gameOverCount (GameScene.winCheck s) = gameOverCount s := by
  unfold GameScene.winCheck
  split
  · simp [updateLivesCount, gameOverCount, List.countP_append]
  · exact ⟨rfl, rfl, rfl, rfl, rfl, rfl, rfl⟩

/-- The scene that `GameScene.update` hands to the abyss sensor: the player and
the enemies have been updated. -/
theorem update_eq_stages (eng : Engine) (frame : Frame) (s : GameScene) :
    ∃ s2 : GameScene,
      GameScene.update eng frame s
        = GameScene.winCheck (GameScene.bossTrigger (GameScene.abyssSensor s2)) ∧
      s2.player = Player.update frame.time frame.input s.player ∧
      s2.GAME_STATE = s.GAME_STATE ∧ s2.effects = s.effects ∧
      s2.bossSpawned = s.bossSpawned ∧ s2.boss = s.boss ∧
      s2.enemies = GameScene.iterateEnemies
        (Enemy.update eng frame s.player.x s.player.y) 0 s.enemies := by
  refine ⟨_, rfl, rfl, rfl, rfl, rfl, rfl, ?_⟩
  show GameScene.iterateEnemies
      (Enemy.update eng frame (Player.update frame.time frame.input s.player).x
        (Player.update frame.time frame.input s.player).y) 0 s.enemies = _
  rw [(update_keeps frame.time frame.input s.player).1,
    (update_keeps frame.time frame.input s.player).2.1]

/-- C18: in a `GameScene.update` call that finds the player at y > 600, the
player's velocity ends at (0, 0); the life counters and the lives and
game-over notifications are those of exactly one `takeDamage()` call on the
scene; if `GAME_STATE.lives` is positive afterwards the player ends at
(max(100, x - 200), 100), otherwise where it was; and an invulnerable player
loses no life. -/
theorem abyss_fall_handling (eng : Engine) (frame : Frame) (s : GameScene)
    (hy : s.player.y > 600) :
    (GameScene.update eng frame s).player.velocityX = 0 ∧
    (GameScene.update eng frame s).player.velocityY = 0 ∧
    (GameScene.update eng frame s).player.lives = (Player.takeDamage s).player.lives ∧
    (GameScene.update eng frame s).GAME_STATE.lives = (Player.takeDamage s).GAME_STATE.lives ∧
    updateLivesCount (GameScene.update eng frame s) = updateLivesCount (Player.takeDamage s) ∧
    gameOverCount (GameScene.update eng frame s) = gameOverCount (Player.takeDamage s) ∧
    ((GameScene.update eng frame s).GAME_STATE.lives > 0 →
      (GameScene.update eng frame s).player.x = max 100 (s.player.x - 200) ∧
      (GameScene.update eng frame s).player.y = 100) ∧
    ((GameScene.update eng frame s).GAME_STATE.lives ≤ 0 →
      (GameScene.update eng frame s).player.x = s.player.x ∧
      (GameScene.update eng frame s).player.y = s.player.y) ∧
    (s.player.isInvulnerable = true →
      (GameScene.update eng frame s).player.lives = s.player.lives ∧
      (GameScene.update eng frame s).GAME_STATE.lives = s.GAME_STATE.lives) := by
  obtain ⟨s2, hU, hp, hgs, hfx, _, _, _⟩ := update_eq_stages eng frame s
  obtain ⟨k1, k2, k3, k4, k5, _⟩ := update_keeps frame.time frame.input s.player
  have hx2 : s2.player.x = s.player.x := by rw [hp, k1]
  have hy2 : s2.player.y = s.player.y := by rw [hp, k2]
  have hl2 : s2.player.lives = s.player.lives := by rw [hp, k3]
  have hsh : s2.player.shielded = s.player.shielded := by
    simp only [Player.shielded, hp, k4, k5]
  have hu2 : updateLivesCount s2 = updateLivesCount s := by
    simp only [updateLivesCount, hfx]
  have hg2 : gameOverCount s2 = gameOverCount s := by
    simp only [gameOverCount, hfx]
  obtain ⟨a1, a2, a3, a4, a5, a6, a7, a8⟩ := abyssSensor_of_fall s2 (by rw [hy2]; exact hy)
  obtain ⟨b1, b2, b3, b4⟩ := bossTrigger_keeps (GameScene.abyssSensor s2)
  obtain ⟨w1, w2, _, _, _, w6, w7⟩ :=
    winCheck_keeps (GameScene.bossTrigger (GameScene.abyssSensor s2))
  obtain ⟨_, _, _, _, t5, t6, t7, t8, _⟩ := takeDamage_fields s
  rw [hsh, hl2] at a3
  rw [hsh, hl2, hgs] at a4
  rw [hsh, hu2] at a5
  rw [hsh, hl2, hg2] at a6
  rw [hx2] at a7
  rw [hx2, hy2] at a8
  rw [hU, w1, w2, w6, w7, b1, b2, b3, b4]
  refine ⟨a1, a2, a3.trans t5.symm, a4.trans t6.symm, a5.trans t7.symm, a6.trans t8.symm,
    a7, a8, ?_⟩
  intro hinv
  have hs : s.player.shielded = true := by simp [Player.shielded, hinv]
  rw [a3, a4]
  simp [hs]

theorem abyss_fall_handling_witness :
    fallenScene.player.y > 600 ∧
    ((GameScene.update demoEngine (idleFrame 16) fallenScene).player.velocityX = 0 ∧
    (GameScene.update demoEngine (idleFrame 16) fallenScene).player.velocityY = 0 ∧
    (GameScene.update demoEngine (idleFrame 16) fallenScene).player.lives
      = (Player.takeDamage fallenScene).player.lives ∧
    (GameScene.update demoEngine (idleFrame 16) fallenScene).GAME_STATE.lives
      = (Player.takeDamage fallenScene).GAME_STATE.lives ∧
    updateLivesCount (GameScene.update demoEngine (idleFrame 16) fallenScene)
      = updateLivesCount (Player.takeDamage fallenScene) ∧
    gameOverCount (GameScene.update demoEngine (idleFrame 16) fallenScene)
      = gameOverCount (Player.takeDamage fallenScene) ∧
    ((GameScene.update demoEngine (idleFrame 16) fallenScene).GAME_STATE.lives > 0 →
      (GameScene.update demoEngine (idleFrame 16) fallenScene).player.x
        = max 100 (fallenScene.player.x - 200) ∧
      (GameScene.update demoEngine (idleFrame 16) fallenScene).player.y = 100) ∧
    ((GameScene.update demoEngine (idleFrame 16) fallenScene).GAME_STATE.lives ≤ 0 →
      (GameScene.update demoEngine (idleFrame 16) fallenScene).player.x = fallenScene.player.x ∧
      (GameScene.update demoEngine (idleFrame 16) fallenScene).player.y
        = fallenScene.player.y) ∧
    (fallenScene.player.isInvulnerable = true →
      (GameScene.update demoEngine (idleFrame 16) fallenScene).player.lives
        = fallenScene.player.lives ∧
      (GameScene.update demoEngine (idleFrame 16) fallenScene).GAME_STATE.lives
        = fallenScene.GAME_STATE.lives)) :=
  ⟨by decide, abyss_fall_handling demoEngine (idleFrame 16) fallenScene (by decide)⟩

/-! ## Boss trigger -/

theorem enemyUpdate_keeps (eng : Engine) (frame : Frame) (playerX playerY : Int) (i : Nat)
    (e : Enemy) :
    (Enemy.update eng frame playerX playerY i e).kind = e.kind ∧
    (Enemy.update eng frame playerX playerY i e).active = e.active ∧
    (Enemy.update eng frame playerX playerY i e).hp = e.hp := by
  unfold Enemy.update
  split
  · simp only [PatrolEnemy.update]
    repeat' split
    all_goals exact ⟨rfl, rfl, rfl⟩
  · exact ⟨rfl, rfl, rfl⟩
  · exact ⟨rfl, rfl, rfl⟩
  · simp only [PerroEnemy.update]
    repeat' split
    all_goals exact ⟨rfl, rfl, rfl⟩
  · simp only [MurcielagoEnemy.update]
    repeat' split
    all_goals exact ⟨rfl, rfl, rfl⟩

theorem iterateEnemies_countBoss (f : Nat → Enemy → Enemy) (i : Nat) (l : List Enemy)
    (hf : ∀ k e, (f k e).kind = e.kind) :
    (GameScene.iterateEnemies f i l).countP (fun e => decide (e.kind = EnemyKind.Boss))
      = l.countP (fun e => decide (e.kind = EnemyKind.Boss)) := by
  induction l generalizing i with
  | nil => rfl
  | cons e rest ih =>
    simp only [GameScene.iterateEnemies, List.countP_cons, hf, ih (i + 1)]

theorem abyssSensor_x (s : GameScene) :
    (GameScene.abyssSensor s).player.x =
      if s.player.y > 600 ∧
          (if s.player.shielded = true then s.GAME_STATE.lives else s.player.lives - 1) > 0
      then max 100 (s.player.x - 200) else s.player.x := by
  by_cases hy : s.player.y > 600
  · obtain ⟨_, _, _, a4, _, _, a7, a8⟩ := abyssSensor_of_fall s hy
    by_cases hpos : (GameScene.abyssSensor s).GAME_STATE.lives > 0
    · rw [(a7 hpos).1, if_pos ⟨hy, by rw [← a4]; exact hpos⟩]
    · rw [(a8 (by omega)).1, if_neg]
      intro h
      exact hpos (by rw [a4]; exact h.2)
  · have hA : GameScene.abyssSensor s = s := by
      unfold GameScene.abyssSensor
      rw [if_neg hy]
    rw [hA, if_neg (fun h => hy h.1)]

theorem bossTrigger_spawn (s : GameScene) :
    (GameScene.bossTrigger s).bossSpawned = (s.bossSpawned || decide (17500 ≤ s.player.x)) ∧
    bossCount (GameScene.bossTrigger s)
      = bossCount s + (if s.bossSpawned = false ∧ 17500 ≤ s.player.x then 1 else 0) := by
  unfold GameScene.bossTrigger
  by_cases hx : s.player.x ≥ 17500
  · cases hb : s.bossSpawned
    · have hx2 : (17500 : Int) ≤ s.player.x := hx
      simp [hx, hx2, hb, bossCount, List.countP_append, Boss.new, Enemy.new]
    · simp [hx, hb, bossCount]
  · have hx2 : ¬ ((17500 : Int) ≤ s.player.x) := hx
    cases hb : s.bossSpawned <;> simp [hx, hx2, hb, bossCount]

theorem tick_boss (eng : Engine) (t : Tick) (s : GameScene) :
    (GameScene.tick eng t s).bossSpawned
      = (s.bossSpawned || decide (17500 ≤ GameScene.triggerX t s)) ∧
    bossCount (GameScene.tick eng t s)
      = bossCount s +
        (if s.bossSpawned = false ∧ 17500 ≤ GameScene.triggerX t s then 1 else 0) := by
  obtain ⟨s2, hU, hp, hgs, _, hsp, _, hen⟩ :=
    update_eq_stages eng t.frame (GameScene.place t s)
  obtain ⟨k1, k2, k3, k4, k5, _⟩ :=
    update_keeps t.frame.time t.frame.input (GameScene.place t s).player
  obtain ⟨a1, a2, _⟩ := abyssSensor_keeps s2
  obtain ⟨_, _, w3, w4, _⟩ :=
    winCheck_keeps (GameScene.bossTrigger (GameScene.abyssSensor s2))
  obtain ⟨b1, b2⟩ := bossTrigger_spawn (GameScene.abyssSensor s2)
  have hsh : s2.player.shielded = (GameScene.place t s).player.shielded := by
    simp only [Player.shielded, hp, k4, k5]
  have hx : (GameScene.abyssSensor s2).player.x = GameScene.triggerX t s := by
    unfold GameScene.triggerX
    rw [abyssSensor_x s2, abyssSensor_x (GameScene.place t s), hsh, hgs, hp, k1, k2, k3]
  have hcount : bossCount (GameScene.abyssSensor s2) = bossCount s := by
    unfold bossCount
    rw [a1, hen]
    exact iterateEnemies_countBoss _ 0 s.enemies
      (fun k e => (enemyUpdate_keeps eng t.frame _ _ k e).1)
  have hspawned : (GameScene.abyssSensor s2).bossSpawned = s.bossSpawned := by
    rw [a2, hsp]
    rfl
  have hT : GameScene.tick eng t s
      = GameScene.winCheck (GameScene.bossTrigger (GameScene.abyssSensor s2)) := hU
  rw [hx, hspawned] at b1
  rw [hx, hspawned, hcount] at b2
  refine ⟨?_, ?_⟩
  · rw [hT, w4, b1]
  · rw [hT]
    unfold bossCount at b2 ⊢
    rw [w3, b2]

theorem bossInv_tick (eng : Engine) (t : Tick) (s : GameScene)
    (h : bossCount s = if s.bossSpawned = true then 1 else 0) :
    bossCount (GameScene.tick eng t s)
      = (if (GameScene.tick eng t s).bossSpawned = true then 1 else 0) ∧
    (s.bossSpawned = true → (GameScene.tick eng t s).bossSpawned = true) := by
  obtain ⟨h1, h2⟩ := tick_boss eng t s
  rw [h1, h2, h]
  cases hb : s.bossSpawned
  · by_cases hx : 17500 ≤ GameScene.triggerX t s <;> simp [hx]
  · simp

theorem bossInv_run (eng : Engine) (ticks : List Tick) (s : GameScene)
    (h : bossCount s = if s.bossSpawned = true then 1 else 0) :
    bossCount (GameScene.run eng ticks s)
      = (if (GameScene.run eng ticks s).bossSpawned = true then 1 else 0) ∧
    (s.bossSpawned = true → (GameScene.run eng ticks s).bossSpawned = true) := by
  induction ticks generalizing s with
  | nil => exact ⟨h, fun hb => hb⟩
  | cons t rest ih =>
    obtain ⟨h1, h2⟩ := bossInv_tick eng t s h
    obtain ⟨r1, r2⟩ := ih (GameScene.tick eng t s) h1
    exact ⟨r1, fun hb => r2 (h2 hb)⟩

/-- C19: over every sequence of steps of the game loop from the start, the
number of `Boss` objects among the enemies is 1 if `bossSpawned` is set and 0
otherwise; once set, `bossSpawned` stays set and no further boss is built
whatever steps follow; and while it is not set, a step sets it, building the
one boss, exactly when the x of the player that its boss trigger reads is at
least 17500. -/
theorem boss_spawned_once (eng : Engine) (difficulty : Option Difficulty) (gs : GameState)
    (ticks more : List Tick) (t : Tick) :
    bossCount (GameScene.run eng ticks (GameScene.start difficulty gs))
      = (if (GameScene.run eng ticks (GameScene.start difficulty gs)).bossSpawned = true
          then 1 else 0) ∧
    ((GameScene.run eng ticks (GameScene.start difficulty gs)).bossSpawned = true →
      (GameScene.run eng more
        (GameScene.run eng ticks (GameScene.start difficulty gs))).bossSpawned = true ∧
      bossCount (GameScene.run eng more
        (GameScene.run eng ticks (GameScene.start difficulty gs))) = 1) ∧
    ((GameScene.run eng ticks (GameScene.start difficulty gs)).bossSpawned = false →
      (GameScene.tick eng t
        (GameScene.run eng ticks (GameScene.start difficulty gs))).bossSpawned
        = decide (17500 ≤ GameScene.triggerX t
            (GameScene.run eng ticks (GameScene.start difficulty gs))) ∧
      bossCount (GameScene.tick eng t
        (GameScene.run eng ticks (GameScene.start difficulty gs)))
        = (if 17500 ≤ GameScene.triggerX t
            (GameScene.run eng ticks (GameScene.start difficulty gs)) then 1 else 0)) := by
  have h0 : bossCount (GameScene.start difficulty gs)
      = if (GameScene.start difficulty gs).bossSpawned = true then 1 else 0 := by
    simp [bossCount, GameScene.start]
  obtain ⟨r1, _⟩ := bossInv_run eng ticks (GameScene.start difficulty gs) h0
  refine ⟨r1, ?_, ?_⟩
  · intro hb
    obtain ⟨m1, m2⟩ := bossInv_run eng more _ r1
    have hm := m2 hb
    rw [hm] at m1
    exact ⟨hm, by simpa using m1⟩
  · intro hb
    obtain ⟨t1, t2⟩ := tick_boss eng t (GameScene.run eng ticks (GameScene.start difficulty gs))
    rw [hb] at t1 r1
    rw [t2, r1]
    refine ⟨by simpa using t1, ?_⟩
    simp [hb]

/-! ## Win transition -/

/-- C15 (failing input): on EASY the boss, down to hp 1, is hit by one player
bullet; its hp becomes 0 and it is deactivated, and no win timer has been
requested yet.  Each of the following `GameScene.update` calls then requests
`delayedCall(1500, ...)` for the win transition again: three calls leave three
requests, not one. -/
theorem win_timer_requested_every_frame :
    (bossAtOneHp.enemies[0]?).map (fun e => (e.kind, e.hp, e.active))
      = some (EnemyKind.Boss, 1, true) ∧
    (bossDefeated.enemies[0]?).map (fun e => (e.kind, e.hp, e.active))
      = some (EnemyKind.Boss, 0, false) ∧
    winTimerCount bossDefeated = 0 ∧
    winTimerCount (GameScene.run demoEngine [idleTick 1516] bossDefeated) = 1 ∧
    winTimerCount
      (GameScene.run demoEngine [idleTick 1516, idleTick 1532, idleTick 1548] bossDefeated)
        = 3 := by
  decide

theorem winCheck_requests_again (s : GameScene) (hb : s.bossSpawned = true)
    (hi : GameScene.bossInactive s = true) :
    winTimerCount (GameScene.winCheck s) = winTimerCount s + 1 := by
  simp [GameScene.winCheck, winTimerCount, hb, hi, List.countP_append]

/-! ## Item pickup -/

/-- C20: the overlap callback of the player and an item deactivates that item
and leaves every other item as it was.  For a 'vida' item, with
`GAME_STATE.lives` not negative, `GAME_STATE.lives` becomes min(7, lives + 1)
(so at 7 the item is consumed with no gain) and the player, flight state
included, is unchanged; for a 'jetpack' item the player is flying with fuel
timer 8000 and gravity off, and both life counters are unchanged. -/
theorem item_pickup (s : GameScene) (ii : Nat) (item : Item)
    (hget : s.items[ii]? = some item) (hl : 0 ≤ s.GAME_STATE.lives) :
    ((GameScene.onPlayerItem ii s).items[ii]?).map (fun it => it.active) = some false ∧
    (∀ j, j ≠ ii → (GameScene.onPlayerItem ii s).items[j]? = s.items[j]?) ∧
    (item.type = ItemType.vida →
      (GameScene.onPlayerItem ii s).GAME_STATE.lives = min 7 (s.GAME_STATE.lives + 1) ∧
      (GameScene.onPlayerItem ii s).player = s.player ∧
      GameScene.onPlayerItem ii s
        = { HealthManager.heal s with
            items := s.items.modify (Item.disableBody true true) ii }) ∧
    (item.type = ItemType.vida → s.GAME_STATE.lives = 7 →
      (GameScene.onPlayerItem ii s).GAME_STATE.lives = 7) ∧
    (item.type = ItemType.jetpack →
      (GameScene.onPlayerItem ii s).player.isFlying = true ∧
      (GameScene.onPlayerItem ii s).player.jetpackTimer = 8000 ∧
      (GameScene.onPlayerItem ii s).player.allowGravity = false ∧
      (GameScene.onPlayerItem ii s).player.lives = s.player.lives ∧
      (GameScene.onPlayerItem ii s).GAME_STATE = s.GAME_STATE) := by
  refine ⟨?_, ?_, ?_, ?_, ?_⟩
  · cases ht : item.type <;>
      simp [GameScene.onPlayerItem, hget, ht, HealthManager.heal, HealthManager.updateLives,
        List.getElem?_modify_eq, Item.disableBody]
  · intro j hj
    cases ht : item.type <;>
      simp [GameScene.onPlayerItem, hget, ht, HealthManager.heal, HealthManager.updateLives,
        List.getElem?_modify_ne _ _ (Ne.symm hj)]
  · intro ht
    refine ⟨?_, ?_, ?_⟩
    · simp only [GameScene.onPlayerItem, hget, ht, HealthManager.heal,
        HealthManager.updateLives]
      omega
    · simp [GameScene.onPlayerItem, hget, ht, HealthManager.heal, HealthManager.updateLives]
    · simp [GameScene.onPlayerItem, hget, ht, HealthManager.heal, HealthManager.updateLives]
  · intro ht h7
    simp [GameScene.onPlayerItem, hget, ht, HealthManager.heal, HealthManager.updateLives, h7]
  · intro ht
    simp [GameScene.onPlayerItem, hget, ht, Player.activateJetpack]

theorem item_pickup_witness :
    (itemScene.items[0]? = some vidaItem ∧ 0 ≤ itemScene.GAME_STATE.lives) ∧
    (((GameScene.onPlayerItem 0 itemScene).items[0]?).map (fun it => it.active) = some false ∧
    (∀ j, j ≠ 0 → (GameScene.onPlayerItem 0 itemScene).items[j]? = itemScene.items[j]?) ∧
    (vidaItem.type = ItemType.vida →
      (GameScene.onPlayerItem 0 itemScene).GAME_STATE.lives
        = min 7 (itemScene.GAME_STATE.lives + 1) ∧
      (GameScene.onPlayerItem 0 itemScene).player = itemScene.player ∧
      GameScene.onPlayerItem 0 itemScene
        = { HealthManager.heal itemScene with
            items := itemScene.items.modify (Item.disableBody true true) 0 }) ∧
    (vidaItem.type = ItemType.vida → itemScene.GAME_STATE.lives = 7 →
      (GameScene.onPlayerItem 0 itemScene).GAME_STATE.lives = 7) ∧
    (vidaItem.type = ItemType.jetpack →
      (GameScene.onPlayerItem 0 itemScene).player.isFlying = true ∧
      (GameScene.onPlayerItem 0 itemScene).player.jetpackTimer = 8000 ∧
      (GameScene.onPlayerItem 0 itemScene).player.allowGravity = false ∧
      (GameScene.onPlayerItem 0 itemScene).player.lives = itemScene.player.lives ∧
      (GameScene.onPlayerItem 0 itemScene).GAME_STATE = itemScene.GAME_STATE)) :=
  ⟨⟨by decide, by decide⟩, item_pickup itemScene 0 vidaItem (by decide) (by decide)⟩

/-! ## Crate destruction -/

/-- C21: `handleCrateDestruction` deactivates the crate in every case and
leaves the other crates alone; for a `'caja2'` crate it adds exactly one item,
a life item at (crate.x, crate.y - 20), and for `'caja1'` and `'caja3'` the
items are unchanged. -/
theorem crate_destruction_reward (s : GameScene) (ci : Nat) (crate : Crate)
    (hget : s.crates[ci]? = some crate) :
    ((GameScene.handleCrateDestruction ci s).crates[ci]?).map (fun c => c.active)
      = some false ∧
    (∀ j, j ≠ ci → (GameScene.handleCrateDestruction ci s).crates[j]? = s.crates[j]?) ∧
    (crate.type = CrateType.caja2 →
      (GameScene.handleCrateDestruction ci s).items
        = s.items ++ [Item.new crate.x (crate.y - 20) ItemType.vida]) ∧
    (crate.type ≠ CrateType.caja2 →
      (GameScene.handleCrateDestruction ci s).items = s.items) ∧
    ((GameScene.handleCrateDestruction ci s).items.length = s.items.length + 1
      ↔ crate.type = CrateType.caja2) := by
  by_cases ht : crate.type = CrateType.caja2
  · refine ⟨?_, ?_, ?_, ?_, ?_⟩
    · simp [GameScene.handleCrateDestruction, hget, ht, List.getElem?_modify_eq,
        Crate.onDestroy, Crate.disableBody]
    · intro j hj
      simp [GameScene.handleCrateDestruction, hget, ht,
        List.getElem?_modify_ne _ _ (Ne.symm hj)]
    · intro _
      simp [GameScene.handleCrateDestruction, hget, ht]
    · intro h
      exact absurd ht h
    · simp [GameScene.handleCrateDestruction, hget, ht]
  · refine ⟨?_, ?_, ?_, ?_, ?_⟩
    · simp [GameScene.handleCrateDestruction, hget, ht, List.getElem?_modify_eq,
        Crate.onDestroy, Crate.disableBody]
    · intro j hj
      simp [GameScene.handleCrateDestruction, hget, ht,
        List.getElem?_modify_ne _ _ (Ne.symm hj)]
    · intro h
      exact absurd h ht
    · intro _
      simp [GameScene.handleCrateDestruction, hget, ht]
    · simp [GameScene.handleCrateDestruction, hget, ht]

theorem crate_destruction_reward_witness :
    crateScene.crates[0]? = some (Crate.new 670 400 CrateType.caja2) ∧
    (((GameScene.handleCrateDestruction 0 crateScene).crates[0]?).map (fun c => c.active)
      = some false ∧
    (∀ j, j ≠ 0 →
      (GameScene.handleCrateDestruction 0 crateScene).crates[j]? = crateScene.crates[j]?) ∧
    ((Crate.new 670 400 CrateType.caja2).type = CrateType.caja2 →
      (GameScene.handleCrateDestruction 0 crateScene).items
        = crateScene.items ++
          [Item.new (Crate.new 670 400 CrateType.caja2).x
            ((Crate.new 670 400 CrateType.caja2).y - 20) ItemType.vida]) ∧
    ((Crate.new 670 400 CrateType.caja2).type ≠ CrateType.caja2 →
      (GameScene.handleCrateDestruction 0 crateScene).items = crateScene.items) ∧
    ((GameScene.handleCrateDestruction 0 crateScene).items.length
        = crateScene.items.length + 1
      ↔ (Crate.new 670 400 CrateType.caja2).type = CrateType.caja2)) :=
  ⟨by decide,
    crate_destruction_reward crateScene 0 (Crate.new 670 400 CrateType.caja2) (by decide)⟩

/-! ## Difficulty profile -/

/-- C23: under every difficulty a `PatrolEnemy` has speed (and initial
horizontal velocity) `enemySpeed`, the repeating timer of a `ShooterEnemy` has
delay `shootDelay`, and a `Boss` has hp `bossHp`, where the table gives
50 / 100 / 180, 5000 / 4000 / 3000 and 5 / 10 / 20 for EASY / NORMAL / HARD. -/
theorem difficulty_profile_applied (gs : GameState) (d : Difficulty) (x y : Int) :
    (PatrolEnemy.new (GameScene.init (some d) gs) x y).speed
      = (DIFFICULTY_SETTINGS d).enemySpeed ∧
    (PatrolEnemy.new (GameScene.init (some d) gs) x y).velocityX
      = (DIFFICULTY_SETTINGS d).enemySpeed ∧
    ShooterEnemy.timer (GameScene.init (some d) gs)
      = Effect.addEvent (DIFFICULTY_SETTINGS d).shootDelay Callback.shoot ∧
    (Boss.new (GameScene.init (some d) gs) x y).hp = (DIFFICULTY_SETTINGS d).bossHp ∧
    (PatrolEnemy.new gs x y).speed = (DIFFICULTY_SETTINGS gs.difficulty).enemySpeed ∧
    (Boss.new gs x y).hp = (DIFFICULTY_SETTINGS gs.difficulty).bossHp ∧
    ((DIFFICULTY_SETTINGS Difficulty.EASY).enemySpeed = 50 ∧
      (DIFFICULTY_SETTINGS Difficulty.NORMAL).enemySpeed = 100 ∧
      (DIFFICULTY_SETTINGS Difficulty.HARD).enemySpeed = 180) ∧
    ((DIFFICULTY_SETTINGS Difficulty.EASY).shootDelay = 5000 ∧
      (DIFFICULTY_SETTINGS Difficulty.NORMAL).shootDelay = 4000 ∧
      (DIFFICULTY_SETTINGS Difficulty.HARD).shootDelay = 3000) ∧
    ((DIFFICULTY_SETTINGS Difficulty.EASY).bossHp = 5 ∧
      (DIFFICULTY_SETTINGS Difficulty.NORMAL).bossHp = 10 ∧
      (DIFFICULTY_SETTINGS Difficulty.HARD).bossHp = 20) := by
  refine ⟨rfl, rfl, rfl, rfl, rfl, rfl, ⟨rfl, rfl, rfl⟩, ⟨rfl, rfl, rfl⟩, ⟨rfl, rfl, rfl⟩⟩

/-! ## Hits on a defeated enemy -/

/-- C24 (counterexample): a boss on EASY that five hits have defeated is
inactive with hp 0; one more `takeDamage()` leaves it inactive but lowers its hp
to -1, so the call is not a no-op. -/
theorem takeDamage_on_defeated_enemy_lowers_hp :
    (Enemy.hit^[5] (Boss.new (GameScene.init (some Difficulty.EASY) GAME_STATE) 17850 300)).active
      = false ∧
    (Enemy.hit^[5] (Boss.new (GameScene.init (some Difficulty.EASY) GAME_STATE) 17850 300)).hp
      = 0 ∧
    ¬ ((Enemy.takeDamage
        (Enemy.hit^[5]
          (Boss.new (GameScene.init (some Difficulty.EASY) GAME_STATE) 17850 300))).1.hp
      = (Enemy.hit^[5]
          (Boss.new (GameScene.init (some Difficulty.EASY) GAME_STATE) 17850 300)).hp) := by
  decide

/-- C24 (amended): `takeDamage()` on an inactive enemy leaves it inactive, but
still lowers its hp by 1. -/
theorem takeDamage_on_inactive_enemy (e : Enemy) (ha : e.active = false) :
    (Enemy.takeDamage e).1.active = false ∧ (Enemy.takeDamage e).1.hp = e.hp - 1 := by
  refine ⟨?_, hit_hp e⟩
  have h := hit_active e
  rw [ha] at h
  simpa [Enemy.hit] using h

theorem takeDamage_on_inactive_enemy_witness :
    (Enemy.hit (Enemy.new EnemyKind.PerroEnemy 1300 500)).active = false ∧
    ((Enemy.takeDamage (Enemy.hit (Enemy.new EnemyKind.PerroEnemy 1300 500))).1.active = false ∧
    (Enemy.takeDamage (Enemy.hit (Enemy.new EnemyKind.PerroEnemy 1300 500))).1.hp
      = (Enemy.hit (Enemy.new EnemyKind.PerroEnemy 1300 500)).hp - 1) :=
  ⟨by decide,
    takeDamage_on_inactive_enemy (Enemy.hit (Enemy.new EnemyKind.PerroEnemy 1300 500))
      (by decide)⟩

/-! ## Fuel timer range -/

theorem steer_timer (inp : Input) (p : Player) :
    (Player.steer inp p).jetpackTimer
      = (if p.isFlying = true then p.jetpackTimer - 16 else p.jetpackTimer) ∧
    (Player.steer inp p).isFlying = (p.isFlying && decide (16 < p.jetpackTimer)) := by
  cases hf : p.isFlying
  · cases hl : inp.left <;> cases hr : inp.right <;>
      cases hu : inp.upJustDown <;> cases hs : inp.spaceJustDown <;> cases hg : inp.onGround <;>
      simp [Player.steer, hf, hl, hr, hu, hs, hg]
  · by_cases ht : 16 < p.jetpackTimer
    · have hn : ¬ (p.jetpackTimer - 16 ≤ 0) := by omega
      cases hl : inp.left <;> cases hr : inp.right <;>
        simp [Player.steer, hf, hl, hr, hn, ht]
    · have hn : p.jetpackTimer - 16 ≤ 0 := by omega
      cases hl : inp.left <;> cases hr : inp.right <;>
        simp [Player.steer, Player.deactivateJetpack, hf, hl, hr, hn, ht]

theorem fuelInv_update (time : Int) (inp : Input) (p : Player) (h : FuelInv p) :
    FuelInv (Player.update time inp p) := by
  obtain ⟨h1, h2, h3, h4⟩ := h
  rw [update_eq_steer_fire]
  split
  · exact ⟨h1, h2, h3, h4⟩
  · obtain ⟨_, _, _, _, _, _, _, f8, f9, _⟩ := fireAction_keeps time inp (Player.steer inp p)
    obtain ⟨s1, s2⟩ := steer_timer inp p
    unfold FuelInv
    rw [f8, f9, s1, s2]
    cases hf : p.isFlying
    · simp only [Bool.false_and, if_false, Bool.false_eq_true]
      exact ⟨h1, h2, h3, fun h => h.elim⟩
    · have h16 := h4 hf
      simp only [if_true, Bool.true_and, decide_eq_true_eq]
      refine ⟨by omega, by omega, by omega, fun hlt => by omega⟩

theorem fuelInv_run (op : JetOp) (p : Player) (h : FuelInv p) : FuelInv (op.run p) := by
  cases op with
  | activateJetpack =>
    show FuelInv (Player.activateJetpack p)
    simp [FuelInv, Player.activateJetpack]
  | deactivateJetpack =>
    obtain ⟨h1, h2, h3, _⟩ := h
    exact ⟨h1, h2, h3, fun hf => Bool.noConfusion hf⟩
  | update time inp => exact fuelInv_update time inp p h

theorem fuelInv_runJetOps (ops : List JetOp) (p : Player) (h : FuelInv p) :
    FuelInv (runJetOps ops p) := by
  induction ops generalizing p with
  | nil => exact h
  | cons op rest ih => exact ih (op.run p) (fuelInv_run op p h)

/-- C25: on every state reached from the construction of the player by
`activateJetpack`, `deactivateJetpack` and `Player.update` calls, the fuel timer
lies in [0, 8000], and the fraction handed to the fuel bar (`jetpackTimer / 8000`
while flying, 0 otherwise) lies in [0, 1]. -/
theorem fuel_timer_within_bounds (gs : GameState) (x y : Int) (ops : List JetOp) :
    0 ≤ (runJetOps ops (Player.new gs x y)).jetpackTimer ∧
    (runJetOps ops (Player.new gs x y)).jetpackTimer ≤ 8000 ∧
    0 ≤ GameScene.fuelFraction (runJetOps ops (Player.new gs x y)) ∧
    GameScene.fuelFraction (runJetOps ops (Player.new gs x y)) ≤ 1 := by
  have h0 : FuelInv (Player.new gs x y) := by
    simp [FuelInv, Player.new]
  obtain ⟨_, h2, h3, _⟩ := fuelInv_runJetOps ops (Player.new gs x y) h0
  refine ⟨h2, h3, ?_, ?_⟩
  · unfold GameScene.fuelFraction
    split
    · have : (0 : ℚ) ≤ ((runJetOps ops (Player.new gs x y)).jetpackTimer : ℚ) := by
        exact_mod_cast h2
      positivity
    · exact le_refl 0
  · unfold GameScene.fuelFraction
    split
    · have : ((runJetOps ops (Player.new gs x y)).jetpackTimer : ℚ) ≤ 8000 := by
        exact_mod_cast h3
      rw [div_le_one (by norm_num)]
      exact this
    · exact zero_le_one

/-! ## Bat patrol -/

theorem murcielago_update_cases (eng : Engine) (time : Int) (e : Enemy)
    (hb : e.hasBody = true) (ha : e.active = true) :
    (MurcielagoEnemy.update eng time e).velocityX = e.speed * e.direction ∧
    (MurcielagoEnemy.update eng time e).x = e.x ∧
    (e.patrolRange ≤ |e.x - e.startX| →
      (MurcielagoEnemy.update eng time e).direction = -e.direction ∧
      (MurcielagoEnemy.update eng time e).startX = e.x) ∧
    (|e.x - e.startX| < e.patrolRange →
      (MurcielagoEnemy.update eng time e).direction = e.direction ∧
      (MurcielagoEnemy.update eng time e).startX = e.startX) := by
  by_cases ht : time = 0
  · by_cases hr : e.patrolRange ≤ |e.x - e.startX|
    · have hr2 : ¬ (|e.x - e.startX| < e.patrolRange) := not_lt.mpr hr
      simp [MurcielagoEnemy.update, hb, ha, ht, hr, hr2]
    · have hr2 : |e.x - e.startX| < e.patrolRange := not_le.mp hr
      simp [MurcielagoEnemy.update, hb, ha, ht, hr, hr2]
  · by_cases hr : e.patrolRange ≤ |e.x - e.startX|
    · have hr2 : ¬ (|e.x - e.startX| < e.patrolRange) := not_lt.mpr hr
      simp [MurcielagoEnemy.update, hb, ha, ht, hr, hr2]
    · have hr2 : |e.x - e.startX| < e.patrolRange := not_le.mp hr
      simp [MurcielagoEnemy.update, hb, ha, ht, hr, hr2]

theorem murcielago_direction_step (eng : Engine) (time : Int) (e : Enemy)
    (hd : e.direction = 1 ∨ e.direction = -1) :
    (MurcielagoEnemy.update eng time e).hasBody = e.hasBody ∧
    ((MurcielagoEnemy.update eng time e).direction = 1 ∨
      (MurcielagoEnemy.update eng time e).direction = -1) := by
  unfold MurcielagoEnemy.update
  split
  · exact ⟨rfl, hd⟩
  · simp only []
    repeat' split
    all_goals first
      | exact ⟨rfl, hd⟩
      | (refine ⟨rfl, ?_⟩
         show e.direction * -1 = 1 ∨ e.direction * -1 = -1
         omega)

theorem murcielago_patrol_direction (eng : Engine) (fs : List (Int × Int)) (e : Enemy)
    (hd : e.direction = 1 ∨ e.direction = -1) :
    (MurcielagoEnemy.patrol eng fs e).direction = 1 ∨
    (MurcielagoEnemy.patrol eng fs e).direction = -1 := by
  induction fs generalizing e with
  | nil => exact hd
  | cons f rest ih =>
    exact ih (MurcielagoEnemy.frame eng f e)
      (murcielago_direction_step eng f.1 { e with x := f.2 } hd).2

/-- C27: an update of an active bat (speed 180, patrol range 300) sets its
horizontal velocity to 180 times the direction it had, leaves x alone, and
flips the direction and moves the anchor `startX` to x exactly when
|x - startX| ≥ 300, after which the displacement from the anchor is 0;
otherwise direction and anchor are unchanged.  A bat is built with direction
-1, and over every sequence of frames its direction is -1 or +1. -/
theorem bat_patrol_flip (eng : Engine) (time : Int) (e : Enemy) (x y : Int)
    (fs : List (Int × Int)) (hb : e.hasBody = true) (ha : e.active = true)
    (hs : e.speed = 180) (hr : e.patrolRange = 300)
    (hd : e.direction = 1 ∨ e.direction = -1) :
    (MurcielagoEnemy.update eng time e).velocityX = 180 * e.direction ∧
    (MurcielagoEnemy.update eng time e).x = e.x ∧
    (300 ≤ |e.x - e.startX| →
      (MurcielagoEnemy.update eng time e).direction = -e.direction ∧
      (MurcielagoEnemy.update eng time e).startX = e.x ∧
      |(MurcielagoEnemy.update eng time e).x - (MurcielagoEnemy.update eng time e).startX| = 0) ∧
    (|e.x - e.startX| < 300 →
      (MurcielagoEnemy.update eng time e).direction = e.direction ∧
      (MurcielagoEnemy.update eng time e).startX = e.startX) ∧
    ((MurcielagoEnemy.update eng time e).direction ≠ e.direction ↔ 300 ≤ |e.x - e.startX|) ∧
    (MurcielagoEnemy.new x y).direction = -1 ∧
    (MurcielagoEnemy.new x y).speed = 180 ∧
    (MurcielagoEnemy.new x y).patrolRange = 300 ∧
    ((MurcielagoEnemy.patrol eng fs (MurcielagoEnemy.new x y)).direction = 1 ∨
      (MurcielagoEnemy.patrol eng fs (MurcielagoEnemy.new x y)).direction = -1) := by
  obtain ⟨c1, c2, c3, c4⟩ := murcielago_update_cases eng time e hb ha
  rw [hs] at c1
  rw [hr] at c3 c4
  refine ⟨c1, c2, ?_, c4, ?_, rfl, rfl, rfl,
    murcielago_patrol_direction eng fs (MurcielagoEnemy.new x y) (Or.inr rfl)⟩
  · intro h
    obtain ⟨d1, d2⟩ := c3 h
    refine ⟨d1, d2, ?_⟩
    rw [c2, d2]
    simp
  · constructor
    · intro hne
      by_contra hlt
      exact hne (c4 (not_le.mp hlt)).1
    · intro h heq
      have := (c3 h).1
      rw [heq] at this
      omega

theorem bat_patrol_flip_witness :
    ((MurcielagoEnemy.new 5000 200).hasBody = true ∧
      (MurcielagoEnemy.new 5000 200).active = true ∧
      (MurcielagoEnemy.new 5000 200).speed = 180 ∧
      (MurcielagoEnemy.new 5000 200).patrolRange = 300 ∧
      ((MurcielagoEnemy.new 5000 200).direction = 1 ∨
        (MurcielagoEnemy.new 5000 200).direction = -1)) ∧
    ((MurcielagoEnemy.update demoEngine 16 (MurcielagoEnemy.new 5000 200)).velocityX
      = 180 * (MurcielagoEnemy.new 5000 200).direction ∧
    (MurcielagoEnemy.update demoEngine 16 (MurcielagoEnemy.new 5000 200)).x
      = (MurcielagoEnemy.new 5000 200).x ∧
    (300 ≤ |(MurcielagoEnemy.new 5000 200).x - (MurcielagoEnemy.new 5000 200).startX| →
      (MurcielagoEnemy.update demoEngine 16 (MurcielagoEnemy.new 5000 200)).direction
        = -(MurcielagoEnemy.new 5000 200).direction ∧
      (MurcielagoEnemy.update demoEngine 16 (MurcielagoEnemy.new 5000 200)).startX
        = (MurcielagoEnemy.new 5000 200).x ∧
      |(MurcielagoEnemy.update demoEngine 16 (MurcielagoEnemy.new 5000 200)).x
        - (MurcielagoEnemy.update demoEngine 16 (MurcielagoEnemy.new 5000 200)).startX| = 0) ∧
    (|(MurcielagoEnemy.new 5000 200).x - (MurcielagoEnemy.new 5000 200).startX| < 300 →
      (MurcielagoEnemy.update demoEngine 16 (MurcielagoEnemy.new 5000 200)).direction
        = (MurcielagoEnemy.new 5000 200).direction ∧
      (MurcielagoEnemy.update demoEngine 16 (MurcielagoEnemy.new 5000 200)).startX
        = (MurcielagoEnemy.new 5000 200).startX) ∧
    ((MurcielagoEnemy.update demoEngine 16 (MurcielagoEnemy.new 5000 200)).direction
        ≠ (MurcielagoEnemy.new 5000 200).direction
      ↔ 300 ≤ |(MurcielagoEnemy.new 5000 200).x - (MurcielagoEnemy.new 5000 200).startX|) ∧
    (MurcielagoEnemy.new 5000 200).direction = -1 ∧
    (MurcielagoEnemy.new 5000 200).speed = 180 ∧
    (MurcielagoEnemy.new 5000 200).patrolRange = 300 ∧
    ((MurcielagoEnemy.patrol demoEngine [(16, 4900), (32, 4700), (48, 4600)]
        (MurcielagoEnemy.new 5000 200)).direction = 1 ∨
      (MurcielagoEnemy.patrol demoEngine [(16, 4900), (32, 4700), (48, 4600)]
        (MurcielagoEnemy.new 5000 200)).direction = -1)) :=
  ⟨⟨rfl, rfl, rfl, rfl, Or.inr rfl⟩,
    bat_patrol_flip demoEngine 16 (MurcielagoEnemy.new 5000 200) 5000 200
      [(16, 4900), (32, 4700), (48, 4600)] rfl rfl rfl rfl (Or.inr rfl)⟩

/-! ## The seventh hit -/

theorem lifeOp_hit_step (op : LifeOp) (s : GameScene) (h : AliveInv s) :
    AliveInv (op.run s) ∧
    (op.run s).player.lives
      = s.player.lives -
        (if op = LifeOp.takeDamage ∧ s.player.shielded = false then 1 else 0) ∧
    gameOverCount (op.run s)
      = gameOverCount s +
        (if op = LifeOp.takeDamage ∧ s.player.shielded = false ∧ s.player.lives = 1
          then 1 else 0) := by
  obtain ⟨h1, h2, h3⟩ := h
  cases op with
  | updateLives delta =>
    exact ⟨⟨h1, h2, h3⟩, by simp [LifeOp.run, HealthManager.updateLives],
      by simpa using gameOverCount_updateLives delta s⟩
  | heal =>
    exact ⟨⟨h1, h2, h3⟩, by simp [LifeOp.run, HealthManager.heal, HealthManager.updateLives],
      by simpa using gameOverCount_updateLives 1 s⟩
  | damage =>
    exact ⟨⟨h1, h2, h3⟩, by simp [LifeOp.run, HealthManager.damage, HealthManager.updateLives],
      by simpa using gameOverCount_updateLives (-1) s⟩
  | invulnerabilityCallback =>
    have hrun : (LifeOp.invulnerabilityCallback.run s).player.lives = s.player.lives ∧
        (LifeOp.invulnerabilityCallback.run s).player.active = s.player.active ∧
        gameOverCount (LifeOp.invulnerabilityCallback.run s) = gameOverCount s := by
      show (Player.invulnerabilityCallback s).player.lives = s.player.lives ∧
        (Player.invulnerabilityCallback s).player.active = s.player.active ∧
        gameOverCount (Player.invulnerabilityCallback s) = gameOverCount s
      unfold Player.invulnerabilityCallback
      split <;> exact ⟨rfl, rfl, rfl⟩
    obtain ⟨r1, r2, r3⟩ := hrun
    refine ⟨⟨by rw [r1]; exact h1, by rw [r1]; exact h2, by rw [r1, r2]; exact h3⟩, ?_, ?_⟩
    · rw [r1]
      simp
    · rw [r3]
      simp
  | takeDamage =>
    show AliveInv (Player.takeDamage s) ∧ (Player.takeDamage s).player.lives = _ ∧
      gameOverCount (Player.takeDamage s) = _
    by_cases hr : s.player.isInvulnerable = true ∨ s.player.active = false
    · have hs : s.player.shielded = true := by
        rcases hr with h | h <;> simp [Player.shielded, h]
      rw [takeDamage_rejected s hr]
      refine ⟨⟨h1, h2, h3⟩, by simp [hs], by simp [hs]⟩
    · have ha : s.player.active = true := by
        cases hact : s.player.active <;> simp_all
      have hi : s.player.isInvulnerable = false := by
        cases hinv : s.player.isInvulnerable <;> simp_all
      have hs : s.player.shielded = false := by simp [Player.shielded, ha, hi]
      have hl := h3.mp ha
      by_cases h1l : s.player.lives = 1
      · rw [takeDamage_fatal s ha hi (by omega)]
        refine ⟨⟨?_, ?_, ?_⟩, ?_, ?_⟩
        · simp [Player.disableBody, h1l]
        · simp [Player.disableBody, h1l]
        · simp [Player.disableBody, h1l]
        · simp [Player.disableBody, hs]
        · simp [gameOverCount, List.countP_append, List.countP_cons, hs, h1l]
      · rw [takeDamage_survive s ha hi (by omega)]
        refine ⟨⟨?_, ?_, ?_⟩, ?_, ?_⟩
        · show 0 ≤ s.player.lives - 1
          omega
        · show s.player.lives - 1 ≤ 7
          omega
        · show s.player.active = true ↔ 1 ≤ s.player.lives - 1
          constructor
          · intro _
            omega
          · intro _
            exact ha
        · simp [hs]
        · simp [gameOverCount, List.countP_append, List.countP_cons, hs, h1l]

theorem runLifeOps_hits (ops : List LifeOp) (s : GameScene) (h : AliveInv s) :
    (successfulHits ops s : Int) ≤ s.player.lives ∧
    (runLifeOps ops s).player.lives = s.player.lives - successfulHits ops s ∧
    gameOverCount (runLifeOps ops s)
      = gameOverCount s +
        (if 1 ≤ s.player.lives ∧ s.player.lives ≤ successfulHits ops s then 1 else 0) := by
  induction ops generalizing s with
  | nil =>
    refine ⟨by simpa [successfulHits] using h.1, by simp [successfulHits, runLifeOps], ?_⟩
    have : ¬ (1 ≤ s.player.lives ∧ s.player.lives ≤ 0) := by omega
    simp [successfulHits, runLifeOps, this]
  | cons op rest ih =>
    obtain ⟨s1, s2, s3⟩ := lifeOp_hit_step op s h
    obtain ⟨r1, r2, r3⟩ := ih (op.run s) s1
    obtain ⟨a1, a2, a3⟩ := h
    have hrun : runLifeOps (op :: rest) s = runLifeOps rest (op.run s) := rfl
    rw [hrun, r2, r3]
    simp only [successfulHits]
    by_cases hc : op = LifeOp.takeDamage ∧ s.player.shielded = false
    · have hact : s.player.active = true := by
        have := hc.2
        simp only [Player.shielded, Bool.or_eq_false_iff, Bool.not_eq_false'] at this
        exact this.2
      have hl := a3.mp hact
      obtain ⟨hop, hsh⟩ := hc
      subst hop
      simp only [hsh, and_self, if_true, true_and] at s2 s3 ⊢
      rw [s2, s3]
      rw [s2] at r1
      push_cast
      refine ⟨by omega, by omega, ?_⟩
      split_ifs <;> omega
    · have hc3 : ¬ (op = LifeOp.takeDamage ∧ s.player.shielded = false ∧ s.player.lives = 1) :=
        fun h3 => hc ⟨h3.1, h3.2.1⟩
      simp only [hc, hc3, if_false] at s2 s3 ⊢
      rw [s2, s3]
      rw [s2] at r1
      push_cast
      refine ⟨by omega, by omega, ?_⟩
      split_ifs <;> omega

theorem lifeOp_no_win (op : LifeOp) (s : GameScene)
    (h : Effect.startGameOver true ∉ s.effects) :
    Effect.startGameOver true ∉ (op.run s).effects := by
  cases op with
  | updateLives delta => simpa [LifeOp.run, HealthManager.updateLives] using h
  | heal => simpa [LifeOp.run, HealthManager.heal, HealthManager.updateLives] using h
  | damage => simpa [LifeOp.run, HealthManager.damage, HealthManager.updateLives] using h
  | invulnerabilityCallback =>
    show Effect.startGameOver true ∉ (Player.invulnerabilityCallback s).effects
    unfold Player.invulnerabilityCallback
    split <;> exact h
  | takeDamage =>
    show Effect.startGameOver true ∉ (Player.takeDamage s).effects
    by_cases hr : s.player.isInvulnerable = true ∨ s.player.active = false
    · rw [takeDamage_rejected s hr]
      exact h
    · have ha : s.player.active = true := by
        cases hact : s.player.active <;> simp_all
      have hi : s.player.isInvulnerable = false := by
        cases hinv : s.player.isInvulnerable <;> simp_all
      by_cases hl : s.player.lives ≤ 1
      · rw [takeDamage_fatal s ha hi hl]
        simpa using h
      · rw [takeDamage_survive s ha hi (by omega)]
        simpa using h

theorem runLifeOps_no_win (ops : List LifeOp) (s : GameScene)
    (h : Effect.startGameOver true ∉ s.effects) :
    Effect.startGameOver true ∉ (runLifeOps ops s).effects := by
  induction ops generalizing s with
  | nil => exact h
  | cons op rest ih => exact ih (op.run s) (lifeOp_no_win op s h)

/-- C28: in any run started by `GameScene.init`, whatever calls of
`HealthManager` (heals included), `Player.takeDamage` and the invulnerability
callback follow, at most seven hits are accepted, `Player.lives` is seven minus
the number of accepted hits, and the game-over transition has been requested
exactly once if seven hits were accepted and not at all otherwise; it is never
the transition of a win. -/
theorem seventh_hit_ends_game (difficulty : Option Difficulty) (gs : GameState)
    (ops : List LifeOp) :
    successfulHits ops (GameScene.start difficulty gs) ≤ 7 ∧
    (runLifeOps ops (GameScene.start difficulty gs)).player.lives
      = 7 - (successfulHits ops (GameScene.start difficulty gs) : Int) ∧
    gameOverCount (runLifeOps ops (GameScene.start difficulty gs))
      = (if successfulHits ops (GameScene.start difficulty gs) = 7 then 1 else 0) ∧
    Effect.startGameOver true ∉ (runLifeOps ops (GameScene.start difficulty gs)).effects := by
  have hinv : AliveInv (GameScene.start difficulty gs) := by
    simp [AliveInv, GameScene.start, GameScene.init, Player.new]
  have hl : (GameScene.start difficulty gs).player.lives = 7 := by
    simp [GameScene.start, GameScene.init, Player.new]
  have hg : gameOverCount (GameScene.start difficulty gs) = 0 := by
    simp [gameOverCount, GameScene.start]
  obtain ⟨r1, r2, r3⟩ := runLifeOps_hits ops (GameScene.start difficulty gs) hinv
  rw [hl] at r1 r2 r3
  rw [hg] at r3
  refine ⟨by omega, r2, ?_,
    runLifeOps_no_win ops (GameScene.start difficulty gs) (by simp [GameScene.start])⟩
  rw [r3]
  split_ifs <;> omega

/-! ## World generation -/

theorem forLoop_mono {σ : Type} (limit step : Int) (body : Int → σ → σ) (fuel : Nat)
    (x : Int) (st r : σ) (h : forLoop limit step body fuel x st = some r) (k : Nat) :
    forLoop limit step body (fuel + k) x st = some r := by
  induction fuel generalizing x st with
  | zero =>
    simp only [forLoop] at h
    split at h
    · exact absurd h (by simp)
    · rename_i hx
      cases k with
      | zero => simp only [forLoop, if_neg hx]; exact h
      | succ k => simp only [Nat.zero_add, forLoop, if_neg hx]; exact h
  | succ n ih =>
    have e : n + 1 + k = (n + k) + 1 := by omega
    rw [e]
    simp only [forLoop] at h ⊢
    split
    · rename_i hx
      rw [if_pos hx] at h
      exact ih _ _ h
    · rename_i hx
      rw [if_neg hx] at h
      exact h

theorem forLoop_some {σ : Type} (limit step : Int) (body : Int → σ → σ)
    (fuel : Nat) (x : Int) (st : σ) (h : limit - x ≤ step * fuel) :
    ∃ r, forLoop limit step body fuel x st = some r := by
  induction fuel generalizing x st with
  | zero =>
    have hx : ¬ x < limit := by
      simp only [Nat.cast_zero, mul_zero] at h
      omega
    exact ⟨st, by simp only [forLoop, if_neg hx]⟩
  | succ n ih =>
    by_cases hx : x < limit
    · have h2 : limit - (x + step) ≤ step * n := by
        have e : step * ((n + 1 : Nat) : Int) = step * n + step := by push_cast; ring
        rw [e] at h
        omega
      obtain ⟨r, hr⟩ := ih (x + step) (body x st) h2
      exact ⟨r, by simp only [forLoop, if_pos hx]; exact hr⟩
    · exact ⟨st, by simp only [forLoop, if_neg hx]⟩

theorem forLoop_inv {σ : Type} (limit step : Int) (body : Int → σ → σ)
    (I : Int → σ → Prop)
    (hI : ∀ x st, x < limit → I x st → I (x + step) (body x st))
    (fuel : Nat) (x : Int) (st r : σ) (h0 : I x st)
    (h : forLoop limit step body fuel x st = some r) : ∃ y, I y r := by
  induction fuel generalizing x st with
  | zero =>
    simp only [forLoop] at h
    split at h
    · exact absurd h (by simp)
    · exact ⟨x, by rw [← Option.some.inj h]; exact h0⟩
  | succ n ih =>
    simp only [forLoop] at h
    split at h
    · rename_i hx
      exact ih _ _ (hI x st hx h0) h
    · exact ⟨x, by rw [← Option.some.inj h]; exact h0⟩

set_option maxRecDepth 100000 in
theorem ground_loops_eval :
    (forLoop bossAreaStart 70 groundTile 250 0 []).bind
      (fun p1 => forLoop worldWidth 70 bossGroundTile 250 bossAreaStart p1)
      = some groundStrip := by
  decide

theorem ground_loops (fuel : Nat) (h : 250 ≤ fuel) :
    ∃ p1, forLoop bossAreaStart 70 groundTile fuel 0 [] = some p1 ∧
      forLoop worldWidth 70 bossGroundTile fuel bossAreaStart p1 = some groundStrip := by
  obtain ⟨p1, h1, h2⟩ := Option.bind_eq_some.mp ground_loops_eval
  have e : fuel = 250 + (fuel - 250) := by omega
  refine ⟨p1, ?_, ?_⟩
  · rw [e]
    exact forLoop_mono _ _ _ _ _ _ _ h1 _
  · rw [e]
    exact forLoop_mono _ _ _ _ _ _ _ h2 _

theorem inPit_iff (x : Int) : inPit x = true ↔ overPit x := by
  simp only [inPit, overPit, pits, Bool.or_eq_true, Bool.and_eq_true, decide_eq_true_eq,
    List.mem_cons, List.mem_singleton, List.not_mem_nil, or_false, exists_eq_or_imp,
    exists_eq_left, gt_iff_lt, or_assoc]

theorem mem_groundStrip (t : Tile) :
    t ∈ groundStrip ↔
      ∃ k : Nat, k < 258 ∧ inPit (70 * (k : Int)) = false ∧ t = { x := 70 * (k : Int), y := 568 } := by
  simp only [groundStrip, List.mem_filterMap, List.mem_range]
  constructor
  · rintro ⟨k, hk, h⟩
    cases hp : inPit (70 * (k : Int)) with
    | true => simp [hp] at h
    | false =>
      simp only [hp, Bool.false_eq_true, if_false, Option.some.injEq] at h
      exact ⟨k, hk, hp, h.symm⟩
  · rintro ⟨k, hk, hp, ht⟩
    exact ⟨k, hk, by simp [hp, ht]⟩
theorem worldInv_extend (s s' : GameScene) (h : WorldInv s)
    (tiles : List Tile) (crates : List Crate) (enemies : List Enemy) (items : List Item)
    (hp : s'.platforms = s.platforms ++ tiles) (hc : s'.crates = s.crates ++ crates)
    (he : s'.enemies = s.enemies ++ enemies) (hi : s'.items = s.items ++ items)
    (hpl : s'.player = s.player)
    (ht : ∀ t ∈ tiles, islandTile t)
    (hcs : ∀ c ∈ crates, 600 ≤ c.x ∧ c.x ≤ 17489)
    (hes : ∀ e ∈ enemies, placedEnemy e)
    (his : ∀ i ∈ items, i.x ≤ 17279) : WorldInv s' := by
  obtain ⟨h1, h2, h3, h4, h5, h6⟩ := h
  refine ⟨?_, ?_, ?_, ?_, ?_, by rw [hpl]; exact h6⟩
  · intro t htm
    rw [hp] at htm
    rcases List.mem_append.mp htm with hm | hm
    · exact h1 t hm
    · exact Or.inr (ht t hm)
  · intro t htm
    rw [hp]
    exact List.mem_append.mpr (Or.inl (h2 t htm))
  · intro c hcm
    rw [hc] at hcm
    rcases List.mem_append.mp hcm with hm | hm
    · exact h3 c hm
    · exact hcs c hm
  · intro e hem
    rw [he] at hem
    rcases List.mem_append.mp hem with hm | hm
    · exact h4 e hm
    · exact hes e hm
  · intro i him
    rw [hi] at him
    rcases List.mem_append.mp him with hm | hm
    · exact h5 i hm
    · exact his i hm

theorem islandBlocks_inv (nextStructureX y : Int) (n : Nat) (i : Int) (s : GameScene)
    (rng : Rng) (hX : 600 ≤ nextStructureX) (hi : 0 ≤ i)
    (hmax : nextStructureX + 70 * (i + n) ≤ 17559)
    (hy : y = 450 ∨ y = 310 ∨ y = 170) (h : WorldInv s) :
    WorldInv (GameScene.islandBlocks nextStructureX y n i s rng).1 := by
  induction n generalizing i s rng with
  | zero => exact h
  | succ n ih =>
    have hcast : ((n + 1 : Nat) : Int) = (n : Int) + 1 := by push_cast; ring
    rw [hcast] at hmax
    have hn : (0 : Int) ≤ n := Int.natCast_nonneg n
    have htile : islandTile { x := nextStructureX + i * 70, y := y } :=
      ⟨by show 520 ≤ nextStructureX + i * 70; omega,
       by show nextStructureX + i * 70 ≤ 17489; omega, hy⟩
    simp only [GameScene.islandBlocks, Math.random]
    split
    · apply ih (i + 1) _ _ (by omega) (by omega)
      refine worldInv_extend s _ h [{ x := nextStructureX + i * 70, y := y }]
        [Crate.new (nextStructureX + i * 70) (y - 50) _] [] [] rfl rfl
        (List.append_nil _).symm (List.append_nil _).symm rfl ?_ ?_ ?_ ?_
      · intro t ht
        rw [List.mem_singleton.mp ht]
        exact htile
      · intro c hc
        rw [List.mem_singleton.mp hc]
        exact ⟨by show 600 ≤ nextStructureX + i * 70; omega,
          by show nextStructureX + i * 70 ≤ 17489; omega⟩
      · intro e he
        exact absurd he (List.not_mem_nil e)
      · intro e he
        exact absurd he (List.not_mem_nil e)
    · apply ih (i + 1) _ _ (by omega) (by omega)
      refine worldInv_extend s _ h [{ x := nextStructureX + i * 70, y := y }]
        [] [] [] rfl (List.append_nil _).symm
        (List.append_nil _).symm (List.append_nil _).symm rfl ?_ ?_ ?_ ?_
      · intro t ht
        rw [List.mem_singleton.mp ht]
        exact htile
      · intro e he
        exact absurd he (List.not_mem_nil e)
      · intro e he
        exact absurd he (List.not_mem_nil e)
      · intro e he
        exact absurd he (List.not_mem_nil e)

theorem island_next (nextStructureX : Int) (s : GameScene) (rng : Rng) :
    nextStructureX + 460 ≤ (GameScene.island nextStructureX s rng).2.2 ∧
    (GameScene.island nextStructureX s rng).2.2 ≤ nextStructureX + 1010 := by
  rcases h1 : Phaser.Math.Between 3 8 rng with ⟨islandLength, rng1⟩
  rcases h2 : Phaser.Math.Between 0 2 rng1 with ⟨heightIndex, rng2⟩
  have b1 := between_range 3 8 rng (by decide)
  rw [h1] at b1
  simp only [GameScene.island, h1, h2]
  generalize (GameScene.islandBlocks _ _ _ _ _ _) = blocks
  rcases blocks with ⟨s2, rng3⟩
  rcases h4 : Math.random rng3 with ⟨roll, rng4⟩
  rcases h5 : Phaser.Math.Between 250 450 rng4 with ⟨gap, rng5⟩
  have b5 := between_range 250 450 rng4 (by decide)
  rw [h5] at b5
  simp only [h4, h5]
  simp only at b1 b5
  omega
theorem island_inv (nextStructureX : Int) (s : GameScene) (rng : Rng)
    (hX : 600 ≤ nextStructureX) (hX2 : nextStructureX < 17000) (h : WorldInv s) :
    WorldInv (GameScene.island nextStructureX s rng).1 := by
  rcases h1 : Phaser.Math.Between 3 8 rng with ⟨islandLength, rng1⟩
  rcases h2 : Phaser.Math.Between 0 2 rng1 with ⟨heightIndex, rng2⟩
  have b1 := between_range 3 8 rng (by decide)
  rw [h1] at b1
  have b2 := between_range 0 2 rng1 (by decide)
  rw [h2] at b2
  simp only at b1 b2
  have hy : platformHeights.getD heightIndex.toNat 0 = 450 ∨
      platformHeights.getD heightIndex.toNat 0 = 310 ∨
      platformHeights.getD heightIndex.toNat 0 = 170 := by
    have hcases : heightIndex = 0 ∨ heightIndex = 1 ∨ heightIndex = 2 := by omega
    rcases hcases with e | e | e <;> rw [e] <;> simp [platformHeights]
  -- the helper step
  have hs1 : WorldInv
      (if heightIndex = 2 then
        { s with platforms :=
            s.platforms ++ [{ x := nextStructureX - 80, y := platformHeights.getD 1 0 }] }
       else s) := by
    split
    · refine worldInv_extend s _ h [{ x := nextStructureX - 80, y := platformHeights.getD 1 0 }]
        [] [] [] rfl (List.append_nil _).symm (List.append_nil _).symm
        (List.append_nil _).symm rfl ?_ ?_ ?_ ?_
      · intro t ht
        rw [List.mem_singleton.mp ht]
        exact ⟨by show 520 ≤ nextStructureX - 80; omega,
          by show nextStructureX - 80 ≤ 17489; omega, Or.inr (Or.inl rfl)⟩
      · intro e he
        exact absurd he (List.not_mem_nil e)
      · intro e he
        exact absurd he (List.not_mem_nil e)
      · intro e he
        exact absurd he (List.not_mem_nil e)
    · exact h
  have hblocks := islandBlocks_inv nextStructureX (platformHeights.getD heightIndex.toNat 0)
    islandLength.toNat 0 _ rng2 hX (le_refl 0)
    (by
      have e : ((islandLength.toNat : Nat) : Int) = islandLength := Int.toNat_of_nonneg (by omega)
      rw [e]
      omega) hy hs1
  simp only [GameScene.island, h1, h2]
  revert hblocks
  generalize (GameScene.islandBlocks _ _ _ _ _ _) = blocks
  rcases blocks with ⟨s2, rng3⟩
  intro hblocks
  simp only at hblocks
  rcases h4 : Math.random rng3 with ⟨roll, rng4⟩
  rcases h5 : Phaser.Math.Between 250 450 rng4 with ⟨gap, rng5⟩
  simp only [h4, h5]
  split
  · refine worldInv_extend s2 _ hblocks [] [] [ShooterEnemy.new _ _] []
      (List.append_nil _).symm (List.append_nil _).symm rfl (List.append_nil _).symm
      rfl ?_ ?_ ?_ ?_
    · intro e he
      exact absurd he (List.not_mem_nil e)
    · intro e he
      exact absurd he (List.not_mem_nil e)
    · intro e he
      rw [List.mem_singleton.mp he]
      exact Or.inl ⟨Or.inl rfl, by show nextStructureX + islandLength * 35 ≤ 17279; omega⟩
    · intro e he
      exact absurd he (List.not_mem_nil e)
  · split
    · refine worldInv_extend s2 _ hblocks [] [] [] [Item.new _ _ _]
        (List.append_nil _).symm (List.append_nil _).symm (List.append_nil _).symm rfl
        rfl ?_ ?_ ?_ ?_
      · intro e he
        exact absurd he (List.not_mem_nil e)
      · intro e he
        exact absurd he (List.not_mem_nil e)
      · intro e he
        exact absurd he (List.not_mem_nil e)
      · intro e he
        rw [List.mem_singleton.mp he]
        show nextStructureX + islandLength * 35 ≤ 17279
        omega
    · split
      · refine worldInv_extend s2 _ hblocks [] [] [] [Item.new _ _ _]
          (List.append_nil _).symm (List.append_nil _).symm (List.append_nil _).symm rfl
          rfl ?_ ?_ ?_ ?_
        · intro e he
          exact absurd he (List.not_mem_nil e)
        · intro e he
          exact absurd he (List.not_mem_nil e)
        · intro e he
          exact absurd he (List.not_mem_nil e)
        · intro e he
          rw [List.mem_singleton.mp he]
          show nextStructureX + islandLength * 35 ≤ 17279
          omega
      · split
        · refine worldInv_extend s2 _ hblocks [] [] [PatrolEnemy.new _ _ _] []
            (List.append_nil _).symm (List.append_nil _).symm rfl (List.append_nil _).symm
            rfl ?_ ?_ ?_ ?_
          · intro e he
            exact absurd he (List.not_mem_nil e)
          · intro e he
            exact absurd he (List.not_mem_nil e)
          · intro e he
            rw [List.mem_singleton.mp he]
            exact Or.inl ⟨Or.inr rfl, by show nextStructureX + islandLength * 35 ≤ 17279; omega⟩
          · intro e he
            exact absurd he (List.not_mem_nil e)
        · exact hblocks

theorem islandLoop_count (fuel : Nat) (x : Int) (s : GameScene) (rng : Rng)
    (hfuel : 17000 - x ≤ 460 * (fuel : Int)) :
    ∃ s' rng' n, GameScene.islandLoop fuel x s rng = some (s', rng', n) ∧
      17000 - x ≤ 1010 * (n : Int) ∧ (n = 0 ∨ 460 * (n : Int) ≤ 17459 - x) := by
  have hb : bossAreaStart - 500 = 17000 := by decide
  induction fuel generalizing x s rng with
  | zero =>
    have hx : ¬ x < 17000 := by
      simp only [Nat.cast_zero, mul_zero] at hfuel
      omega
    exact ⟨s, rng, 0, by simp only [GameScene.islandLoop, hb, if_neg hx], by
      simp only [Nat.cast_zero, mul_zero]; omega, Or.inl rfl⟩
  | succ m ih =>
    by_cases hx : x < 17000
    · rcases hisl : GameScene.island x s rng with ⟨s1, rng1, next⟩
      have hnext := island_next x s rng
      rw [hisl] at hnext
      simp only at hnext
      have hcast : ((m + 1 : Nat) : Int) = (m : Int) + 1 := by push_cast; ring
      rw [hcast] at hfuel
      obtain ⟨s', rng', n, hrun, hlow, hhigh⟩ := ih next s1 rng1 (by omega)
      refine ⟨s', rng', n + 1, ?_, ?_, ?_⟩
      · simp only [GameScene.islandLoop, hb, if_pos hx, hisl, hrun, Option.map_some']
      · push_cast
        omega
      · right
        push_cast
        rcases hhigh with h0 | h0
        · rw [h0]
          simp only [Nat.cast_zero, mul_zero]
          omega
        · omega
    · exact ⟨s, rng, 0, by simp only [GameScene.islandLoop, hb, if_neg hx], by
        simp only [Nat.cast_zero, mul_zero]; omega, Or.inl rfl⟩

theorem islandLoop_inv (fuel : Nat) (x : Int) (s : GameScene) (rng : Rng)
    (r : GameScene × Rng × Nat) (hx : 600 ≤ x) (h : WorldInv s)
    (hr : GameScene.islandLoop fuel x s rng = some r) : WorldInv r.1 := by
  have hb : bossAreaStart - 500 = 17000 := by decide
  induction fuel generalizing x s rng r with
  | zero =>
    simp only [GameScene.islandLoop, hb] at hr
    split at hr
    · exact absurd hr (by simp)
    · rw [← Option.some.inj hr]
      exact h
  | succ m ih =>
    simp only [GameScene.islandLoop, hb] at hr
    split at hr
    · rename_i hlt
      rcases hisl : GameScene.island x s rng with ⟨s1, rng1, next⟩
      have hnext := island_next x s rng
      have hinv := island_inv x s rng hx hlt h
      rw [hisl] at hnext hinv
      simp only at hnext hinv
      rw [hisl] at hr
      simp only [Option.map_eq_some'] at hr
      obtain ⟨r1, hr1, hr2⟩ := hr
      have := ih next s1 rng1 r1 (by omega) hinv hr1
      rw [← hr2]
      exact this
    · rw [← Option.some.inj hr]
      exact h

theorem groundCrates_inv (fuel : Nat) (s : GameScene) (rng : Rng) (r : GameScene × Rng)
    (h : WorldInv s)
    (hr : forLoop bossAreaStart 1200 GameScene.groundCrate fuel 1000 (s, rng) = some r) :
    WorldInv r.1 := by
  have hinv := forLoop_inv bossAreaStart 1200 GameScene.groundCrate
    (fun x st => 1000 ≤ x ∧ (x - 1000) % 1200 = 0 ∧ WorldInv st.1)
    (by
      intro x st hlt ⟨h1, h2, h3⟩
      have hb : bossAreaStart = 17500 := rfl
      rw [hb] at hlt
      refine ⟨by omega, by omega, ?_⟩
      simp only [GameScene.groundCrate, Math.random]
      split
      · refine worldInv_extend st.1 _ h3 [] [Crate.new x 500 CrateType.caja1] [] []
          (List.append_nil _).symm rfl (List.append_nil _).symm (List.append_nil _).symm
          rfl ?_ ?_ ?_ ?_
        · intro e he
          exact absurd he (List.not_mem_nil e)
        · intro c hc
          rw [List.mem_singleton.mp hc]
          exact ⟨by show 600 ≤ x; omega, by show x ≤ 17489; omega⟩
        · intro e he
          exact absurd he (List.not_mem_nil e)
        · intro e he
          exact absurd he (List.not_mem_nil e)
      · exact h3)
    fuel 1000 (s, rng) r ⟨le_refl _, by decide, h⟩ hr
  obtain ⟨_, _, _, h3⟩ := hinv
  exact h3
theorem inPit_arith (x : Int) :
    inPit x = true ↔
      ((1200 < x ∧ x < 1400) ∨ (3000 < x ∧ x < 3230) ∨ (5500 < x ∧ x < 5730) ∨
       (6200 < x ∧ x < 6430) ∨ (9000 < x ∧ x < 9230) ∨ (12000 < x ∧ x < 12400) ∨
       (15000 < x ∧ x < 15230)) := by
  simp only [inPit, Bool.or_eq_true, Bool.and_eq_true, decide_eq_true_eq, gt_iff_lt, or_assoc]

theorem inPit_false_of (x : Int)
    (h : ¬ ((1200 < x ∧ x < 1400) ∨ (3000 < x ∧ x < 3230) ∨ (5500 < x ∧ x < 5730) ∨
       (6200 < x ∧ x < 6430) ∨ (9000 < x ∧ x < 9230) ∨ (12000 < x ∧ x < 12400) ∨
       (15000 < x ∧ x < 15230))) : inPit x = false := by
  cases hp : inPit x with
  | false => rfl
  | true => exact absurd ((inPit_arith x).mp hp) h

theorem near_ground_tile (x : Int) (hx1 : 1000 ≤ x) (hx2 : x ≤ 17000)
    (hp : inPit x = false) :
    ∃ j : Nat, j < 258 ∧ inPit (70 * (j : Int)) = false ∧
      -73 ≤ x - 70 * (j : Int) ∧ x - 70 * (j : Int) ≤ 73 := by
  obtain ⟨k, hk⟩ : ∃ k : Nat, (k : Int) = (x + 35) / 70 :=
    ⟨((x + 35) / 70).toNat, Int.toNat_of_nonneg (by omega)⟩
  have hk1 : 70 * (k : Int) ≤ x + 35 ∧ x + 35 < 70 * (k : Int) + 70 := by omega
  have hpx : ¬ ((1200 < x ∧ x < 1400) ∨ (3000 < x ∧ x < 3230) ∨ (5500 < x ∧ x < 5730) ∨
       (6200 < x ∧ x < 6430) ∨ (9000 < x ∧ x < 9230) ∨ (12000 < x ∧ x < 12400) ∨
       (15000 < x ∧ x < 15230)) := by
    intro h
    rw [(inPit_arith x).mpr h] at hp
    exact Bool.noConfusion hp
  cases hin : inPit (70 * (k : Int)) with
  | false => exact ⟨k, by omega, hin, by omega, by omega⟩
  | true =>
    have hin2 := (inPit_arith _).mp hin
    by_cases hside : x < 70 * (k : Int)
    · refine ⟨k - 1, by omega, ?_, by omega, by omega⟩
      apply inPit_false_of
      rcases hin2 with h | h | h | h | h | h | h <;> omega
    · refine ⟨k + 1, by omega, ?_, by omega, by omega⟩
      apply inPit_false_of
      rcases hin2 with h | h | h | h | h | h | h <;> omega

theorem far_of_squared (d : Int) (h : 100 * 100 ≤ d ^ 2 + (500 - 568) ^ 2) : 74 ≤ |d| := by
  by_contra hlt
  have h1 : |d| ≤ 73 := by omega
  obtain ⟨h2, h3⟩ := abs_le.mp h1
  nlinarith [mul_nonneg (show (0 : Int) ≤ d + 73 by omega) (show (0 : Int) ≤ 73 - d by omega)]

theorem accepted_over_pit (s : GameScene) (pos : Pos) (hy : pos.y = 500)
    (hx1 : 1000 ≤ pos.x) (hx2 : pos.x ≤ 17000)
    (hg : ∀ t ∈ groundStrip, t ∈ s.platforms)
    (hacc : ∀ p ∈ s.platforms, 100 * 100 ≤ Phaser.Math.Distance.Squared pos.x pos.y p.x p.y) :
    overPit pos.x ∧ ∀ t ∈ groundStrip, 74 ≤ |pos.x - t.x| := by
  have hfar : ∀ t ∈ groundStrip, 74 ≤ |pos.x - t.x| := by
    intro t ht
    have h1 := hacc t (hg t ht)
    obtain ⟨k, _, _, hk⟩ := (mem_groundStrip t).mp ht
    have hty : t.y = 568 := by rw [hk]
    rw [hy, hty] at h1
    exact far_of_squared _ h1
  refine ⟨?_, hfar⟩
  rw [← inPit_iff]
  cases hp : inPit pos.x with
  | true => rfl
  | false =>
    obtain ⟨j, hj, hjp, h1, h2⟩ := near_ground_tile pos.x hx1 hx2 hp
    have hmem : ({ x := 70 * (j : Int), y := 568 } : Tile) ∈ groundStrip :=
      (mem_groundStrip _).mpr ⟨j, hj, hjp, rfl⟩
    have h3 := hfar _ hmem
    have h4 : |pos.x - 70 * (j : Int)| ≤ 73 := abs_le.mpr ⟨h1, h2⟩
    have h5 : ((74 : Int) ≤ |pos.x - 70 * (j : Int)|) := h3
    omega

theorem spawn_position_facts (s : GameScene) (grounded : Bool) (rng : Rng) (pos : Pos)
    (h : (GameScene.getValidSpawnPosition s grounded rng).1 = some pos) :
    1000 ≤ pos.x ∧ pos.x ≤ 17000 ∧ (grounded = true → pos.y = 500) ∧
    spawnAccepts s pos = true := by
  unfold GameScene.getValidSpawnPosition at h
  rw [getValidSpawnPositionLoop_eq_find] at h
  have hacc : spawnAccepts s pos = true := List.find?_some h
  have hmem := List.mem_of_find?_eq_some h
  obtain ⟨i, _, hi⟩ := List.mem_map.mp hmem
  have hr := spawnSample_range grounded rng i
  rw [hi] at hr
  exact ⟨hr.1, hr.2.1, hr.2.2.1, hacc⟩

theorem grounded_spawn_over_pit (s : GameScene) (rng : Rng) (pos : Pos)
    (hg : ∀ t ∈ groundStrip, t ∈ s.platforms)
    (h : (GameScene.getValidSpawnPosition s true rng).1 = some pos) :
    overPit pos.x ∧ ∀ t ∈ groundStrip, 74 ≤ |pos.x - t.x| := by
  obtain ⟨h1, h2, h3, h4⟩ := spawn_position_facts s true rng pos h
  exact accepted_over_pit s pos (h3 rfl) h1 h2 hg (spawnAccepts_distances s pos h4).1

theorem spawnLoop_inv (build : Int → Int → Enemy) (grounded : Bool) (count : Nat)
    (s : GameScene) (rng : Rng)
    (hb : ∀ pos : Pos, 1000 ≤ pos.x → pos.x ≤ 17000 → (grounded = true → overPit pos.x) →
      placedEnemy (build pos.x pos.y))
    (h : WorldInv s) :
    WorldInv (GameScene.spawnLoop build grounded count s rng).1 := by
  induction count generalizing s rng with
  | zero => exact h
  | succ n ih =>
    rcases hget : GameScene.getValidSpawnPosition s grounded rng with ⟨_ | pos, rng1⟩
    · simp only [GameScene.spawnLoop, hget]
      exact ih s rng1 h
    · simp only [GameScene.spawnLoop, hget]
      apply ih
      have hsome : (GameScene.getValidSpawnPosition s grounded rng).1 = some pos := by
        rw [hget]
      obtain ⟨h1, h2, h3, h4⟩ := spawn_position_facts s grounded rng pos hsome
      refine worldInv_extend s _ h [] [] [build pos.x pos.y] []
        (List.append_nil _).symm (List.append_nil _).symm rfl (List.append_nil _).symm
        rfl ?_ ?_ ?_ ?_
      · intro e he
        exact absurd he (List.not_mem_nil e)
      · intro e he
        exact absurd he (List.not_mem_nil e)
      · intro e he
        rw [List.mem_singleton.mp he]
        apply hb pos h1 h2
        intro hgr
        subst hgr
        exact (grounded_spawn_over_pit s rng pos h.2.1 hsome).1
      · intro e he
        exact absurd he (List.not_mem_nil e)

theorem spawnSpecialEnemies_inv (s : GameScene) (rng : Rng) (h : WorldInv s) :
    WorldInv (GameScene.spawnSpecialEnemies s rng).1 := by
  unfold GameScene.spawnSpecialEnemies
  rcases h1 : GameScene.spawnLoop PerroEnemy.new true 12 s rng with ⟨s1, rng1⟩
  have hs1 := spawnLoop_inv PerroEnemy.new true 12 s rng
    (fun pos a b c => Or.inr (Or.inl ⟨rfl, a, b, c rfl⟩)) h
  rw [h1] at hs1
  exact spawnLoop_inv MurcielagoEnemy.new false 9 s1 rng1
    (fun pos a b _ => Or.inr (Or.inr ⟨rfl, a, b⟩)) hs1

theorem worldInv_ground (s : GameScene) (hp : s.platforms = groundStrip) (hc : s.crates = [])
    (he : s.enemies = []) (hi : s.items = []) (hpl : s.player.x = 100) : WorldInv s := by
  refine ⟨?_, ?_, ?_, ?_, ?_, hpl⟩
  · intro t ht
    rw [hp] at ht
    exact Or.inl ht
  · intro t ht
    rw [hp]
    exact ht
  · intro c hcm
    rw [hc] at hcm
    exact absurd hcm (List.not_mem_nil c)
  · intro e hem
    rw [he] at hem
    exact absurd hem (List.not_mem_nil e)
  · intro i him
    rw [hi] at him
    exact absurd him (List.not_mem_nil i)

theorem create_spec (fuel : Nat) (difficulty : Option Difficulty) (gs : GameState) (rng : Rng)
    (hf : 250 ≤ fuel) :
    ∃ s rng1 n, GameScene.create fuel difficulty gs rng = some (s, rng1, n) ∧
      WorldInv s ∧ 17 ≤ n ∧ n ≤ 36 := by
  obtain ⟨p1, hp1, hp2⟩ := ground_loops fuel hf
  have hfuel : (250 : Int) ≤ (fuel : Int) := by exact_mod_cast hf
  obtain ⟨s3, rng3, n, hloop, hlow, hhigh⟩ :=
    islandLoop_count fuel 600
      { GameScene.start difficulty gs with platforms := groundStrip } rng (by omega)
  have hinv3 := islandLoop_inv fuel 600 _ rng _ (by decide)
    (worldInv_ground { GameScene.start difficulty gs with platforms := groundStrip }
      rfl rfl rfl rfl rfl) hloop
  obtain ⟨r4, hr4⟩ := forLoop_some bossAreaStart 1200 GameScene.groundCrate fuel 1000
    (s3, rng3) (by
      have hb : bossAreaStart = 17500 := rfl
      rw [hb]
      omega)
  have hinv4 := groundCrates_inv fuel s3 rng3 r4 hinv3 hr4
  have hinv5 := spawnSpecialEnemies_inv r4.1 r4.2 hinv4
  refine ⟨(GameScene.spawnSpecialEnemies r4.1 r4.2).1,
    (GameScene.spawnSpecialEnemies r4.1 r4.2).2, n, ?_, hinv5, by omega, by omega⟩
  have hstart : (GameScene.start difficulty gs).platforms = [] := rfl
  simp only [GameScene.create, hstart, hp1, hp2, Option.some_bind, hloop, hr4, Option.map_some']
theorem groundStrip_characterised (t : Tile) :
    t ∈ groundStrip ↔
      t.y = 568 ∧ (∃ k : Nat, k < 258 ∧ t.x = 70 * (k : Int)) ∧ ¬ overPit t.x := by
  rw [mem_groundStrip]
  constructor
  · rintro ⟨k, hk, hp, ht⟩
    refine ⟨by rw [ht], ⟨k, hk, by rw [ht]⟩, ?_⟩
    rw [← inPit_iff, ht, hp]
    exact Bool.false_ne_true
  · rintro ⟨hy, ⟨k, hk, hx⟩, hp⟩
    refine ⟨k, hk, ?_, ?_⟩
    · rw [← inPit_iff, hx] at hp
      simpa using hp
    · cases t
      simp only at hy hx
      rw [hy, hx]

theorem worldInv_ground_tiles (s : GameScene) (h : WorldInv s) (t : Tile) :
    (t ∈ s.platforms ∧ t.y = 568) ↔ t ∈ groundStrip := by
  constructor
  · rintro ⟨hm, hy⟩
    rcases h.1 t hm with hg | ⟨_, _, hi⟩
    · exact hg
    · omega
  · intro hg
    exact ⟨h.2.1 t hg, ((groundStrip_characterised t).mp hg).1⟩

/-- C22: with fuel for 250 iterations the two ground loops of `create()` build
exactly the ground strip of the specification: the tiles with y = 568 whose x
is one of 0, 70, ..., 17990 and not strictly inside a pit; from 17430 through
17990 the nine tiles 70 apart are all there; and in the world `create()`
returns the platforms at y = 568 are exactly these tiles. -/
theorem ground_strip_layout (fuel : Nat) (difficulty : Option Difficulty) (gs : GameState)
    (rng : Rng) (hf : 250 ≤ fuel) :
    (forLoop bossAreaStart 70 groundTile fuel 0 []).bind
      (fun p1 => forLoop worldWidth 70 bossGroundTile fuel bossAreaStart p1)
      = some groundStrip ∧
    (∀ t : Tile, t ∈ groundStrip ↔
      t.y = 568 ∧ (∃ k : Nat, k < 258 ∧ t.x = 70 * (k : Int)) ∧
      ¬ ∃ p ∈ pits, p.1 < t.x ∧ t.x < p.2) ∧
    groundStrip.filter (fun t => decide (17430 ≤ t.x))
      = (List.range 9).map (fun (j : Nat) => { x := 17430 + 70 * (j : Int), y := 568 }) ∧
    ∃ s rng1 n, GameScene.create fuel difficulty gs rng = some (s, rng1, n) ∧
      ∀ t : Tile, (t ∈ s.platforms ∧ t.y = 568) ↔ t ∈ groundStrip := by
  obtain ⟨p1, hp1, hp2⟩ := ground_loops fuel hf
  obtain ⟨s, rng1, n, hc, hinv, _, _⟩ := create_spec fuel difficulty gs rng hf
  refine ⟨by rw [hp1, Option.some_bind, hp2], groundStrip_characterised, by decide,
    s, rng1, n, hc, worldInv_ground_tiles s hinv⟩

theorem ground_strip_layout_witness :
    250 ≤ 250 ∧
    ((forLoop bossAreaStart 70 groundTile 250 0 []).bind
      (fun p1 => forLoop worldWidth 70 bossGroundTile 250 bossAreaStart p1)
      = some groundStrip ∧
    (∀ t : Tile, t ∈ groundStrip ↔
      t.y = 568 ∧ (∃ k : Nat, k < 258 ∧ t.x = 70 * (k : Int)) ∧
      ¬ ∃ p ∈ pits, p.1 < t.x ∧ t.x < p.2) ∧
    groundStrip.filter (fun t => decide (17430 ≤ t.x))
      = (List.range 9).map (fun (j : Nat) => { x := 17430 + 70 * (j : Int), y := 568 }) ∧
    ∃ s rng1 n, GameScene.create 250 none GAME_STATE demoRng = some (s, rng1, n) ∧
      ∀ t : Tile, (t ∈ s.platforms ∧ t.y = 568) ↔ t ∈ groundStrip) :=
  ⟨by decide, ground_strip_layout 250 none GAME_STATE demoRng (by decide)⟩

/-- C26: the island loop of `create()` terminates whatever the draws: one
island moves `nextStructureX` forward by at least 460 and at most 1010, the
loop does nothing once `nextStructureX` is 17000 or more, and started at 600
with fuel for 36 iterations it returns after generating between 17 and 36
islands; so does `create()` with fuel for its longest loop. -/
theorem island_loop_terminates (fuel : Nat) (nextStructureX : Int) (s : GameScene) (rng : Rng)
    (difficulty : Option Difficulty) (gs : GameState) (hf : 36 ≤ fuel) :
    (nextStructureX + 460 ≤ (GameScene.island nextStructureX s rng).2.2 ∧
      (GameScene.island nextStructureX s rng).2.2 ≤ nextStructureX + 1010) ∧
    (17000 ≤ nextStructureX →
      GameScene.islandLoop fuel nextStructureX s rng = some (s, rng, 0)) ∧
    (∃ s1 rng1 n, GameScene.islandLoop fuel 600 s rng = some (s1, rng1, n) ∧
      17 ≤ n ∧ n ≤ 36) ∧
    (250 ≤ fuel →
      ∃ s1 rng1 n, GameScene.create fuel difficulty gs rng = some (s1, rng1, n) ∧
        17 ≤ n ∧ n ≤ 36) := by
  have hfuel : (36 : Int) ≤ (fuel : Int) := by exact_mod_cast hf
  refine ⟨island_next nextStructureX s rng, ?_, ?_, ?_⟩
  · intro hx
    have hb : bossAreaStart - 500 = 17000 := by decide
    have hlt : ¬ nextStructureX < 17000 := by omega
    cases fuel with
    | zero => simp only [GameScene.islandLoop, hb, if_neg hlt]
    | succ m => simp only [GameScene.islandLoop, hb, if_neg hlt]
  · obtain ⟨s1, rng1, n, h1, h2, h3⟩ := islandLoop_count fuel 600 s rng (by omega)
    exact ⟨s1, rng1, n, h1, by omega, by omega⟩
  · intro h250
    obtain ⟨s1, rng1, n, h1, _, h2, h3⟩ := create_spec fuel difficulty gs rng h250
    exact ⟨s1, rng1, n, h1, h2, h3⟩

theorem island_loop_terminates_witness :
    36 ≤ 36 ∧
    (((600 : Int) + 460 ≤ (GameScene.island 600 demoScene demoRng).2.2 ∧
      (GameScene.island 600 demoScene demoRng).2.2 ≤ 600 + 1010) ∧
    ((17000 : Int) ≤ 600 →
      GameScene.islandLoop 36 600 demoScene demoRng = some (demoScene, demoRng, 0)) ∧
    (∃ s1 rng1 n, GameScene.islandLoop 36 600 demoScene demoRng = some (s1, rng1, n) ∧
      17 ≤ n ∧ n ≤ 36) ∧
    (250 ≤ 36 →
      ∃ s1 rng1 n, GameScene.create 36 none GAME_STATE demoRng = some (s1, rng1, n) ∧
        17 ≤ n ∧ n ≤ 36)) :=
  ⟨by decide, island_loop_terminates 36 600 demoScene demoRng none GAME_STATE (by decide)⟩

set_option maxRecDepth 100000 in
theorem grounded_spawn_possible :
    (GameScene.getValidSpawnPosition
      { GameScene.start none GAME_STATE with platforms := groundStrip } true
      { draws := fun _ => 300, cursor := 0 }).1 = some { x := 1300, y := 500 } := by
  decide

/-- C29: in the world `create()` returns every dog stands strictly inside a
pit interval, and every position that `getValidSpawnPosition(true)` returns
there has y = 500, lies strictly inside a pit interval and is at least 74
units away horizontally from every ground tile. -/
theorem grounded_spawn_lies_over_pit (fuel : Nat) (difficulty : Option Difficulty)
    (gs : GameState) (rng : Rng) (hf : 250 ≤ fuel) :
    ∃ s rng1 n, GameScene.create fuel difficulty gs rng = some (s, rng1, n) ∧
      (∀ e ∈ s.enemies, e.kind = EnemyKind.PerroEnemy → ∃ p ∈ pits, p.1 < e.x ∧ e.x < p.2) ∧
      (∀ (rng2 : Rng) (pos : Pos),
        (GameScene.getValidSpawnPosition s true rng2).1 = some pos →
          pos.y = 500 ∧ (∃ p ∈ pits, p.1 < pos.x ∧ pos.x < p.2) ∧
          ∀ t ∈ s.platforms, t.y = 568 → 74 ≤ |pos.x - t.x|) := by
  obtain ⟨s, rng1, n, hc, hinv, _, _⟩ := create_spec fuel difficulty gs rng hf
  refine ⟨s, rng1, n, hc, ?_, ?_⟩
  · intro e he hk
    rcases hinv.2.2.2.1 e he with ⟨h1 | h1, _⟩ | ⟨_, _, _, h2⟩ | ⟨h1, _⟩
    · rw [hk] at h1
      exact absurd h1 (by decide)
    · rw [hk] at h1
      exact absurd h1 (by decide)
    · exact h2
    · rw [hk] at h1
      exact absurd h1 (by decide)
  · intro rng2 pos hpos
    obtain ⟨h1, h2⟩ := grounded_spawn_over_pit s rng2 pos hinv.2.1 hpos
    refine ⟨(spawn_position_facts s true rng2 pos hpos).2.2.1 rfl, h1, ?_⟩
    intro t ht hy
    exact h2 t ((worldInv_ground_tiles s hinv t).mp ⟨ht, hy⟩)
theorem grounded_spawn_lies_over_pit_witness :
    250 ≤ 250 ∧
    (GameScene.getValidSpawnPosition
      { GameScene.start none GAME_STATE with platforms := groundStrip } true
      { draws := fun _ => 300, cursor := 0 }).1 = some { x := 1300, y := 500 } ∧
    ∃ s rng1 n, GameScene.create 250 none GAME_STATE demoRng = some (s, rng1, n) ∧
      (∀ e ∈ s.enemies, e.kind = EnemyKind.PerroEnemy → ∃ p ∈ pits, p.1 < e.x ∧ e.x < p.2) ∧
      (∀ (rng2 : Rng) (pos : Pos),
        (GameScene.getValidSpawnPosition s true rng2).1 = some pos →
          pos.y = 500 ∧ (∃ p ∈ pits, p.1 < pos.x ∧ pos.x < p.2) ∧
          ∀ t ∈ s.platforms, t.y = 568 → 74 ≤ |pos.x - t.x|) :=
  ⟨by decide, grounded_spawn_possible,
    grounded_spawn_lies_over_pit 250 none GAME_STATE demoRng (by decide)⟩

/-- C30: in the world `create()` returns, whatever the draws, every platform
that is not a ground tile has 520 ≤ x ≤ 17489, every crate has x ≤ 17489,
every shooter, patrol and item has x ≤ 17279, every dog and bat has
x ≤ 17000, the player is at x = 100 and no boss exists yet; so every platform
with x ≥ 17500 is a ground tile and nothing else is at x ≥ 17500. -/
theorem generated_objects_before_boss_arena (fuel : Nat) (difficulty : Option Difficulty)
    (gs : GameState) (rng : Rng) (hf : 250 ≤ fuel) :
    ∃ s rng1 n, GameScene.create fuel difficulty gs rng = some (s, rng1, n) ∧
      (∀ t ∈ s.platforms, t.y ≠ 568 → 520 ≤ t.x ∧ t.x ≤ 17489) ∧
      (∀ c ∈ s.crates, c.x ≤ 17489) ∧
      (∀ e ∈ s.enemies,
        (e.kind = EnemyKind.ShooterEnemy ∨ e.kind = EnemyKind.PatrolEnemy) ∧ e.x ≤ 17279 ∨
        (e.kind = EnemyKind.PerroEnemy ∨ e.kind = EnemyKind.MurcielagoEnemy) ∧ e.x ≤ 17000) ∧
      (∀ i ∈ s.items, i.x ≤ 17279) ∧
      s.player.x = 100 ∧
      (∀ t ∈ s.platforms, 17500 ≤ t.x → t ∈ groundStrip) ∧
      (∀ c ∈ s.crates, c.x < 17500) ∧ (∀ e ∈ s.enemies, e.x < 17500) ∧
      (∀ i ∈ s.items, i.x < 17500) := by
  obtain ⟨s, rng1, n, hc, hinv, _, _⟩ := create_spec fuel difficulty gs rng hf
  obtain ⟨h1, h2, h3, h4, h5, h6⟩ := hinv
  have hen : ∀ e ∈ s.enemies,
      (e.kind = EnemyKind.ShooterEnemy ∨ e.kind = EnemyKind.PatrolEnemy) ∧ e.x ≤ 17279 ∨
      (e.kind = EnemyKind.PerroEnemy ∨ e.kind = EnemyKind.MurcielagoEnemy) ∧ e.x ≤ 17000 := by
    intro e he
    rcases h4 e he with ⟨hk, hx⟩ | ⟨hk, _, hx, _⟩ | ⟨hk, _, hx⟩
    · exact Or.inl ⟨hk, hx⟩
    · exact Or.inr ⟨Or.inl hk, hx⟩
    · exact Or.inr ⟨Or.inr hk, hx⟩
  refine ⟨s, rng1, n, hc, ?_, ?_, hen, h5, h6, ?_, ?_, ?_, ?_⟩
  · intro t ht hy
    rcases h1 t ht with hg | ⟨ha, hb, _⟩
    · exact absurd ((groundStrip_characterised t).mp hg).1 hy
    · exact ⟨ha, hb⟩
  · intro c hcm
    exact (h3 c hcm).2
  · intro t ht hx
    rcases h1 t ht with hg | ⟨_, hb, _⟩
    · exact hg
    · omega
  · intro c hcm
    have := (h3 c hcm).2
    omega
  · intro e he
    rcases hen e he with ⟨_, hx⟩ | ⟨_, hx⟩ <;> omega
  · intro i hi
    have := h5 i hi
    omega

theorem generated_objects_before_boss_arena_witness :
    250 ≤ 250 ∧
    ∃ s rng1 n, GameScene.create 250 none GAME_STATE demoRng = some (s, rng1, n) ∧
      (∀ t ∈ s.platforms, t.y ≠ 568 → 520 ≤ t.x ∧ t.x ≤ 17489) ∧
      (∀ c ∈ s.crates, c.x ≤ 17489) ∧
      (∀ e ∈ s.enemies,
        (e.kind = EnemyKind.ShooterEnemy ∨ e.kind = EnemyKind.PatrolEnemy) ∧ e.x ≤ 17279 ∨
        (e.kind = EnemyKind.PerroEnemy ∨ e.kind = EnemyKind.MurcielagoEnemy) ∧ e.x ≤ 17000) ∧
      (∀ i ∈ s.items, i.x ≤ 17279) ∧
      s.player.x = 100 ∧
      (∀ t ∈ s.platforms, 17500 ≤ t.x → t ∈ groundStrip) ∧
      (∀ c ∈ s.crates, c.x < 17500) ∧ (∀ e ∈ s.enemies, e.x < 17500) ∧
      (∀ i ∈ s.items, i.x < 17500) :=
  ⟨by decide, generated_objects_before_boss_arena 250 none GAME_STATE demoRng (by decide)⟩

end SuperGato
